import Mathlib

/-!
# liquid-wlan: SIGNAL field and frame synchronizer

A shallow embedding of `src/wlan_signal.c` and of `src/wlanframesync.c`.
Unsigned machine integers are natural numbers; the three bytes of a SIGNAL
field are the fields `b0 b1 b2` of `signal_bytes`.
-/

namespace WLAN

/-! ## SIGNAL structure (`struct wlan_signal_s`) -/

/-! The rate codes and the structure are declared in
`include/liquid-802-11.internal.h` (there with the prefix `wifi_`/`WIFI_`); the
C file uses them with the prefix `wlan_`/`WLAN_`. -/

/-- The enum value `WLAN_SIGNAL_RATE_6` (BPSK, r1/2, bits 1101). -/
def WLAN_SIGNAL_RATE_6 : Nat := 13
/-- The enum value `WLAN_SIGNAL_RATE_9` (BPSK, r3/4, bits 1111). -/
def WLAN_SIGNAL_RATE_9 : Nat := 15
/-- The enum value `WLAN_SIGNAL_RATE_12` (QPSK, r1/2, bits 0101). -/
def WLAN_SIGNAL_RATE_12 : Nat := 5
/-- The enum value `WLAN_SIGNAL_RATE_18` (QPSK, r3/4, bits 0111). -/
def WLAN_SIGNAL_RATE_18 : Nat := 7
/-- The enum value `WLAN_SIGNAL_RATE_24` (16-QAM, r1/2, bits 1001). -/
def WLAN_SIGNAL_RATE_24 : Nat := 9
/-- The enum value `WLAN_SIGNAL_RATE_36` (16-QAM, r3/4, bits 1011). -/
def WLAN_SIGNAL_RATE_36 : Nat := 11
/-- The enum value `WLAN_SIGNAL_RATE_48` (64-QAM, r2/3, bits 0001). -/
def WLAN_SIGNAL_RATE_48 : Nat := 1
/-- The enum value `WLAN_SIGNAL_RATE_54` (64-QAM, r3/4, bits 0011). -/
def WLAN_SIGNAL_RATE_54 : Nat := 3

/-- The SIGNAL structure: `rate` (enum, an `int`), reserved bit `R`
(`unsigned char`) and `length` (`unsigned int`). -/
structure wlan_signal_s where
  rate : Nat
  R : Nat
  length : Nat
deriving DecidableEq

/-- The 3-byte array `unsigned char _signal[3]`. -/
structure signal_bytes where
  b0 : Nat
  b1 : Nat
  b2 : Nat
deriving DecidableEq

/-- The library routine `liquid_count_ones` of liquid-dsp: the number of ones
among the 32 bits of an `unsigned int`. -/
def liquid_count_ones (x : Nat) : Nat :=
  ((List.range 32).map (fun i => (x >>> i) % 2)).sum

/-- Pack SIGNAL structure into 3-byte array (`wlan_signal_pack`).  Every value
that is or-ed into a byte is at most `0xff`, so the `unsigned char` stores
never truncate. -/
def wlan_signal_pack (q : wlan_signal_s) : signal_bytes :=
  -- initialize output array
  let s0 : Nat := 0x00
  let s1 : Nat := 0x00
  let s2 : Nat := 0x00
  -- pack rate
  let s0 := s0 ||| ((q.rate <<< 4) &&& 0xf0)
  -- pack reserved bit
  let s0 := s0 ||| (if q.R ≠ 0 then 0x08 else 0)
  -- pack length (LSB first)
  let s0 := s0 ||| (if q.length &&& 0x001 ≠ 0 then 0x04 else 0)
  let s0 := s0 ||| (if q.length &&& 0x002 ≠ 0 then 0x02 else 0)
  let s0 := s0 ||| (if q.length &&& 0x004 ≠ 0 then 0x01 else 0)
  let s1 := s1 ||| (if q.length &&& 0x008 ≠ 0 then 0x80 else 0)
  let s1 := s1 ||| (if q.length &&& 0x010 ≠ 0 then 0x40 else 0)
  let s1 := s1 ||| (if q.length &&& 0x020 ≠ 0 then 0x20 else 0)
  let s1 := s1 ||| (if q.length &&& 0x040 ≠ 0 then 0x10 else 0)
  let s1 := s1 ||| (if q.length &&& 0x080 ≠ 0 then 0x08 else 0)
  let s1 := s1 ||| (if q.length &&& 0x100 ≠ 0 then 0x04 else 0)
  let s1 := s1 ||| (if q.length &&& 0x200 ≠ 0 then 0x02 else 0)
  let s1 := s1 ||| (if q.length &&& 0x400 ≠ 0 then 0x01 else 0)
  let s2 := s2 ||| (if q.length &&& 0x800 ≠ 0 then 0x80 else 0)
  -- compute parity and add to message
  let parity := (liquid_count_ones s0 + liquid_count_ones s1 + liquid_count_ones s2) % 2
  let s2 := s2 ||| (if parity ≠ 0 then 0x40 else 0)
  ⟨s0, s1, s2⟩

/-- The two warnings `wlan_signal_unpack` can print on `stderr`. -/
inductive unpack_warning where
  | parity_mismatch
  | invalid_rate
deriving DecidableEq

/-- Everything a call of `wlan_signal_unpack` produces: the structure written
through `_q` and the warnings printed, in order.  The C function returns
`void`. -/
structure unpack_result where
  q : wlan_signal_s
  warnings : List unpack_warning
deriving DecidableEq

/-- Unpack SIGNAL structure from 3-byte array (`wlan_signal_unpack`). -/
def wlan_signal_unpack (s : signal_bytes) : unpack_result :=
  -- compute parity (last byte masked with 6 tail bits)
  let parity := (liquid_count_ones s.b0 + liquid_count_ones s.b1 +
                 liquid_count_ones (s.b2 &&& 0x3f)) % 2
  -- strip parity bit
  let parity_check : Nat := if s.b2 &&& 0x40 ≠ 0 then 1 else 0
  let w1 : List unpack_warning :=
    if parity ≠ parity_check then [unpack_warning.parity_mismatch] else []
  -- strip rate
  let rate := (s.b0 >>> 4) &&& 0x0f
  let rw : Nat × List unpack_warning :=
    if rate = WLAN_SIGNAL_RATE_6 ∨ rate = WLAN_SIGNAL_RATE_9 ∨
       rate = WLAN_SIGNAL_RATE_12 ∨ rate = WLAN_SIGNAL_RATE_18 ∨
       rate = WLAN_SIGNAL_RATE_24 ∨ rate = WLAN_SIGNAL_RATE_36 ∨
       rate = WLAN_SIGNAL_RATE_48 ∨ rate = WLAN_SIGNAL_RATE_54
    then (rate, [])
    else (WLAN_SIGNAL_RATE_6, [unpack_warning.invalid_rate])
  -- unpack reserved bit
  let R : Nat := if s.b0 &&& 0x08 ≠ 0 then 1 else 0
  -- unpack message length
  let length : Nat := 0
  let length := length ||| (if s.b0 &&& 0x04 ≠ 0 then 0x001 else 0)
  let length := length ||| (if s.b0 &&& 0x02 ≠ 0 then 0x002 else 0)
  let length := length ||| (if s.b0 &&& 0x01 ≠ 0 then 0x004 else 0)
  let length := length ||| (if s.b1 &&& 0x80 ≠ 0 then 0x008 else 0)
  let length := length ||| (if s.b1 &&& 0x40 ≠ 0 then 0x010 else 0)
  let length := length ||| (if s.b1 &&& 0x20 ≠ 0 then 0x020 else 0)
  let length := length ||| (if s.b1 &&& 0x10 ≠ 0 then 0x040 else 0)
  let length := length ||| (if s.b1 &&& 0x08 ≠ 0 then 0x080 else 0)
  let length := length ||| (if s.b1 &&& 0x04 ≠ 0 then 0x100 else 0)
  let length := length ||| (if s.b1 &&& 0x02 ≠ 0 then 0x200 else 0)
  let length := length ||| (if s.b1 &&& 0x01 ≠ 0 then 0x400 else 0)
  let length := length ||| (if s.b2 &&& 0x80 ≠ 0 then 0x800 else 0)
  ⟨⟨rw.1, R, length⟩, w1 ++ rw.2⟩

/-- Byte `i` of the field (`_signal[i]`). -/
def signal_bytes.byte (s : signal_bytes) (i : Nat) : Nat :=
  match i with
  | 0 => s.b0
  | 1 => s.b1
  | _ => s.b2

/-- Bit `k` of the 24-bit field, numbered MSB-first from bit 0 = most
significant bit of byte 0. -/
def signal_bit (s : signal_bytes) (k : Nat) : Nat :=
  (s.byte (k / 8) >>> (7 - k % 8)) % 2

/-- The 8 defined rate codes. -/
def valid_rate (r : Nat) : Prop :=
  r = WLAN_SIGNAL_RATE_6 ∨ r = WLAN_SIGNAL_RATE_9 ∨
  r = WLAN_SIGNAL_RATE_12 ∨ r = WLAN_SIGNAL_RATE_18 ∨
  r = WLAN_SIGNAL_RATE_24 ∨ r = WLAN_SIGNAL_RATE_36 ∨
  r = WLAN_SIGNAL_RATE_48 ∨ r = WLAN_SIGNAL_RATE_54

instance (r : Nat) : Decidable (valid_rate r) := by
  unfold valid_rate; infer_instance

/-- The parity test of `wlan_signal_unpack`: the parity it computes from the
bytes equals the parity bit it strips (no `parity mismatch` warning). -/
def unpack_parity_ok (s : signal_bytes) : Prop :=
  (liquid_count_ones s.b0 + liquid_count_ones s.b1 + liquid_count_ones (s.b2 &&& 0x3f)) % 2
    = (if s.b2 &&& 0x40 ≠ 0 then 1 else 0)

instance (s : signal_bytes) : Decidable (unpack_parity_ok s) := by
  unfold unpack_parity_ok; infer_instance

/-- Even parity of the field: bit 17 is the sum modulo 2 of bits 0-16. -/
def signal_parity_ok (s : signal_bytes) : Prop :=
  signal_bit s 17 = (Finset.sum (Finset.range 17) (signal_bit s)) % 2

instance (s : signal_bytes) : Decidable (signal_parity_ok s) := by
  unfold signal_parity_ok; infer_instance

/-- The rate nibble of the field: bits 0-3, the high nibble of byte 0. -/
def signal_rate_nibble (s : signal_bytes) : Nat := (s.b0 >>> 4) &&& 0x0f

/-- The length the 12 length bits (bits 5-16, LSB first) decode to. -/
def signal_length_bits (s : signal_bytes) : Nat :=
  Finset.sum (Finset.range 12) (fun i => signal_bit s (5 + i) * 2 ^ i)

/-- The only way `wlan_signal_unpack` signals a bad field is a warning: the
field is accepted when no warning is printed. -/
def unpack_accepts (s : signal_bytes) : Prop := (wlan_signal_unpack s).warnings = []

instance (s : signal_bytes) : Decidable (unpack_accepts s) := by
  unfold unpack_accepts; infer_instance

/-! ### Bit forms of the packed bytes (used by the proofs) -/

/-- Byte 0 as `wlan_signal_pack` builds it, with the three length tests given as bits. -/
def pack_form0 (r R a b c : Nat) : Nat :=
  ((((0 ||| ((r <<< 4) &&& 0xf0)) ||| (if R ≠ 0 then 0x08 else 0)) ||| 0x04 * a) ||| 0x02 * b)
    ||| 0x01 * c

/-- Byte 1 as `wlan_signal_pack` builds it, with the eight length tests given as bits. -/
def pack_form1 (a b c d e f g h : Nat) : Nat :=
  (((((((0 ||| 0x80 * a) ||| 0x40 * b) ||| 0x20 * c) ||| 0x10 * d) ||| 0x08 * e) ||| 0x04 * f)
    ||| 0x02 * g) ||| 0x01 * h

/-- Byte 2 as `wlan_signal_pack` builds it: length test `l`, then parity `p`. -/
def pack_form2 (l p : Nat) : Nat :=
  (0 ||| 0x80 * l) ||| (if p ≠ 0 then 0x40 else 0)

/-- The length as `wlan_signal_unpack` builds it, with the twelve byte tests given as bits. -/
def unpack_form (a b c d e f g h i j k l : Nat) : Nat :=
  (((((((((((0 ||| 0x001 * a) ||| 0x002 * b) ||| 0x004 * c) ||| 0x008 * d) ||| 0x010 * e)
    ||| 0x020 * f) ||| 0x040 * g) ||| 0x080 * h) ||| 0x100 * i) ||| 0x200 * j) ||| 0x400 * k)
    ||| 0x800 * l

/-- What the bits of byte 0 are, for given rate, `R` and length bits. -/
def form0_spec (r R a b c : Nat) : Prop :=
  pack_form0 r R a b c < 256 ∧
  pack_form0 r R a b c >>> 7 % 2 = r >>> 3 % 2 ∧
  pack_form0 r R a b c >>> 6 % 2 = r >>> 2 % 2 ∧
  pack_form0 r R a b c >>> 5 % 2 = r >>> 1 % 2 ∧
  pack_form0 r R a b c >>> 4 % 2 = r >>> 0 % 2 ∧
  pack_form0 r R a b c >>> 3 % 2 = R ∧
  pack_form0 r R a b c >>> 2 % 2 = a ∧
  pack_form0 r R a b c >>> 1 % 2 = b ∧
  pack_form0 r R a b c >>> 0 % 2 = c ∧
  (pack_form0 r R a b c >>> 4) &&& 0x0f = r

instance (r R a b c : Nat) : Decidable (form0_spec r R a b c) := by
  unfold form0_spec; infer_instance

/-- What the bits of byte 1 are, for given length bits. -/
def form1_spec (a b c d e f g h : Nat) : Prop :=
  pack_form1 a b c d e f g h < 256 ∧
  pack_form1 a b c d e f g h >>> 7 % 2 = a ∧
  pack_form1 a b c d e f g h >>> 6 % 2 = b ∧
  pack_form1 a b c d e f g h >>> 5 % 2 = c ∧
  pack_form1 a b c d e f g h >>> 4 % 2 = d ∧
  pack_form1 a b c d e f g h >>> 3 % 2 = e ∧
  pack_form1 a b c d e f g h >>> 2 % 2 = f ∧
  pack_form1 a b c d e f g h >>> 1 % 2 = g ∧
  pack_form1 a b c d e f g h >>> 0 % 2 = h

instance (a b c d e f g h : Nat) : Decidable (form1_spec a b c d e f g h) := by
  unfold form1_spec; infer_instance

/-- What the bits of byte 2 are, for given length bit and parity. -/
def form2_spec (l p : Nat) : Prop :=
  pack_form2 l p < 256 ∧
  pack_form2 l p >>> 7 % 2 = l ∧
  pack_form2 l p >>> 6 % 2 = p ∧
  pack_form2 l p >>> 5 % 2 = 0 ∧
  pack_form2 l p >>> 4 % 2 = 0 ∧
  pack_form2 l p >>> 3 % 2 = 0 ∧
  pack_form2 l p >>> 2 % 2 = 0 ∧
  pack_form2 l p >>> 1 % 2 = 0 ∧
  pack_form2 l p >>> 0 % 2 = 0 ∧
  liquid_count_ones (0 ||| 0x80 * l) = l

instance (l p : Nat) : Decidable (form2_spec l p) := by
  unfold form2_spec; infer_instance

/-! ## Frame synchronizer (`wlanframesync.c`)

`float` values are modelled by rationals, `float complex` samples by pairs of
rationals, with exact arithmetic.  The routines of libm, of liquid-dsp and of
the other source files of the library (FFT, oscillator, polynomial fit, modem,
interleaver, decoder) are the fields of `dsp_env`, a parameter of the
definitions. -/

/-- A complex baseband sample (`float complex`): real and imaginary part. -/
abbrev sample := ℚ × ℚ

/-- The liquid-dsp window buffer `windowcf`: the samples held, oldest first. -/
abbrev windowcf := List sample

/-- The liquid-dsp routine `windowcf_create(n)`: a window of `n` zeros. -/
def windowcf_create (n : Nat) : windowcf := List.replicate n (0, 0)

/-- The liquid-dsp routine `windowcf_reset`: the window is cleared to zeros. -/
def windowcf_reset (w : windowcf) : windowcf := List.replicate w.length (0, 0)

/-- The liquid-dsp oscillator `nco_crcf`: phase and frequency. -/
structure nco_crcf where
  theta : ℚ
  d_theta : ℚ

/-- The liquid-dsp routine `nco_crcf_create`: phase and frequency zero. -/
def nco_crcf_create : nco_crcf := ⟨0, 0⟩

/-- The liquid-dsp routine `nco_crcf_reset`: phase and frequency back to zero. -/
def nco_crcf_reset (_n : nco_crcf) : nco_crcf := ⟨0, 0⟩

/-- Modelled from the spec: the pilot sequence generator `wlan_lfsr` (its source
`wlan_lfsr.c` is not among the files), "a length-7 LFSR with seed `0x7f`,
polynomial `0x91`": register length `m`, generator polynomial `g`, seed `a` and
the shift register `v`. -/
structure wlan_lfsr where
  m : Nat
  g : Nat
  a : Nat
  v : Nat

/-- Modelled from the spec: `wlan_lfsr_create(m, g, a)` makes a generator whose
shift register holds the seed. -/
def wlan_lfsr_create (m g a : Nat) : wlan_lfsr := ⟨m, g, a, a⟩

/-- Modelled from the spec: `wlan_lfsr_reset` ("clear counters and LFSR", "after
`reset` ... LFSR = 0x7f") puts the shift register back at the seed. -/
def wlan_lfsr_reset (l : wlan_lfsr) : wlan_lfsr := { l with v := l.a }

/-- Modelled from the spec: the modulation schemes of the rate table
(`WLAN_MODEM_BPSK`, ...), declared in a header that is not among the files. -/
inductive wlan_modem_scheme where
  | WLAN_MODEM_BPSK
  | WLAN_MODEM_QPSK
  | WLAN_MODEM_QAM16
  | WLAN_MODEM_QAM64

/-- Modelled from the spec: a row of the rate table `wlanframe_ratetab` (declared
in a header that is not among the files): data bits, coded bits per OFDM symbol,
bits per subcarrier and modulation scheme. -/
structure wlanframe_param_s where
  ndbps : Nat
  ncbps : Nat
  nbpsc : Nat
  mod_scheme : wlan_modem_scheme

/-- The rate index `WLANFRAME_RATE_6` of `liquid-wlan.h`. -/
def WLANFRAME_RATE_6 : Nat := 0
/-- The rate index `WLANFRAME_RATE_9` of `liquid-wlan.h`. -/
def WLANFRAME_RATE_9 : Nat := 1
/-- The rate index `WLANFRAME_RATE_12` of `liquid-wlan.h`. -/
def WLANFRAME_RATE_12 : Nat := 2
/-- The rate index `WLANFRAME_RATE_18` of `liquid-wlan.h`. -/
def WLANFRAME_RATE_18 : Nat := 3
/-- The rate index `WLANFRAME_RATE_24` of `liquid-wlan.h`. -/
def WLANFRAME_RATE_24 : Nat := 4
/-- The rate index `WLANFRAME_RATE_36` of `liquid-wlan.h`. -/
def WLANFRAME_RATE_36 : Nat := 5
/-- The rate index `WLANFRAME_RATE_48` of `liquid-wlan.h`. -/
def WLANFRAME_RATE_48 : Nat := 6
/-- The rate index `WLANFRAME_RATE_54` of `liquid-wlan.h`. -/
def WLANFRAME_RATE_54 : Nat := 7

/-- Modelled from the spec: the rate table `wlanframe_ratetab`, "an immutable
mapping from the 8 standardized rates to (modulation, code_rate, ndbps, ncbps,
nbpsc, signal_code)", indexed by `WLANFRAME_RATE_*`; the table itself is not
among the files.  An index above 7 is read as the last row. -/
def wlanframe_ratetab (rate : Nat) : wlanframe_param_s :=
  match rate with
  | 0 => ⟨24, 48, 1, wlan_modem_scheme.WLAN_MODEM_BPSK⟩
  | 1 => ⟨36, 48, 1, wlan_modem_scheme.WLAN_MODEM_BPSK⟩
  | 2 => ⟨48, 96, 2, wlan_modem_scheme.WLAN_MODEM_QPSK⟩
  | 3 => ⟨72, 96, 2, wlan_modem_scheme.WLAN_MODEM_QPSK⟩
  | 4 => ⟨96, 192, 4, wlan_modem_scheme.WLAN_MODEM_QAM16⟩
  | 5 => ⟨144, 192, 4, wlan_modem_scheme.WLAN_MODEM_QAM16⟩
  | 6 => ⟨192, 288, 6, wlan_modem_scheme.WLAN_MODEM_QAM64⟩
  | _ => ⟨216, 288, 6, wlan_modem_scheme.WLAN_MODEM_QAM64⟩

/-- The states of the synchronizer (the `enum` of `struct wlanframesync_s`). -/
inductive wlanframesync_state where
  | WLANFRAMESYNC_STATE_SEEKPLCP
  | WLANFRAMESYNC_STATE_RXSHORT0
  | WLANFRAMESYNC_STATE_RXSHORT1
  | WLANFRAMESYNC_STATE_RXLONG0
  | WLANFRAMESYNC_STATE_RXLONG1
  | WLANFRAMESYNC_STATE_RXSIGNAL
  | WLANFRAMESYNC_STATE_RXDATA
deriving DecidableEq

/-- The synchronizer object `struct wlanframesync_s`.  `callback` tells whether
the callback pointer is non-NULL; arrays are lists; the FFT plan and the user
data pointer are left out. -/
structure wlanframesync_s where
  callback : Bool
  rate : Nat
  length : Nat
  seed : Nat
  input_buffer : windowcf
  nco_rx : nco_crcf
  ms_pilot : wlan_lfsr
  mod_scheme : wlan_modem_scheme
  phi_prime : ℚ
  g0 : ℚ
  ndbps : Nat
  ncbps : Nat
  nbpsc : Nat
  dec_msg_len : Nat
  enc_msg_len : Nat
  nsym : Nat
  ndata : Nat
  npad : Nat
  bytes_per_symbol : Nat
  signal_valid : Int
  state : wlanframesync_state
  timer : Int
  num_symbols : Nat
  X : List sample
  x : List sample
  G0a : List sample
  G0b : List sample
  s0a_hat : sample
  s0b_hat : sample
  G1a : List sample
  G1b : List sample
  s1a_hat : sample
  s1b_hat : sample
  G : List sample
  R : List sample
  signal_int : List Nat
  signal_enc : List Nat
  signal_dec : List Nat
  msg_enc : List Nat
  msg_dec : List Nat
  modem_syms : List Nat

/-- Conversion of an `unsigned int` value to `int` (two's complement, 32 bits). -/
def to_int (x : Nat) : Int :=
  if x % 2 ^ 32 < 2 ^ 31 then ((x % 2 ^ 32 : Nat) : Int) else ((x % 2 ^ 32 : Nat) : Int) - 2 ^ 32

/-- Conversion of an `int` value to `unsigned int` (reduction modulo `2^32`). -/
def to_uint (x : Int) : Nat := (x % 2 ^ 32).toNat

/-- Reset the synchronizer (`wlanframesync_reset`). -/
def wlanframesync_reset (q : wlanframesync_s) : wlanframesync_s :=
  { q with
    -- clear buffer
    input_buffer := windowcf_reset q.input_buffer
    -- reset NCO object
    nco_rx := nco_crcf_reset q.nco_rx
    -- reset timers/state
    state := wlanframesync_state.WLANFRAMESYNC_STATE_SEEKPLCP
    timer := 0
    num_symbols := 0
    phi_prime := 0
    -- reset pilot sequence generator
    ms_pilot := wlan_lfsr_reset q.ms_pilot }

/-- Modelled from the spec: `wlan_packet_compute_enc_msg_len(rate, length)` of
`wlan_packet.c`, which is not among the files: `nsym = ceil((16 + 8·length + 6)
/ ndbps)`, `ndata = nsym · ndbps`, `dec_msg_len = ndata / 8`, `enc_msg_len =
dec_msg_len · ncbps / ndbps`. -/
def wlan_packet_compute_enc_msg_len (rate length : Nat) : Nat :=
  let ndbps := (wlanframe_ratetab rate).ndbps
  let ncbps := (wlanframe_ratetab rate).ncbps
  let nsym := (16 + 8 * length + 6 + ndbps - 1) / ndbps
  let ndata := nsym * ndbps
  let dec_msg_len := ndata / 8
  dec_msg_len * ncbps / ndbps

/-- Create the synchronizer (`wlanframesync_create`).  `mem` is the content of
the freshly allocated object: the fields that are not assigned keep it. -/
def wlanframesync_create (callback : Bool) (mem : wlanframesync_s) : wlanframesync_s :=
  -- set initial properties
  let rate : Nat := WLANFRAME_RATE_6
  let length : Nat := 100
  let seed : Nat := 0x5d
  -- allocate memory for encoded message
  let enc_msg_len : Nat := wlan_packet_compute_enc_msg_len rate length
  -- allocate memory for decoded message
  let dec_msg_len : Nat := 1
  -- reset object
  wlanframesync_reset { mem with
    -- set callback data
    callback := callback
    -- create input buffer the length of the transform
    input_buffer := windowcf_create 80
    -- synchronizer objects
    nco_rx := nco_crcf_create
    ms_pilot := wlan_lfsr_create 7 0x91 0x7f
    mod_scheme := wlan_modem_scheme.WLAN_MODEM_BPSK
    rate := rate
    length := length
    seed := seed
    enc_msg_len := enc_msg_len
    dec_msg_len := dec_msg_len }

/-- What the 4-argument `wlan_signal_unpack` called by `wlanframesync_decode_signal`
leaves behind (it is declared in a header that is not among the files): its
return value and the rate and length it stores. -/
structure signal_unpacked where
  valid : Int
  rate : Nat
  length : Nat

/-- Decode the SIGNAL field (`wlanframesync_decode_signal`).  The de-interleaver,
the decoder and the unpacker are outside the files: their outcome is `u`; the
rate table is `ratetab`.  The fields the C code assigns one after the other are
bound one after the other and stored at the end.  The result is `none` where
the C code divides by zero. -/
def wlanframesync_decode_signal (u : signal_unpacked) (ratetab : Nat → wlanframe_param_s)
    (q : wlanframesync_s) : Option wlanframesync_s :=
  -- unpack
  let signal_valid : Int := u.valid
  let rate : Nat := u.rate
  let length : Nat := u.length
  -- check validity
  if signal_valid = 0 then
    some { q with signal_valid := signal_valid, rate := rate, length := length }
  else
  -- compute frame parameters
  let ndbps : Nat := (ratetab rate).ndbps
  let ncbps : Nat := (ratetab rate).ncbps
  let nbpsc : Nat := (ratetab rate).nbpsc
  -- compute number of OFDM symbols
  let numer : Int := to_int ((16 + 8 * length + 6) % 2 ^ 32)
  let denom : Int := to_int ndbps
  if denom = 0 then none else
  let d_quot : Int := Int.tdiv numer denom
  let d_rem : Int := Int.tmod numer denom
  let nsym : Nat := to_uint (d_quot + (if d_rem = 0 then 0 else 1))
  -- compute number of bits in the DATA field
  let ndata : Nat := (nsym * ndbps) % 2 ^ 32
  -- compute number of pad bits
  let npad : Nat := to_uint ((ndata : Int) - (((16 + 8 * length + 6) % 2 ^ 32 : Nat) : Int))
  -- compute decoded message length (number of data bytes)
  let dec_msg_len : Nat := ndata / 8
  -- compute encoded message length (number of data bytes)
  if ndbps = 0 then none else
  let enc_msg_len : Nat := ((dec_msg_len * ncbps) % 2 ^ 32) / ndbps
  -- compute number of encoded data bytes per OFDM symbol
  if nsym = 0 then none else
  let bytes_per_symbol : Nat := enc_msg_len / nsym
  -- re-create modem object
  let mod_scheme : wlan_modem_scheme := (ratetab rate).mod_scheme
  some { q with
    signal_valid := signal_valid, rate := rate, length := length,
    ndbps := ndbps, ncbps := ncbps, nbpsc := nbpsc, nsym := nsym, ndata := ndata,
    npad := npad, dec_msg_len := dec_msg_len, enc_msg_len := enc_msg_len,
    bytes_per_symbol := bytes_per_symbol, mod_scheme := mod_scheme }

/-- An all-zero object, as a concrete content of allocated memory. -/
def wlanframesync_zero : wlanframesync_s :=
  { callback := false, rate := 0, length := 0, seed := 0, input_buffer := [],
    nco_rx := ⟨0, 0⟩, ms_pilot := ⟨0, 0, 0, 0⟩,
    mod_scheme := wlan_modem_scheme.WLAN_MODEM_BPSK, phi_prime := 0, g0 := 0,
    ndbps := 0, ncbps := 0, nbpsc := 0, dec_msg_len := 0, enc_msg_len := 0, nsym := 0,
    ndata := 0, npad := 0, bytes_per_symbol := 0, signal_valid := 0,
    state := wlanframesync_state.WLANFRAMESYNC_STATE_SEEKPLCP, timer := 0, num_symbols := 0,
    X := [], x := [], G0a := [], G0b := [], s0a_hat := (0, 0), s0b_hat := (0, 0),
    G1a := [], G1b := [], s1a_hat := (0, 0), s1b_hat := (0, 0), G := [], R := [],
    signal_int := [], signal_enc := [], signal_dec := [], msg_enc := [], msg_dec := [],
    modem_syms := [] }

/-- The 8 values of `ndbps` in the rate table. -/
def std_ndbps (n : Nat) : Prop :=
  n = 24 ∨ n = 36 ∨ n = 48 ∨ n = 72 ∨ n = 96 ∨ n = 144 ∨ n = 192 ∨ n = 216

instance (n : Nat) : Decidable (std_ndbps n) := by
  unfold std_ndbps; infer_instance

/-- The 8 rows `(ndbps, ncbps)` of the rate table. -/
def std_row (ndbps ncbps : Nat) : Prop :=
  (ndbps = 24 ∧ ncbps = 48) ∨ (ndbps = 36 ∧ ncbps = 48) ∨ (ndbps = 48 ∧ ncbps = 96) ∨
  (ndbps = 72 ∧ ncbps = 96) ∨ (ndbps = 96 ∧ ncbps = 192) ∨ (ndbps = 144 ∧ ncbps = 192) ∨
  (ndbps = 192 ∧ ncbps = 288) ∨ (ndbps = 216 ∧ ncbps = 288)

instance (ndbps ncbps : Nat) : Decidable (std_row ndbps ncbps) := by
  unfold std_row; infer_instance

/-! ### Samples, constants and library services -/

/-- Complex sum. -/
def cadd (a b : sample) : sample := (a.1 + b.1, a.2 + b.2)

/-- Complex product. -/
def cmul (a b : sample) : sample := (a.1 * b.1 - a.2 * b.2, a.1 * b.2 + a.2 * b.1)

/-- Complex conjugate (`conjf`). -/
def conjf (a : sample) : sample := (a.1, -a.2)

/-- Complex negation. -/
def cneg (a : sample) : sample := (-a.1, -a.2)

/-- Product of a complex value and a real one. -/
def cscale (a : sample) (r : ℚ) : sample := (a.1 * r, a.2 * r)

/-- Real part (`crealf`). -/
def crealf (a : sample) : ℚ := a.1

/-- Imaginary part (`cimagf`). -/
def cimagf (a : sample) : ℚ := a.2

/-- The constant `M_PI` of `math.h`, the decimal written there. -/
def M_PI : ℚ := 3.14159265358979323846

/-- The constant `M_2_PI` of `math.h`, the decimal written there: it is `2/pi`. -/
def M_2_PI : ℚ := 0.63661977236758134308

/-- The libm routine `roundf`, followed by the conversion to `int`: the nearest
integer, halves away from zero. -/
def roundf (t : ℚ) : Int := if 0 ≤ t then ⌊t + 1 / 2⌋ else -⌊-t + 1 / 2⌋

/-- The liquid-dsp routine `windowcf_push`: the sample is appended and the
oldest one is dropped. -/
def windowcf_push (w : windowcf) (v : sample) : windowcf := (w ++ [v]).drop 1

/-- The liquid-dsp routine `windowcf_read`: the samples, oldest first. -/
def windowcf_read (w : windowcf) : List sample := w

/-- The liquid-dsp routine `nco_crcf_set_frequency`. -/
def nco_crcf_set_frequency (n : nco_crcf) (f : ℚ) : nco_crcf := { n with d_theta := f }

/-- The liquid-dsp routine `nco_crcf_adjust_frequency`. -/
def nco_crcf_adjust_frequency (n : nco_crcf) (df : ℚ) : nco_crcf :=
  { n with d_theta := n.d_theta + df }

/-- The liquid-dsp routine `polyf_val`: the polynomial with the `k` coefficients
`p`, lowest order first, at `t`. -/
def polyf_val (p : List ℚ) (k : Nat) (t : ℚ) : ℚ :=
  ((List.range k).map (fun i => p.getD i 0 * t ^ i)).sum

/-- What `liquid_wlan_repack_bytes` leaves behind: the bytes written and their
number. -/
structure repack_result where
  bytes : List Nat
  num_written : Nat

/-- The RXVECTOR parameters structure (`struct wlan_rxvector_s`). -/
structure wlan_rxvector_s where
  LENGTH : Nat
  RSSI : Nat
  DATARATE : Nat
  SERVICE : Nat
deriving DecidableEq

/-- One invocation of the user callback: the decoded message buffer and the
RXVECTOR handed over. -/
structure callback_call where
  msg_dec : List Nat
  rxvector : wlan_rxvector_s
deriving DecidableEq

/-- The services the synchronizer calls and whose code is outside
`wlanframesync.c`: libm (`cabsf`, `cargf`, `cexpf`, `log10f`, the conversion of a
`float` to `unsigned int`), liquid-dsp (FFT, oscillator, polynomial fit) and the
other source files of the library (preamble tables, rate table, pilot
generator, modem, repacker, packet decoder, interleaver, convolutional decoder
and the 4-argument `wlan_signal_unpack`). -/
structure dsp_env where
  fft : List sample → List sample
  cabsf : sample → ℚ
  cargf : sample → ℚ
  cexpf_I : ℚ → sample
  log10f : ℚ → ℚ
  float_to_uint : ℚ → Nat
  nco_crcf_mix_down : nco_crcf → sample → sample
  nco_crcf_step : nco_crcf → nco_crcf
  polyf_fit : List ℚ → List ℚ → Nat → Nat → List ℚ
  wlanframe_S0 : Nat → sample
  wlanframe_S1 : Nat → sample
  wlanframe_ratetab : Nat → wlanframe_param_s
  wlan_lfsr_advance : wlan_lfsr → Nat × wlan_lfsr
  wlan_demodulate : wlan_modem_scheme → sample → Nat
  liquid_wlan_repack_bytes : List Nat → Nat → Nat → Nat → Nat → repack_result
  wlan_packet_decode : Nat → Nat → Nat → List Nat → List Nat → List Nat
  wlan_interleaver_decode_symbol : Nat → List Nat → List Nat
  wlan_fec_decode : Nat → Nat → List Nat → List Nat
  wlan_signal_unpack : List Nat → signal_unpacked

/-- The scheme `LIQUID_WLAN_FEC_R1_2` (rate 1/2); its value is declared in a
header outside `src`, the first scheme is taken. -/
def LIQUID_WLAN_FEC_R1_2 : Nat := 0

/-- Decode SIGNAL field using half-rate convolutional code
(`wlan_fec_signal_decode` of `wlan_signal.c`). -/
def wlan_fec_signal_decode (env : dsp_env) (msg_enc : List Nat) : List Nat :=
  env.wlan_fec_decode LIQUID_WLAN_FEC_R1_2 3 msg_enc

/-- NULL subcarrier test of the loops: `k == 0 || (k > 26 && k < 38)`. -/
def subcarrier_null (k : Nat) : Bool := k == 0 || (k > 26 && k < 38)

/-- PILOT subcarrier test of the loops: `k==43 || k==57 || k==7 || k==21`. -/
def subcarrier_pilot (k : Nat) : Bool := k == 43 || k == 57 || k == 7 || k == 21

/-- What `wlanframesync_estimate_gain_S0` and `wlanframesync_estimate_gain_S1`
write: the FFT buffers `x`, `X` of the object and the gain array. -/
structure gain_estimate where
  x : List sample
  X : List sample
  G : List sample

/-- The subcarriers on which the short sequence is not zero, as the C code
lists them. -/
def S0_subcarriers : List Nat := [40, 44, 48, 52, 56, 60, 4, 8, 12, 16, 20, 24]

/-- Estimate short sequence gain (`wlanframesync_estimate_gain_S0`); `xin` is
the input array, of which 64 samples are used. -/
def wlanframesync_estimate_gain_S0 (env : dsp_env) (xin : List sample) : gain_estimate :=
  -- move input array into fft input buffer
  let x := xin.take 64
  -- compute fft, storing result into X
  let X := env.fft x
  let gain : ℚ := 0.054127
  -- clear input, then set the 12 gains
  let G := (List.range 64).map (fun i =>
    if i ∈ S0_subcarriers then cscale (cmul (X.getD i 0) (conjf (env.wlanframe_S0 i))) gain
    else (0, 0))
  ⟨x, X, G⟩

/-- The pairs of subcarriers `wlanframesync_S0_metrics` multiplies, in order. -/
def S0_metric_pairs : List (Nat × Nat) :=
  [(44, 40), (48, 44), (52, 48), (56, 52), (60, 56), (8, 4), (12, 8), (16, 12), (20, 16),
    (24, 20)]

/-- Compute S0 metrics (`wlanframesync_S0_metrics`). -/
def wlanframesync_S0_metrics (G : List sample) : sample :=
  let s_hat := S0_metric_pairs.foldl
    (fun s p => cadd s (cmul (G.getD p.1 0) (conjf (G.getD p.2 0)))) (0, 0)
  -- set output values, normalizing by number of elements
  cscale s_hat 0.1

/-- Estimate carrier frequency offset from S0 gains (`wlanframesync_estimate_cfo_S0`). -/
def wlanframesync_estimate_cfo_S0 (env : dsp_env) (G0a G0b : List sample) : ℚ :=
  let g_hat := S0_subcarriers.foldl
    (fun s k => cadd s (cmul (G0b.getD k 0) (conjf (G0a.getD k 0)))) (0, 0)
  4 * env.cargf g_hat / 64

/-- Estimate long sequence gain (`wlanframesync_estimate_gain_S1`). -/
def wlanframesync_estimate_gain_S1 (env : dsp_env) (xin : List sample) : gain_estimate :=
  -- move input array into fft input buffer
  let x := xin.take 64
  -- compute fft, storing result into X
  let X := env.fft x
  -- nominal gain (normalization factor)
  let gain : ℚ := 0.11267
  -- compute gain, ignoring NULL subcarriers
  let G := (List.range 64).map (fun i =>
    if subcarrier_null i then (0, 0)
    else cscale (cmul (X.getD i 0) (conjf (env.wlanframe_S1 i))) gain)
  ⟨x, X, G⟩

/-- Compute S1 metrics (`wlanframesync_S1_metrics`). -/
def wlanframesync_S1_metrics (G : List sample) : sample :=
  let s_hat := (List.range 64).foldl
    (fun s i => cadd s (cmul (G.getD ((i + 1) % 64) 0) (conjf (G.getD i 0)))) (0, 0)
  -- set output values, normalizing by number of elements
  cscale s_hat 0.019231

/-- Estimate carrier frequency offset from S1 gains (`wlanframesync_estimate_cfo_S1`). -/
def wlanframesync_estimate_cfo_S1 (env : dsp_env) (G1a G1b : List sample) : ℚ :=
  let g_hat := (List.range 64).foldl
    (fun s i => cadd s (cmul (G1b.getD i 0) (conjf (G1a.getD i 0)))) (0, 0)
  env.cargf g_hat / 64

/-! ### Equalizer and symbol recovery -/

/-- The loop `while ((y - prev) > M_PI) y -= 2*M_PI;`, run for at most `n` turns. -/
def unwrap_down : Nat → ℚ → ℚ → ℚ
  | 0, _, y => y
  | n + 1, prev, y => if y - prev > M_PI then unwrap_down n prev (y - 2 * M_PI) else y

/-- The loop `while ((y - prev) < -M_PI) y += 2*M_PI;`, run for at most `n` turns. -/
def unwrap_up : Nat → ℚ → ℚ → ℚ
  | 0, _, y => y
  | n + 1, prev, y => if y - prev < -M_PI then unwrap_up n prev (y + 2 * M_PI) else y

/-- A number of turns that the two loops on `y - prev` do not exceed. -/
def unwrap_turns (prev y : ℚ) : Nat := (⌊|y - prev| / (2 * M_PI)⌋).toNat + 1

/-- The loop `for (i=1; i<52; i++)` that unwraps the phase array: every entry
is compared with the entry before it, already unwrapped. -/
def unwrap_phase : ℚ → List ℚ → List ℚ
  | _, [] => []
  | prev, y :: ys =>
    let y1 := unwrap_down (unwrap_turns prev y) prev y
    let y2 := unwrap_up (unwrap_turns prev y1) prev y1
    y2 :: unwrap_phase y2 ys

/-- The subcarriers that are not NULL, in the order of the loop `k = (i + 32) % 64`. -/
def eq_subcarriers : List Nat :=
  ((List.range 64).map (fun i => (i + 32) % 64)).filter (fun k => !subcarrier_null k)

/-- The frequency of subcarrier `k`: `(k > 31) ? k - 64 : k`. -/
def subcarrier_freq (k : Nat) : ℚ := if k > 31 then (k : ℚ) - 64 else (k : ℚ)

/-- What `wlanframesync_estimate_eqgain_poly` writes: the arrays `G` and `R`. -/
structure eqgain_estimate where
  G : List sample
  R : List sample

/-- Estimate complex equalizer gain from G0 and G1 using polynomial fit
(`wlanframesync_estimate_eqgain_poly`).  The counter `n` of the C loop ends at
52, the length of `eq_subcarriers`, so its two assertions hold. -/
def wlanframesync_estimate_eqgain_poly (env : dsp_env) (G1b : List sample) : eqgain_estimate :=
  -- polynomial order
  let order : Nat := 2
  -- average complex gains
  let x_eq : List ℚ := eq_subcarriers.map (fun k => subcarrier_freq k / 64)
  let y_eq_abs : List ℚ := eq_subcarriers.map (fun k => env.cabsf (G1b.getD k 0))
  let y_eq_arg : List ℚ := eq_subcarriers.map (fun k => env.cargf (G1b.getD k 0))
  -- try to unwrap phase
  let y_eq_arg : List ℚ :=
    match y_eq_arg with
    | [] => []
    | y0 :: ys => y0 :: unwrap_phase y0 ys
  -- fit to polynomial(s)
  let p_eq_abs := env.polyf_fit x_eq y_eq_abs 52 (order + 1)
  let p_eq_arg := env.polyf_fit x_eq y_eq_arg 52 (order + 1)
  -- compute subcarrier gain
  let G := (List.range 64).map (fun i =>
    if subcarrier_null i then (0, 0)
    else
      let freq := subcarrier_freq i / 64
      let A := polyf_val p_eq_abs (order + 1) freq
      let theta := polyf_val p_eq_arg (order + 1) freq
      cscale (env.cexpf_I theta) A)
  let R := (List.range 64).map (fun i =>
    if subcarrier_null i then (0, 0)
    else
      let freq := subcarrier_freq i / 64
      let A := polyf_val p_eq_abs (order + 1) freq
      let theta := polyf_val p_eq_arg (order + 1) freq
      cscale (env.cexpf_I (-theta)) (0.11267 / (A + 1e-12)))
  ⟨G, R⟩

/-- The phase error of `wlanframesync_rxsymbol`, as the C code computes it:
`dphi_prime = p_phase[0] - phi_prime`, then `if (dphi_prime > M_PI) dphi_prime
-= M_2_PI;` and `if (dphi_prime < -M_PI) dphi_prime += M_2_PI;`. -/
def rxsymbol_dphi_prime (p_phase0 phi_prime : ℚ) : ℚ :=
  let dphi_prime := p_phase0 - phi_prime
  let dphi_prime := if dphi_prime > M_PI then dphi_prime - M_2_PI else dphi_prime
  if dphi_prime < -M_PI then dphi_prime + M_2_PI else dphi_prime

/-- One unwrap step of the pilot phases: `if ((y - prev) > M_PI) y -= 2*M_PI;`
then `if ((y - prev) < -M_PI) y += 2*M_PI;`. -/
def pilot_unwrap (prev y : ℚ) : ℚ :=
  let y := if y - prev > M_PI then y - 2 * M_PI else y
  if y - prev < -M_PI then y + 2 * M_PI else y

/-- What `wlanframesync_rxsymbol` changes in the object. -/
structure rxsymbol_result where
  X : List sample
  ms_pilot : wlan_lfsr
  nco_rx : nco_crcf
  phi_prime : ℚ

/-- Recover symbol, correcting for gain, pilot phase, etc.
(`wlanframesync_rxsymbol`); `X` is the frequency-domain buffer on entry. -/
def wlanframesync_rxsymbol (env : dsp_env) (q : wlanframesync_s) (X : List sample) :
    rxsymbol_result :=
  -- apply gain
  let X := (List.range 64).map (fun i => cmul (X.getD i 0) (q.R.getD i 0))
  -- polynomial curve-fit
  let x_phase : List ℚ := [-21, -7, 7, 21]
  -- update pilot phase
  let adv := env.wlan_lfsr_advance q.ms_pilot
  let pilot_phase : Nat := adv.1
  let y0 := if pilot_phase ≠ 0 then env.cargf (cneg (X.getD 43 0)) else env.cargf (X.getD 43 0)
  let y1 := if pilot_phase ≠ 0 then env.cargf (cneg (X.getD 57 0)) else env.cargf (X.getD 57 0)
  let y2 := if pilot_phase ≠ 0 then env.cargf (cneg (X.getD 7 0)) else env.cargf (X.getD 7 0)
  let y3 := if pilot_phase ≠ 0 then env.cargf (X.getD 21 0) else env.cargf (cneg (X.getD 21 0))
  -- unwrap phase
  let y1 := pilot_unwrap y0 y1
  let y2 := pilot_unwrap y1 y2
  let y3 := pilot_unwrap y2 y3
  -- fit phase to 1st-order polynomial (2 coefficients)
  let p_phase := env.polyf_fit x_phase [y0, y1, y2, y3] 4 2
  -- compensate for phase offset
  let X := (List.range 64).map (fun i =>
    cmul (X.getD i 0) (env.cexpf_I (-(polyf_val p_phase 2 (subcarrier_freq i)))))
  -- adjust NCO frequency based on differential phase
  let nco_rx :=
    if q.num_symbols > 0 then
      nco_crcf_adjust_frequency q.nco_rx
        (1e-3 * rxsymbol_dphi_prime (p_phase.getD 0 0) q.phi_prime)
    else q.nco_rx
  -- set internal phase state
  ⟨X, adv.2, nco_rx, p_phase.getD 0 0⟩

/-! ### The states of the synchronizer -/

/-- The gain estimate `g` of `wlanframesync_execute_seekplcp`: 64 over the energy
of the samples `rc[16]` ... `rc[79]` of the window, plus `1e-12`. -/
def seekplcp_gain (rc : List sample) : ℚ :=
  let g : ℚ := ((List.range 64).map (fun i =>
    crealf (rc.getD (16 + i) 0) * crealf (rc.getD (16 + i) 0) +
      cimagf (rc.getD (16 + i) 0) * cimagf (rc.getD (16 + i) 0))).sum
  64 / (g + 1e-12)

/-- Frame detection (`wlanframesync_execute_seekplcp`).  The timer is a `signed
int` that every state sets back before it reaches 80, so `timer++` is the
integer increment, here and in the other states. -/
def wlanframesync_execute_seekplcp (env : dsp_env) (q : wlanframesync_s) : wlanframesync_s :=
  let timer : Int := q.timer + 1
  -- TODO : only check every 100 - 150 (decimates/reduced complexity)
  if timer < 64 then { q with timer := timer } else
  -- read contents of input buffer
  let rc := windowcf_read q.input_buffer
  -- estimate gain
  let g : ℚ := seekplcp_gain rc
  -- estimate S0 gain
  let e := wlanframesync_estimate_gain_S0 env (rc.drop 16)
  -- compute S0 metrics
  let s_hat := cscale (wlanframesync_S0_metrics e.G) g
  let tau_hat : ℚ := env.cargf s_hat * 16 / (2 * M_PI)
  if env.cabsf s_hat > 0.4 then
    let dt : Int := roundf tau_hat
    -- set timer appropriately...
    { q with
      timer := Int.tmod (16 + dt) 16
      state := wlanframesync_state.WLANFRAMESYNC_STATE_RXSHORT0
      g0 := g, x := e.x, X := e.X, G0a := e.G }
  else
    -- reset timer
    { q with timer := 0, g0 := g, x := e.x, X := e.X, G0a := e.G }

/-- First short sequence (`wlanframesync_execute_rxshort0`). -/
def wlanframesync_execute_rxshort0 (env : dsp_env) (q : wlanframesync_s) : wlanframesync_s :=
  let timer : Int := q.timer + 1
  if timer < 16 then { q with timer := timer } else
  -- read contents of input buffer
  let rc := windowcf_read q.input_buffer
  -- re-estimate S0 gain
  let e := wlanframesync_estimate_gain_S0 env (rc.drop 16)
  let s_hat := cscale (wlanframesync_S0_metrics e.G) q.g0
  { q with
    -- reset timer
    timer := 0
    x := e.x, X := e.X, G0a := e.G
    -- save first 'short' symbol statistic
    s0a_hat := s_hat
    state := wlanframesync_state.WLANFRAMESYNC_STATE_RXSHORT1 }

/-- Second short sequence (`wlanframesync_execute_rxshort1`). -/
def wlanframesync_execute_rxshort1 (env : dsp_env) (q : wlanframesync_s) : wlanframesync_s :=
  let timer : Int := q.timer + 1
  if timer < 16 then { q with timer := timer } else
  -- read contents of input buffer
  let rc := windowcf_read q.input_buffer
  -- estimate S0 gain
  let e := wlanframesync_estimate_gain_S0 env (rc.drop 16)
  let s_hat := cscale (wlanframesync_S0_metrics e.G) q.g0
  -- compute carrier frequency offset estimate using freq. domain method
  let nu_hat := wlanframesync_estimate_cfo_S0 env q.G0a e.G
  { q with
    -- reset timer
    timer := 0
    x := e.x, X := e.X, G0b := e.G
    -- save second 'short' symbol statistic
    s0b_hat := s_hat
    -- set NCO frequency
    nco_rx := nco_crcf_set_frequency q.nco_rx nu_hat
    -- set state
    state := wlanframesync_state.WLANFRAMESYNC_STATE_RXLONG0 }

/-- The statistic of the long sequences: the S1 metric of the gains, scaled by
the raw gain estimate and rotated by `cexpf(_Complex_I * 0.19635f)`. -/
def rxlong_s_hat (env : dsp_env) (g0 : ℚ) (G : List sample) : sample :=
  cmul (cscale (wlanframesync_S1_metrics G) g0) (env.cexpf_I 0.19635)

/-- The argument of the statistic, after `if (s_hat_arg > M_PI) s_hat_arg -=
2.0f*M_PI;` and `if (s_hat_arg < -M_PI) s_hat_arg += 2.0f*M_PI;`. -/
def rxlong_s_hat_arg (env : dsp_env) (s_hat : sample) : ℚ :=
  let s_hat_arg := env.cargf s_hat
  let s_hat_arg := if s_hat_arg > M_PI then s_hat_arg - 2 * M_PI else s_hat_arg
  if s_hat_arg < -M_PI then s_hat_arg + 2 * M_PI else s_hat_arg

/-- The conditions for `s_hat` of `wlanframesync_execute_rxlong0` and
`wlanframesync_execute_rxlong1` (the thresholds `WLANFRAMESYNC_S1A_ABS_THRESH`,
`WLANFRAMESYNC_S1B_ABS_THRESH` are 0.5, the `ARG` ones 0.2). -/
def rxlong_check (env : dsp_env) (s_hat : sample) : Bool :=
  decide (env.cabsf s_hat > 0.5) && decide (|rxlong_s_hat_arg env s_hat| < 0.2)

/-- First long sequence (`wlanframesync_execute_rxlong0`). -/
def wlanframesync_execute_rxlong0 (env : dsp_env) (q : wlanframesync_s) : wlanframesync_s :=
  -- set timer to 16, wait for phase to be relatively small
  let timer : Int := q.timer + 1
  if timer < 16 then { q with timer := timer } else
  -- run fft
  let rc := windowcf_read q.input_buffer
  -- estimate S1 gain, adding backoff in gain estimation
  let e := wlanframesync_estimate_gain_S1 env (rc.drop (16 - 2))
  -- compute S1 metrics
  let s_hat := rxlong_s_hat env q.g0 e.G
  -- check conditions for s_hat
  if rxlong_check env s_hat then
    { q with
      x := e.x, X := e.X, G1a := e.G, s1a_hat := s_hat
      -- set state
      state := wlanframesync_state.WLANFRAMESYNC_STATE_RXLONG1
      -- reset timer
      timer := 0 }
  else
    { q with timer := 0, x := e.x, X := e.X, G1a := e.G, s1a_hat := s_hat }

/-- Second long sequence (`wlanframesync_execute_rxlong1`). -/
def wlanframesync_execute_rxlong1 (env : dsp_env) (q : wlanframesync_s) : wlanframesync_s :=
  let timer : Int := q.timer + 1
  if timer < 64 then { q with timer := timer } else
  -- run fft
  let rc := windowcf_read q.input_buffer
  -- estimate S1 gain, adding backoff in gain estimation
  let e := wlanframesync_estimate_gain_S1 env (rc.drop (16 - 2))
  -- compute S1 metrics
  let s_hat := rxlong_s_hat env q.g0 e.G
  -- check conditions for s_hat
  if rxlong_check env s_hat then
    -- refine CFO estimate with G1a, G1b and adjust NCO appropriately
    let nu_hat := wlanframesync_estimate_cfo_S1 env q.G1a e.G
    -- estimate equalizer with G1a, G1b
    let eq := wlanframesync_estimate_eqgain_poly env e.G
    { q with
      x := e.x, X := e.X, G1b := e.G, s1b_hat := s_hat
      nco_rx := nco_crcf_adjust_frequency q.nco_rx nu_hat
      G := eq.G, R := eq.R
      -- the branch sets the state to RXLONG1 and the timer to 0; the two
      -- assignments after it overwrite them: set state, reset timer
      state := wlanframesync_state.WLANFRAMESYNC_STATE_RXSIGNAL
      timer := 0 }
  else
    { q with
      x := e.x, X := e.X, G1b := e.G, s1b_hat := s_hat
      -- set state
      state := wlanframesync_state.WLANFRAMESYNC_STATE_RXSIGNAL
      -- reset timer
      timer := 0 }

/-- The subcarriers whose real parts `wlanframesync_execute_rxsignal` slices into
the six bytes of `signal_int`, most significant bit first. -/
def signal_int_subcarriers : List (List Nat) :=
  [[38, 39, 40, 41, 42, 44, 45, 46], [47, 48, 49, 50, 51, 52, 53, 54],
    [55, 56, 58, 59, 60, 61, 62, 63], [1, 2, 3, 4, 5, 6, 8, 9],
    [10, 11, 12, 13, 14, 15, 16, 17], [18, 19, 20, 22, 23, 24, 25, 26]]

/-- One byte of `signal_int`: `|= crealf(X[k]) > 0.0f ? mask : 0x00` for the
eight subcarriers `ks` and the masks `0x80` ... `0x01`. -/
def signal_int_byte (X : List sample) (ks : List Nat) : Nat :=
  (ks.zip [0x80, 0x40, 0x20, 0x10, 0x08, 0x04, 0x02, 0x01]).foldl
    (fun b p => b ||| (if crealf (X.getD p.1 0) > 0 then p.2 else 0x00)) 0x00

/-- The value `wlan_signal_unpack` returns to `wlanframesync_decode_signal`,
after the de-interleaver and the decoder. -/
def decode_signal_unpacked (env : dsp_env) (q : wlanframesync_s) : signal_unpacked :=
  env.wlan_signal_unpack (wlan_fec_signal_decode env
    (env.wlan_interleaver_decode_symbol WLANFRAME_RATE_6 q.signal_int))

/-- Decode the SIGNAL field (`wlanframesync_decode_signal`), with the calls of
the de-interleaver, the decoder and the unpacker that come before the
computation of the frame parameters. -/
def wlanframesync_decode_signal_env (env : dsp_env) (q : wlanframesync_s) :
    Option wlanframesync_s :=
  -- de-interleave
  let signal_enc := env.wlan_interleaver_decode_symbol WLANFRAME_RATE_6 q.signal_int
  -- decode
  let signal_dec := wlan_fec_signal_decode env signal_enc
  -- unpack
  let u := env.wlan_signal_unpack signal_dec
  wlanframesync_decode_signal u env.wlanframe_ratetab
    { q with signal_enc := signal_enc, signal_dec := signal_dec }

/-- The first part of `wlanframesync_execute_rxsignal` on the sample that ends
the wait: timer reset, FFT, symbol recovery and slicing of the real parts into
`signal_int`. -/
def rxsignal_sliced (env : dsp_env) (q : wlanframesync_s) : wlanframesync_s :=
  -- run fft
  let rc := windowcf_read q.input_buffer
  let x := (rc.drop (16 - 2)).take 64
  -- compute fft, storing result into X
  let X := env.fft x
  -- recover symbol, correcting for gain, pilot phase, etc.
  let r := wlanframesync_rxsymbol env q X
  -- demodulate, decode, ...
  let signal_int := signal_int_subcarriers.map (signal_int_byte r.X)
  { q with
    -- reset timer
    timer := 0
    x := x, X := r.X, ms_pilot := r.ms_pilot, nco_rx := r.nco_rx,
    phi_prime := r.phi_prime, signal_int := signal_int }

/-- Receive the SIGNAL field (`wlanframesync_execute_rxsignal`); `none` where
`wlanframesync_decode_signal` divides by zero. -/
def wlanframesync_execute_rxsignal (env : dsp_env) (q : wlanframesync_s) :
    Option wlanframesync_s :=
  let timer : Int := q.timer + 1
  if timer < 80 then some { q with timer := timer } else
  -- decode SIGNAL field
  match wlanframesync_decode_signal_env env (rxsignal_sliced env q) with
  | none => none
  | some q1 =>
    -- validate proper decoding
    if q1.signal_valid = 0 then
      -- reset synchronizer and return
      some (wlanframesync_reset q1)
    else
      -- set state
      some { q1 with state := wlanframesync_state.WLANFRAMESYNC_STATE_RXDATA }

/-- The DATA subcarriers in the order of the loop `k = (i + 32) % 64` of
`wlanframesync_execute_rxdata`. -/
def data_subcarriers : List Nat :=
  ((List.range 64).map (fun i => (i + 32) % 64)).filter
    (fun k => !subcarrier_null k && !subcarrier_pilot k)

/-- Store of `bytes` into the array `buf` from index `off` on; the bound of the
allocation is not tracked, a store past the end lengthens the list. -/
def store_bytes (buf : List Nat) (off : Nat) (bytes : List Nat) : List Nat :=
  (buf ++ List.replicate (off - buf.length) 0).take off ++ bytes ++
    buf.drop (off + bytes.length)

/-- Receive data symbols (`wlanframesync_execute_rxdata`): the object after the
sample and the invocations of the callback.  The counter `n` of the C loop ends
at 48, the length of `data_subcarriers`, so the assertions on it hold; the
result is `none` where `assert(num_written == bytes_per_symbol)` fails. -/
def wlanframesync_execute_rxdata (env : dsp_env) (q : wlanframesync_s) :
    Option (wlanframesync_s × List callback_call) :=
  let timer : Int := q.timer + 1
  if timer < 80 then some ({ q with timer := timer }, []) else
  -- run fft
  let rc := windowcf_read q.input_buffer
  let x := (rc.drop (16 - 2)).take 64
  -- compute fft, storing result into X
  let X := env.fft x
  -- recover symbol, correcting for gain, pilot phase, etc.
  let r := wlanframesync_rxsymbol env q X
  -- demodulate and pack
  let modem_syms := data_subcarriers.map
    (fun k => env.wlan_demodulate q.mod_scheme (r.X.getD k 0) % 256)
  -- pack modem symbols
  let rep := env.liquid_wlan_repack_bytes modem_syms q.nbpsc 48 8 q.bytes_per_symbol
  if rep.num_written ≠ q.bytes_per_symbol then none else
  let msg_enc := store_bytes q.msg_enc ((q.num_symbols * q.bytes_per_symbol) % 2 ^ 32) rep.bytes
  -- increment number of received symbols
  let num_symbols : Nat := (q.num_symbols + 1) % 2 ^ 32
  -- check number of symbols
  if num_symbols = q.nsym then
    -- decode message
    let msg_dec := env.wlan_packet_decode q.rate q.seed q.length msg_enc q.msg_dec
    -- assemble RX vector
    let rxvector : wlan_rxvector_s :=
      { LENGTH := q.length
        RSSI := (200 + env.float_to_uint (10 * env.log10f q.g0)) % 2 ^ 32
        DATARATE := q.rate
        SERVICE := 0 }
    -- invoke callback
    let calls : List callback_call := if q.callback then [⟨msg_dec, rxvector⟩] else []
    -- reset and return
    some (wlanframesync_reset
      { q with
        timer := 0, x := x, X := r.X, ms_pilot := r.ms_pilot, nco_rx := r.nco_rx,
        phi_prime := r.phi_prime, modem_syms := modem_syms, msg_enc := msg_enc,
        num_symbols := num_symbols, msg_dec := msg_dec }, calls)
  else
    some ({ q with
      -- reset timer
      timer := 0
      x := x, X := r.X, ms_pilot := r.ms_pilot, nco_rx := r.nco_rx,
      phi_prime := r.phi_prime, modem_syms := modem_syms, msg_enc := msg_enc,
      num_symbols := num_symbols }, [])

/-! ### Execution on a buffer of samples -/

/-- The sample that `wlanframesync_execute` pushes for the input `x`: corrected
for carrier frequency offset, only if not in the initial 'seek PLCP' state. -/
def wlanframesync_pushed_sample (env : dsp_env) (q : wlanframesync_s) (x : sample) : sample :=
  if q.state ≠ wlanframesync_state.WLANFRAMESYNC_STATE_SEEKPLCP then
    env.nco_crcf_mix_down q.nco_rx x
  else x

/-- The head of the loop body of `wlanframesync_execute`: mix down and step the
oscillator (only if not in the initial 'seek PLCP' state), save input sample to
buffer. -/
def wlanframesync_execute_push (env : dsp_env) (q : wlanframesync_s) (x : sample) :
    wlanframesync_s :=
  if q.state ≠ wlanframesync_state.WLANFRAMESYNC_STATE_SEEKPLCP then
    { q with
      nco_rx := env.nco_crcf_step q.nco_rx
      input_buffer := windowcf_push q.input_buffer (env.nco_crcf_mix_down q.nco_rx x) }
  else
    { q with input_buffer := windowcf_push q.input_buffer x }

/-- The `switch (_q->state)` of `wlanframesync_execute`; the `default` branch
(`exit(1)`) has no state left to match. -/
def wlanframesync_execute_state (env : dsp_env) (q : wlanframesync_s) :
    Option (wlanframesync_s × List callback_call) :=
  match q.state with
  | wlanframesync_state.WLANFRAMESYNC_STATE_SEEKPLCP =>
    some (wlanframesync_execute_seekplcp env q, [])
  | wlanframesync_state.WLANFRAMESYNC_STATE_RXSHORT0 =>
    some (wlanframesync_execute_rxshort0 env q, [])
  | wlanframesync_state.WLANFRAMESYNC_STATE_RXSHORT1 =>
    some (wlanframesync_execute_rxshort1 env q, [])
  | wlanframesync_state.WLANFRAMESYNC_STATE_RXLONG0 =>
    some (wlanframesync_execute_rxlong0 env q, [])
  | wlanframesync_state.WLANFRAMESYNC_STATE_RXLONG1 =>
    some (wlanframesync_execute_rxlong1 env q, [])
  | wlanframesync_state.WLANFRAMESYNC_STATE_RXSIGNAL =>
    (wlanframesync_execute_rxsignal env q).map (fun q1 => (q1, []))
  | wlanframesync_state.WLANFRAMESYNC_STATE_RXDATA =>
    wlanframesync_execute_rxdata env q

/-- One turn of the loop of `wlanframesync_execute`, for the sample `x`. -/
def wlanframesync_execute_sample (env : dsp_env) (q : wlanframesync_s) (x : sample) :
    Option (wlanframesync_s × List callback_call) :=
  wlanframesync_execute_state env (wlanframesync_execute_push env q x)

/-- Execute framing synchronizer on input buffer (`wlanframesync_execute`): the
object after the last sample and the invocations of the callback, in order;
`none` where a turn of the loop has no result. -/
def wlanframesync_execute (env : dsp_env) :
    wlanframesync_s → List sample → Option (wlanframesync_s × List callback_call)
  | q, [] => some (q, [])
  | q, x :: xs =>
    match wlanframesync_execute_sample env q x with
    | none => none
    | some (q1, c1) =>
      match wlanframesync_execute env q1 xs with
      | none => none
      | some (q2, c2) => some (q2, c1 ++ c2)

/-! ### Runs of the synchronizer -/

/-- The statistic `s_hat` that `wlanframesync_execute_seekplcp` compares with
`WLANFRAMESYNC_S0A_ABS_THRESH`: the S0 metric of the window, scaled by the gain
estimate `g`. -/
def seekplcp_s_hat (env : dsp_env) (q : wlanframesync_s) : sample :=
  cscale (wlanframesync_S0_metrics
    (wlanframesync_estimate_gain_S0 env ((windowcf_read q.input_buffer).drop 16)).G)
    (seekplcp_gain (windowcf_read q.input_buffer))

/-- On the stream, fed in state SEEK, no detection test of
`wlanframesync_execute_seekplcp` finds `cabsf(s_hat)` above 0.4: on every sample
either the timer stays below 64 and no test is made, or the test fails. -/
def seek_never_detects (env : dsp_env) : wlanframesync_s → List sample → Bool
  | _, [] => true
  | q, x :: xs =>
    (decide ((wlanframesync_execute_push env q x).timer + 1 < 64) ||
      decide (env.cabsf (seekplcp_s_hat env (wlanframesync_execute_push env q x)) ≤ 0.4)) &&
    seek_never_detects env
      (wlanframesync_execute_seekplcp env (wlanframesync_execute_push env q x)) xs

/-- The statistic `s_hat` that `wlanframesync_execute_rxlong0` and
`wlanframesync_execute_rxlong1` check, from the window of the object. -/
def rxlong_statistic (env : dsp_env) (q : wlanframesync_s) : sample :=
  rxlong_s_hat env q.g0
    (wlanframesync_estimate_gain_S1 env ((windowcf_read q.input_buffer).drop (16 - 2))).G

/-- The samples pushed into the input buffer during `wlanframesync_execute`, in
order: each raw if it arrived in SEEK, down-mixed otherwise. -/
def wlanframesync_execute_pushed (env : dsp_env) : wlanframesync_s → List sample → List sample
  | _, [] => []
  | q, x :: xs =>
    wlanframesync_pushed_sample env q x ::
      (match wlanframesync_execute_sample env q x with
        | none => []
        | some (q1, _) => wlanframesync_execute_pushed env q1 xs)

/-- The content `w`, followed by the samples pushed during
`wlanframesync_execute`, started again from 80 zeros on every sample that takes
the synchronizer back to SEEK (the two calls of `wlanframesync_reset`). -/
def pushed_since_reset (env : dsp_env) :
    wlanframesync_s → List sample → List sample → List sample
  | _, w, [] => w
  | q, w, x :: xs =>
    match wlanframesync_execute_sample env q x with
    | none => w
    | some (q1, _) =>
      pushed_since_reset env q1
        (if q.state ≠ wlanframesync_state.WLANFRAMESYNC_STATE_SEEKPLCP ∧
            q1.state = wlanframesync_state.WLANFRAMESYNC_STATE_SEEKPLCP
          then List.replicate 80 (0, 0)
          else w ++ [wlanframesync_pushed_sample env q x]) xs

/-- The last `n` entries of a list. -/
def last_samples (n : Nat) (l : List sample) : List sample := l.drop (l.length - n)

/-- The object after a sample on which the state only counts: the sample is
pushed and the timer incremented. -/
def wait_sample (env : dsp_env) (q : wlanframesync_s) (x : sample) : wlanframesync_s :=
  { wlanframesync_execute_push env q x with
    timer := (wlanframesync_execute_push env q x).timer + 1 }

/-- The object after a run of samples on which the state only counts. -/
def wait_samples (env : dsp_env) (q : wlanframesync_s) (xs : List sample) : wlanframesync_s :=
  xs.foldl (wait_sample env) q

/-- The number of samples a state counts before it acts: 64 in SEEK and
RXLONG1, 16 in RXSHORT0, RXSHORT1 and RXLONG0, 80 in RXSIGNAL and RXDATA. -/
def state_period : wlanframesync_state → Int
  | wlanframesync_state.WLANFRAMESYNC_STATE_SEEKPLCP => 64
  | wlanframesync_state.WLANFRAMESYNC_STATE_RXSHORT0 => 16
  | wlanframesync_state.WLANFRAMESYNC_STATE_RXSHORT1 => 16
  | wlanframesync_state.WLANFRAMESYNC_STATE_RXLONG0 => 16
  | wlanframesync_state.WLANFRAMESYNC_STATE_RXLONG1 => 64
  | wlanframesync_state.WLANFRAMESYNC_STATE_RXSIGNAL => 80
  | wlanframesync_state.WLANFRAMESYNC_STATE_RXDATA => 80

/-! ### Concrete services and objects for the examples -/

/-- A concrete set of services: the magnitude `cabsf` is 0 at 0 and the constant
`a` elsewhere, the argument `cargf` is 0, the unpacker returns `u`, the
polynomial fit returns the first coefficients of `fit`, the repacker writes the
number of bytes asked for; the transform, the oscillator's mixer, the
de-interleaver and the pilot generator hand their input on. -/
def env_flat (a : ℚ) (u : signal_unpacked) (fit : List ℚ) : dsp_env :=
  { fft := fun x => x
    cabsf := fun s => if s = (0, 0) then 0 else a
    cargf := fun _ => 0
    cexpf_I := fun _ => (1, 0)
    log10f := fun _ => 0
    float_to_uint := fun _ => 0
    nco_crcf_mix_down := fun _ x => x
    nco_crcf_step := fun n => ⟨n.theta + n.d_theta, n.d_theta⟩
    polyf_fit := fun _ _ _ k => fit.take k
    wlanframe_S0 := fun _ => (1, 0)
    wlanframe_S1 := fun _ => (1, 0)
    wlanframe_ratetab := wlanframe_ratetab
    wlan_lfsr_advance := fun l => (0, l)
    wlan_demodulate := fun _ _ => 0
    liquid_wlan_repack_bytes := fun _ _ _ _ n => ⟨List.replicate n 0, n⟩
    wlan_packet_decode := fun _ _ _ _ d => d
    wlan_interleaver_decode_symbol := fun _ x => x
    wlan_fec_decode := fun _ _ x => x.take 3
    wlan_signal_unpack := fun _ => u }

/-- The services `env_flat` with magnitude 1 and an unpacker that reports every
field invalid. -/
def env_reject : dsp_env := env_flat 1 ⟨0, 0, 0⟩ []

/-- The services `env_flat` with magnitude 1 and an unpacker that reports every
field valid, with rate 6 Mbit/s and length 1. -/
def env_accept : dsp_env := env_flat 1 ⟨1, WLANFRAME_RATE_6, 1⟩ []

/-- A stream of `n` samples `1 + 0i`. -/
def stream_ones (n : Nat) : List sample := List.replicate n (1, 0)

/-- A stream of `n` samples 0. -/
def stream_zeros (n : Nat) : List sample := List.replicate n (0, 0)

/-- A stream of 192 samples on which, with `env_reject`, the frame is detected, the
first S1 check (sample 112) fails, the second (sample 128) passes and the check
of RXLONG1 (sample 192) fails. -/
def stream_s1_fail : List sample :=
  stream_ones 46 ++ stream_zeros 66 ++ stream_ones 14 ++ stream_zeros 66

/-- The object `wlanframesync_create` makes with a callback, in zeroed memory. -/
def sync_created : wlanframesync_s := wlanframesync_create true wlanframesync_zero

/-- The object after `wlanframesync_execute` on the stream `xs`, from
`sync_created` (and `sync_created` itself where the run has no result). -/
def sync_after (env : dsp_env) (xs : List sample) : wlanframesync_s :=
  match wlanframesync_execute env sync_created xs with
  | some (q, _) => q
  | none => sync_created

/-- The frame parameters and the callback of two objects are the same. -/
def same_frame (q q1 : wlanframesync_s) : Prop :=
  q1.callback = q.callback ∧ q1.rate = q.rate ∧ q1.length = q.length ∧ q1.nsym = q.nsym ∧
  q1.nbpsc = q.nbpsc ∧ q1.bytes_per_symbol = q.bytes_per_symbol

/-- The created object with one DATA symbol counted (`num_symbols = 1`). -/
def sync_second_symbol : wlanframesync_s := { sync_created with num_symbols := 1 }

/-- The created object after `n` samples `1 + 0i`, with the services `env_reject`. -/
def sync_reject (n : Nat) : wlanframesync_s := sync_after env_reject (stream_ones n)

/-- The created object after `n` samples `1 + 0i`, with the services `env_accept`. -/
def sync_accept (n : Nat) : wlanframesync_s := sync_after env_accept (stream_ones n)

/-- The created object after the first `n` samples of `stream_s1_fail`, with the
services `env_reject`. -/
def sync_s1_fail (n : Nat) : wlanframesync_s := sync_after env_reject (stream_s1_fail.take n)

/-! ### Subcarrier loops, frame rows and the timer invariant -/

/-- The 8 rows `(ndbps, ncbps, nbpsc)` of the rate table. -/
def std_row_nbpsc (ndbps ncbps nbpsc : Nat) : Prop :=
  (ndbps = 24 ∧ ncbps = 48 ∧ nbpsc = 1) ∨ (ndbps = 36 ∧ ncbps = 48 ∧ nbpsc = 1) ∨
  (ndbps = 48 ∧ ncbps = 96 ∧ nbpsc = 2) ∨ (ndbps = 72 ∧ ncbps = 96 ∧ nbpsc = 2) ∨
  (ndbps = 96 ∧ ncbps = 192 ∧ nbpsc = 4) ∨ (ndbps = 144 ∧ ncbps = 192 ∧ nbpsc = 4) ∨
  (ndbps = 192 ∧ ncbps = 288 ∧ nbpsc = 6) ∨ (ndbps = 216 ∧ ncbps = 288 ∧ nbpsc = 6)

instance (ndbps ncbps nbpsc : Nat) : Decidable (std_row_nbpsc ndbps ncbps nbpsc) := by
  unfold std_row_nbpsc; infer_instance

/-- The NULL subcarriers: the indices `i` below 64 with `i == 0 || (i > 26 && i < 38)`. -/
def null_subcarriers : List Nat := (List.range 64).filter subcarrier_null

/-- One turn of the loop of `wlanframesync_execute_rxdata` over `i = 0 .. 63`, with
its counter `n` and its assertion: `k = (i + 32) % 64`; a NULL or PILOT
subcarrier is passed over; on a DATA subcarrier `assert(n<48)`, then
`modem_syms[n] = sym` and `n++`.  `demod k` is the symbol `wlan_demodulate` gives
for `X[k]`.  The entries stored so far are the list, so the store at index `n`
appends; the result is `none` once an assertion has failed. -/
def rxdata_demod_turn (demod : Nat → Nat) (acc : Option (List Nat × Nat)) (i : Nat) :
    Option (List Nat × Nat) :=
  match acc with
  | none => none
  | some (syms, n) =>
    let k := (i + 32) % 64
    if k == 0 || (k > 26 && k < 38) then
      -- NULL subcarrier
      some (syms, n)
    else if k == 43 || k == 57 || k == 7 || k == 21 then
      -- PILOT subcarrier
      some (syms, n)
    else
      -- DATA subcarrier
      if n < 48 then some (syms ++ [demod k], n + 1) else none

/-- The loop of `wlanframesync_execute_rxdata` over `i = 0 .. 63` and the
`assert(n==48)` that follows it: the symbols stored, or `none` where an
assertion fails. -/
def rxdata_demod_loop (demod : Nat → Nat) : Option (List Nat) :=
  match (List.range 64).foldl (rxdata_demod_turn demod) (some ([], 0)) with
  | none => none
  | some (syms, n) => if n = 48 then some syms else none

/-- One turn of the first loop of `wlanframesync_estimate_eqgain_poly` over
`i = 0 .. 63`, with its counter `n` and its assertion: `k = (i + 32) % 64`; a NULL
subcarrier is passed over; otherwise `assert(n < 52)`, then the entries
`x_eq[n]`, `y_eq_abs[n]` and `y_eq_arg[n]` are stored (`entry k` stands for the
three) and `n++`. -/
def eqgain_store_turn {α : Type} (entry : Nat → α) (acc : Option (List α × Nat)) (i : Nat) :
    Option (List α × Nat) :=
  match acc with
  | none => none
  | some (es, n) =>
    -- start at mid-point (effective fftshift)
    let k := (i + 32) % 64
    if k == 0 || (k > 26 && k < 38) then
      -- NULL subcarrier
      some (es, n)
    else
      -- validate counter
      if n < 52 then some (es ++ [entry k], n + 1) else none

/-- The first loop of `wlanframesync_estimate_eqgain_poly` and the
`assert(n == 52)` that follows it: the entries stored, or `none` where an
assertion fails. -/
def eqgain_store_loop {α : Type} (entry : Nat → α) : Option (List α) :=
  match (List.range 64).foldl (eqgain_store_turn entry) (some ([], 0)) with
  | none => none
  | some (es, n) => if n = 52 then some es else none

/-- The order of the 48 subcarriers in the words of the specification:
`38..42, 44..56, 58..63, 1..6, 8..20, 22..26`. -/
def signal_subcarrier_order : List Nat :=
  List.range' 38 5 ++ List.range' 44 13 ++ List.range' 58 6 ++ List.range' 1 6 ++
    List.range' 8 13 ++ List.range' 22 5

/-- The hard decision on subcarrier `k`: 1 if `crealf(X[k]) > 0.0f`, else 0. -/
def slice_bit (X : List sample) (k : Nat) : Nat := if crealf (X.getD k 0) > 0 then 1 else 0

/-- The 8 bits of a byte, most significant first. -/
def byte_bits (b : Nat) : List Nat := (List.range 8).map (fun j => (b >>> (7 - j)) % 2)

/-- The seven states of the `enum`. -/
def all_states : List wlanframesync_state :=
  [wlanframesync_state.WLANFRAMESYNC_STATE_SEEKPLCP,
    wlanframesync_state.WLANFRAMESYNC_STATE_RXSHORT0,
    wlanframesync_state.WLANFRAMESYNC_STATE_RXSHORT1,
    wlanframesync_state.WLANFRAMESYNC_STATE_RXLONG0,
    wlanframesync_state.WLANFRAMESYNC_STATE_RXLONG1,
    wlanframesync_state.WLANFRAMESYNC_STATE_RXSIGNAL,
    wlanframesync_state.WLANFRAMESYNC_STATE_RXDATA]

/-- The bounds on the counters: the timer is in `[0, W)` for the period `W` of
the state, `num_symbols` is 0 outside RXDATA and below `nsym` in RXDATA. -/
def sync_invariant (q : wlanframesync_s) : Prop :=
  0 ≤ q.timer ∧ q.timer < state_period q.state ∧
  (q.state ≠ wlanframesync_state.WLANFRAMESYNC_STATE_RXDATA → q.num_symbols = 0) ∧
  (q.state = wlanframesync_state.WLANFRAMESYNC_STATE_RXDATA → q.num_symbols < q.nsym)

/-- The bounds of `sync_invariant`, with the range of the `unsigned int` `nsym` in
RXDATA. -/
def sync_invariant_range (q : wlanframesync_s) : Prop :=
  sync_invariant q ∧
  (q.state = wlanframesync_state.WLANFRAMESYNC_STATE_RXDATA → q.nsym < 2 ^ 32)

/-- The rounded timing offset `dt` of `wlanframesync_execute_seekplcp` is in
`[-8, 8]`, whatever the statistic. -/
def dt_in_range (env : dsp_env) : Prop :=
  ∀ s : sample, -8 ≤ roundf (env.cargf s * 16 / (2 * M_PI)) ∧
    roundf (env.cargf s * 16 / (2 * M_PI)) ≤ 8

/-- The services `env_reject` with an argument `cargf` of -1 for every value. -/
def env_offset : dsp_env := { env_reject with cargf := fun _ => -1 }

/-- A stream of 128 samples on which, with `env_reject`, the S1 check of sample 112
fails, the check would pass on sample 113, and the check of sample 128 passes. -/
def stream_retest : List sample := stream_ones 46 ++ stream_zeros 63 ++ stream_ones 19

/-- The created object after the first `n` samples of `stream_retest`, with the
services `env_reject`. -/
def sync_retest (n : Nat) : wlanframesync_s := sync_after env_reject (stream_retest.take n)

/-- The created object after `n` samples `1 + 0i`, with the services `env_offset`. -/
def sync_offset (n : Nat) : wlanframesync_s := sync_after env_offset (stream_ones n)

/-- A content of allocated memory in which the arrays `G` and `R` hold `1 + 0i`. -/
def mem_ones : wlanframesync_s :=
  { wlanframesync_zero with G := List.replicate 64 (1, 0), R := List.replicate 64 (1, 0) }

/-- The object created in the memory `mem_ones`, after the first `n` samples of
`stream_s1_fail` with the services `env_reject` (and the created object itself
where the run has no result). -/
def sync_dirty (n : Nat) : wlanframesync_s :=
  match wlanframesync_execute env_reject (wlanframesync_create true mem_ones)
      (stream_s1_fail.take n) with
  | some (q, _) => q
  | none => wlanframesync_create true mem_ones

/-- A sequence of calls of `wlanframesync_execute` on the same object, one call per
buffer: the object after the last call, `none` where a call has no result. -/
def wlanframesync_execute_calls (env : dsp_env) :
    wlanframesync_s → List (List sample) → Option wlanframesync_s
  | q, [] => some q
  | q, b :: bs =>
    match wlanframesync_execute env q b with
    | none => none
    | some r => wlanframesync_execute_calls env r.1 bs

/-- The services `env_flat` with an unpacker that reports a valid field of rate 9 Mbit/s and
length 1, and a repacker that writes the 48 symbols of `nbpsc` bits as `6 · nbpsc` bytes,
whatever room it is given. -/
def env_rate9 : dsp_env :=
  { env_flat 1 ⟨1, WLANFRAME_RATE_9, 1⟩ [] with
    liquid_wlan_repack_bytes := fun _ nbpsc _ _ _ => ⟨List.replicate (6 * nbpsc) 0, 6 * nbpsc⟩ }

/-- The created object after `n` samples `1 + 0i`, with the services `env_rate9`. -/
def sync_rate9 (n : Nat) : wlanframesync_s := sync_after env_rate9 (stream_ones n)
/-! ## Lemmas on the SIGNAL field -/

theorem and_two_pow_ne_zero (x k : Nat) : (x &&& 2 ^ k ≠ 0) ↔ (x >>> k) % 2 = 1 := by
  rw [Nat.shiftRight_eq_div_pow]
  constructor
  · intro h
    obtain ⟨i, hi⟩ := Nat.ne_zero_implies_bit_true h
    rw [Nat.testBit_and, Nat.testBit_two_pow] at hi
    simp at hi
    obtain ⟨h1, h2⟩ := hi
    subst h2
    simpa [Nat.testBit_to_div_mod] using h1
  · intro h h0
    have : (x &&& 2 ^ k).testBit k = true := by
      rw [Nat.testBit_and, Nat.testBit_two_pow]
      simp [Nat.testBit_to_div_mod, h]
    rw [h0] at this; simp at this

/-- A C conditional mask `(x & m) ? M : 0` with `m = 2^k` is `M` times bit `k` of `x`. -/
theorem ite_mask (x m k M : Nat) (h : m = 2 ^ k) :
    (if x &&& m ≠ 0 then M else 0) = M * ((x >>> k) % 2) := by
  subst h
  by_cases hc : (x >>> k) % 2 = 1
  · rw [if_pos ((and_two_pow_ne_zero x k).2 hc), hc]; simp
  · have h0 : (x >>> k) % 2 = 0 := by omega
    rw [if_neg (fun hh => hc ((and_two_pow_ne_zero x k).1 hh)), h0]; simp

theorem pack_b0 (q : wlan_signal_s) :
    (wlan_signal_pack q).b0 =
      pack_form0 q.rate q.R (q.length >>> 0 % 2) (q.length >>> 1 % 2) (q.length >>> 2 % 2) := by
  simp only [wlan_signal_pack, pack_form0, ite_mask _ 1 0 _ rfl, ite_mask _ 2 1 _ rfl,
    ite_mask _ 4 2 _ rfl]

theorem pack_b1 (q : wlan_signal_s) :
    (wlan_signal_pack q).b1 =
      pack_form1 (q.length >>> 3 % 2) (q.length >>> 4 % 2) (q.length >>> 5 % 2)
        (q.length >>> 6 % 2) (q.length >>> 7 % 2) (q.length >>> 8 % 2) (q.length >>> 9 % 2)
        (q.length >>> 10 % 2) := by
  simp only [wlan_signal_pack, pack_form1, ite_mask _ 0x008 3 _ rfl, ite_mask _ 0x010 4 _ rfl,
    ite_mask _ 0x020 5 _ rfl, ite_mask _ 0x040 6 _ rfl, ite_mask _ 0x080 7 _ rfl,
    ite_mask _ 0x100 8 _ rfl, ite_mask _ 0x200 9 _ rfl, ite_mask _ 0x400 10 _ rfl]

theorem pack_b2 (q : wlan_signal_s) :
    (wlan_signal_pack q).b2 =
      pack_form2 (q.length >>> 11 % 2)
        ((liquid_count_ones (wlan_signal_pack q).b0 + liquid_count_ones (wlan_signal_pack q).b1
              + liquid_count_ones (0 ||| 0x80 * (q.length >>> 11 % 2))) % 2) := by
  simp only [wlan_signal_pack, pack_form2, ite_mask _ 0x800 11 _ rfl]

theorem unpack_q (s : signal_bytes) :
    (wlan_signal_unpack s).q =
      ⟨if valid_rate ((s.b0 >>> 4) &&& 0x0f) then (s.b0 >>> 4) &&& 0x0f else WLAN_SIGNAL_RATE_6,
       1 * (s.b0 >>> 3 % 2),
       unpack_form (s.b0 >>> 2 % 2) (s.b0 >>> 1 % 2) (s.b0 >>> 0 % 2)
         (s.b1 >>> 7 % 2) (s.b1 >>> 6 % 2) (s.b1 >>> 5 % 2) (s.b1 >>> 4 % 2)
         (s.b1 >>> 3 % 2) (s.b1 >>> 2 % 2) (s.b1 >>> 1 % 2) (s.b1 >>> 0 % 2)
         (s.b2 >>> 7 % 2)⟩ := by
  simp only [wlan_signal_unpack, unpack_form, valid_rate, ite_mask _ 0x01 0 _ rfl,
    ite_mask _ 0x02 1 _ rfl, ite_mask _ 0x04 2 _ rfl, ite_mask _ 0x08 3 _ rfl,
    ite_mask _ 0x10 4 _ rfl, ite_mask _ 0x20 5 _ rfl, ite_mask _ 0x40 6 _ rfl,
    ite_mask _ 0x80 7 _ rfl]
  split <;> rfl

theorem form0_bits : ∀ r < 16, ∀ R < 2, ∀ a < 2, ∀ b < 2, ∀ c < 2, form0_spec r R a b c := by
  decide!

set_option synthInstance.maxSize 4096 in
set_option synthInstance.maxHeartbeats 400000 in
theorem form1_bits : ∀ a < 2, ∀ b < 2, ∀ c < 2, ∀ d < 2, ∀ e < 2, ∀ f < 2, ∀ g < 2, ∀ h < 2,
    form1_spec a b c d e f g h := by
  decide!

theorem form2_bits : ∀ l < 2, ∀ p < 2, form2_spec l p := by
  decide!

theorem unpack_form_bits : ∀ L < 4096,
    unpack_form (L >>> 0 % 2) (L >>> 1 % 2) (L >>> 2 % 2) (L >>> 3 % 2) (L >>> 4 % 2)
      (L >>> 5 % 2) (L >>> 6 % 2) (L >>> 7 % 2) (L >>> 8 % 2) (L >>> 9 % 2) (L >>> 10 % 2)
      (L >>> 11 % 2) = L := by
  decide!

theorem count_ones_byte : ∀ b < 256, liquid_count_ones b =
    b >>> 7 % 2 + b >>> 6 % 2 + b >>> 5 % 2 + b >>> 4 % 2 +
    b >>> 3 % 2 + b >>> 2 % 2 + b >>> 1 % 2 + b >>> 0 % 2 := by
  decide!

theorem valid_rate_lt {r : Nat} (h : valid_rate r) : r < 16 := by
  unfold valid_rate WLAN_SIGNAL_RATE_6 WLAN_SIGNAL_RATE_9 WLAN_SIGNAL_RATE_12
    WLAN_SIGNAL_RATE_18 WLAN_SIGNAL_RATE_24 WLAN_SIGNAL_RATE_36 WLAN_SIGNAL_RATE_48
    WLAN_SIGNAL_RATE_54 at h
  omega

theorem bit_lt (x k : Nat) : x >>> k % 2 < 2 := Nat.mod_lt _ (by norm_num)

/-- The structure `wlan_signal_unpack` writes for a packed field, for a 4-bit rate, a 1-bit
`R` and a 12-bit length: `R` and the length come back, the rate goes through the switch. -/
theorem unpack_pack_q (r R L : Nat) (hr : r < 16) (hR : R < 2) (hL : L < 4096) :
    (wlan_signal_unpack (wlan_signal_pack ⟨r, R, L⟩)).q =
      ⟨if valid_rate r then r else WLAN_SIGNAL_RATE_6, R, L⟩ := by
  obtain ⟨-, -, -, -, -, a3, a2, a1, a0, ar⟩ :=
    form0_bits r hr R hR _ (bit_lt L 0) _ (bit_lt L 1) _ (bit_lt L 2)
  obtain ⟨-, c7, c6, c5, c4, c3, c2, c1, c0⟩ :=
    form1_bits _ (bit_lt L 3) _ (bit_lt L 4) _ (bit_lt L 5) _ (bit_lt L 6) _ (bit_lt L 7)
      _ (bit_lt L 8) _ (bit_lt L 9) _ (bit_lt L 10)
  have e2 := pack_b2 ⟨r, R, L⟩
  generalize hp : (liquid_count_ones (wlan_signal_pack ⟨r, R, L⟩).b0 +
    liquid_count_ones (wlan_signal_pack ⟨r, R, L⟩).b1 +
    liquid_count_ones (0 ||| 0x80 * (L >>> 11 % 2))) % 2 = p at e2
  have hp2 : p < 2 := by rw [← hp]; exact Nat.mod_lt _ (by norm_num)
  obtain ⟨-, d7, -⟩ := form2_bits _ (bit_lt L 11) p hp2
  rw [unpack_q, e2, pack_b0, pack_b1]
  simp only [a3, a2, a1, a0, ar, c7, c6, c5, c4, c3, c2, c1, c0, d7, Nat.one_mul,
    unpack_form_bits L hL]

theorem pack_b0_lt (q : wlan_signal_s) : (wlan_signal_pack q).b0 < 256 := by
  rw [pack_b0, pack_form0]
  have h1 : (q.rate <<< 4) &&& 0xf0 < 2 ^ 8 :=
    Nat.lt_of_le_of_lt Nat.and_le_right (by norm_num)
  have h2 : (if q.R ≠ 0 then 0x08 else 0) < 2 ^ 8 := by split <;> norm_num
  have h3 : 0x04 * ((q.length >>> 0) % 2) < 2 ^ 8 := by omega
  have h4 : 0x02 * ((q.length >>> 1) % 2) < 2 ^ 8 := by omega
  have h5 : 0x01 * ((q.length >>> 2) % 2) < 2 ^ 8 := by omega
  have h0 : (0 : Nat) < 2 ^ 8 := by norm_num
  exact Nat.or_lt_two_pow (Nat.or_lt_two_pow (Nat.or_lt_two_pow (Nat.or_lt_two_pow
    (Nat.or_lt_two_pow h0 h1) h2) h3) h4) h5

theorem pack_b1_lt (q : wlan_signal_s) : (wlan_signal_pack q).b1 < 256 := by
  rw [pack_b1]
  exact (form1_bits _ (bit_lt _ 3) _ (bit_lt _ 4) _ (bit_lt _ 5) _ (bit_lt _ 6) _ (bit_lt _ 7)
      _ (bit_lt _ 8) _ (bit_lt _ 9) _ (bit_lt _ 10)).1

/-- Or-ing a bit at position `k` onto a number below `2^k` adds it. -/
theorem or_step (S x k : Nat) (h : S < 2 ^ k) (hx : x < 2) :
    S ||| 2 ^ k * x = S + 2 ^ k * x ∧ S + 2 ^ k * x < 2 ^ (k + 1) := by
  refine ⟨by rw [Nat.lor_comm, ← Nat.mul_add_lt_is_or h x, Nat.add_comm], ?_⟩
  have h2 : 2 ^ k * x ≤ 2 ^ k * 1 := Nat.mul_le_mul_left _ (by omega)
  rw [Nat.pow_succ]
  omega

theorem unpack_form_sum (a b c d e f g h i j k l : Nat) (ha : a < 2) (hb : b < 2) (hc : c < 2)
    (hd : d < 2) (he : e < 2) (hf : f < 2) (hg : g < 2) (hh : h < 2) (hi : i < 2) (hj : j < 2)
    (hk : k < 2) (hl : l < 2) :
    unpack_form a b c d e f g h i j k l =
      a + 2 * b + 4 * c + 8 * d + 16 * e + 32 * f + 64 * g + 128 * h + 256 * i + 512 * j
        + 1024 * k + 2048 * l := by
  unfold unpack_form
  obtain ⟨s0, t0⟩ := or_step 0 a 0 (by norm_num) ha
  obtain ⟨s1, t1⟩ := or_step _ b 1 t0 hb
  obtain ⟨s2, t2⟩ := or_step _ c 2 t1 hc
  obtain ⟨s3, t3⟩ := or_step _ d 3 t2 hd
  obtain ⟨s4, t4⟩ := or_step _ e 4 t3 he
  obtain ⟨s5, t5⟩ := or_step _ f 5 t4 hf
  obtain ⟨s6, t6⟩ := or_step _ g 6 t5 hg
  obtain ⟨s7, t7⟩ := or_step _ h 7 t6 hh
  obtain ⟨s8, t8⟩ := or_step _ i 8 t7 hi
  obtain ⟨s9, t9⟩ := or_step _ j 9 t8 hj
  obtain ⟨s10, t10⟩ := or_step _ k 10 t9 hk
  obtain ⟨s11, -⟩ := or_step _ l 11 t10 hl
  simp only [Nat.reducePow] at s0 s1 s2 s3 s4 s5 s6 s7 s8 s9 s10 s11
  rw [s0, s1, s2, s3, s4, s5, s6, s7, s8, s9, s10, s11]
  ring

/-! ## Lemmas on the frame parameters -/

theorem to_int_of_lt {x : Nat} (h : x < 2 ^ 31) : to_int x = (x : Int) := by
  have h1 : x % 2 ^ 32 = x := Nat.mod_eq_of_lt (by omega)
  unfold to_int
  rw [h1, if_pos h]

theorem to_uint_natCast {x : Nat} (h : x < 2 ^ 32) : to_uint (x : Int) = x := by
  unfold to_uint
  have : ((x : Int) % 2 ^ 32) = (x : Int) := Int.emod_eq_of_lt (by omega) (by omega)
  rw [this, Int.toNat_ofNat]

/-- The symbol count `d.quot + (d.rem == 0 ? 0 : 1)` of the C code, for a 12-bit length and a
table value of `ndbps`: no conversion wraps and the result is the rounded-up quotient. -/
theorem nsym_calc (L n : Nat) (hL : L ≤ 4095) (hn : std_ndbps n) :
    to_uint (Int.tdiv (to_int ((16 + 8 * L + 6) % 2 ^ 32)) (to_int n) +
      (if Int.tmod (to_int ((16 + 8 * L + 6) % 2 ^ 32)) (to_int n) = 0 then 0 else 1))
      = (16 + 8 * L + 6 + n - 1) / n := by
  have hx : (16 + 8 * L + 6) % 2 ^ 32 = 16 + 8 * L + 6 := Nat.mod_eq_of_lt (by omega)
  have hn' : n < 2 ^ 31 := by unfold std_ndbps at hn; omega
  rw [hx, to_int_of_lt (by omega : 16 + 8 * L + 6 < 2 ^ 31), to_int_of_lt hn',
    Int.tdiv_eq_ediv (by omega) (by omega), Int.tmod_eq_emod (by omega) (by omega)]
  have key : ((16 + 8 * L + 6 : Nat) : Int) / (n : Int) +
      (if ((16 + 8 * L + 6 : Nat) : Int) % (n : Int) = 0 then 0 else 1)
      = (((16 + 8 * L + 6 + n - 1) / n : Nat) : Int) := by
    unfold std_ndbps at hn
    rcases hn with h | h | h | h | h | h | h | h <;> subst h <;> split_ifs <;> omega
  rw [key]
  apply to_uint_natCast
  have : (16 + 8 * L + 6 + n - 1) / n ≤ 16 + 8 * L + 6 + n - 1 := Nat.div_le_self _ _
  omega

/-- For a valid SIGNAL with a 12-bit length and a table value of `ndbps`, the C code of
`wlanframesync_decode_signal` divides by no zero, and its parameters are the unwrapped ones. -/
theorem decode_signal_some (u : signal_unpacked) (ratetab : Nat → wlanframe_param_s)
    (q : wlanframesync_s) (hv : u.valid ≠ 0) (hL : u.length ≤ 4095)
    (hn : std_ndbps (ratetab u.rate).ndbps) :
    ∃ q', wlanframesync_decode_signal u ratetab q = some q' ∧
      q'.rate = u.rate ∧ q'.length = u.length ∧
      q'.ndbps = (ratetab u.rate).ndbps ∧ q'.ncbps = (ratetab u.rate).ncbps ∧
      q'.nbpsc = (ratetab u.rate).nbpsc ∧
      q'.nsym = (16 + 8 * u.length + 6 + q'.ndbps - 1) / q'.ndbps ∧
      q'.ndata = q'.nsym * q'.ndbps ∧
      q'.npad + (16 + 8 * u.length + 6) = q'.ndata ∧
      q'.dec_msg_len = q'.ndata / 8 ∧
      q'.enc_msg_len = (q'.dec_msg_len * q'.ncbps % 2 ^ 32) / q'.ndbps ∧
      q'.bytes_per_symbol = q'.enc_msg_len / q'.nsym := by
  have hsym := nsym_calc u.length _ hL hn
  generalize hnd : (ratetab u.rate).ndbps = n at *
  have hn' : n < 2 ^ 31 ∧ 0 < n := by unfold std_ndbps at hn; omega
  have hx : (16 + 8 * u.length + 6) % 2 ^ 32 = 16 + 8 * u.length + 6 :=
    Nat.mod_eq_of_lt (by omega)
  rw [hx] at hsym
  have hden : to_int n ≠ 0 := by rw [to_int_of_lt hn'.1]; omega
  have hsym_pos : (16 + 8 * u.length + 6 + n - 1) / n ≠ 0 := by
    have : n ≤ 16 + 8 * u.length + 6 + n - 1 := by omega
    have := Nat.div_pos this hn'.2
    omega
  have hdata : (16 + 8 * u.length + 6 + n - 1) / n * n < 2 ^ 32 ∧
      16 + 8 * u.length + 6 ≤ (16 + 8 * u.length + 6 + n - 1) / n * n := by
    unfold std_ndbps at hn
    rcases hn with h | h | h | h | h | h | h | h <;> subst h <;> omega
  have hdm : (16 + 8 * u.length + 6 + n - 1) / n * n % 2 ^ 32
      = (16 + 8 * u.length + 6 + n - 1) / n * n := Nat.mod_eq_of_lt hdata.1
  have hpad : to_uint ((((16 + 8 * u.length + 6 + n - 1) / n * n : Nat) : Int)
      - ((16 + 8 * u.length + 6 : Nat) : Int))
      = (16 + 8 * u.length + 6 + n - 1) / n * n - (16 + 8 * u.length + 6) := by
    rw [← Int.ofNat_sub hdata.2]
    exact to_uint_natCast (by omega)
  unfold wlanframesync_decode_signal
  simp only [hv, hnd, hden, hsym, hsym_pos, hn'.2.ne', hx, hdm, hpad, if_false, ↓reduceIte]
  refine ⟨_, rfl, rfl, rfl, rfl, rfl, rfl, rfl, rfl, ?_, rfl, rfl, rfl⟩
  simp only
  omega

/-- For the rows of the rate table whose `ndbps` is a multiple of 8 (all but `ndbps = 36`)
neither length division of `wlanframesync_decode_signal` truncates. -/
theorem decode_signal_lengths_exact_of_ne_36 (u : signal_unpacked) (ratetab : Nat → wlanframe_param_s)
    (q : wlanframesync_s) (hv : u.valid ≠ 0) (hL1 : 1 ≤ u.length) (hL2 : u.length ≤ 4095)
    (hrow : std_row (ratetab u.rate).ndbps (ratetab u.rate).ncbps)
    (h36 : (ratetab u.rate).ndbps ≠ 36) :
    ∃ q', wlanframesync_decode_signal u ratetab q = some q' ∧
      q'.dec_msg_len = q'.ndata / 8 ∧
      q'.enc_msg_len = q'.dec_msg_len * (ratetab u.rate).ncbps / (ratetab u.rate).ndbps ∧
      8 * q'.dec_msg_len = q'.ndata ∧
      q'.enc_msg_len * (ratetab u.rate).ndbps = q'.dec_msg_len * (ratetab u.rate).ncbps := by
  have hn : std_ndbps (ratetab u.rate).ndbps := by
    unfold std_row at hrow; unfold std_ndbps; omega
  obtain ⟨q', hq, -, -, hnd, hnc, -, hsym, hdata, -, hdec, henc, -⟩ :=
    decode_signal_some u ratetab q hv hL2 hn
  refine ⟨q', hq, hdec, ?_⟩
  rw [hnd] at hsym hdata henc
  rw [hnc] at henc
  generalize (ratetab u.rate).ndbps = n at *
  generalize (ratetab u.rate).ncbps = c at *
  generalize q'.nsym = s at *
  generalize q'.ndata = d at *
  generalize q'.dec_msg_len = dl at *
  generalize q'.enc_msg_len = el at *
  unfold std_row at hrow
  rcases hrow with ⟨h, h'⟩ | ⟨h, h'⟩ | ⟨h, h'⟩ | ⟨h, h'⟩ | ⟨h, h'⟩ | ⟨h, h'⟩ | ⟨h, h'⟩ | ⟨h, h'⟩ <;>
    subst h h' <;> first | exact absurd rfl h36 | (refine ⟨?_, ?_, ?_⟩ <;> omega)

/-! ## The claims -/

/-- C1. For every SIGNAL structure with one of the 8 defined rate codes, `R` in {0,1} and
length in [1,4095], `wlan_signal_unpack` applied to the bytes written by `wlan_signal_pack`
writes a structure with the same rate, `R` and length. -/
theorem signal_pack_unpack_roundtrip (s : wlan_signal_s) (hrate : valid_rate s.rate)
    (hR : s.R = 0 ∨ s.R = 1) (hlen1 : 1 ≤ s.length) (hlen2 : s.length ≤ 4095) :
    (wlan_signal_unpack (wlan_signal_pack s)).q = s := by
  obtain ⟨r, R, L⟩ := s
  simp only at hrate hR hlen1 hlen2
  rw [unpack_pack_q r R L (valid_rate_lt hrate) (by omega) (by omega), if_pos hrate]

/-- Witness for C1: rate 36 Mbit/s (code 11), `R = 0`, length 100. -/
theorem signal_pack_unpack_roundtrip_witness :
    (valid_rate WLAN_SIGNAL_RATE_36 ∧ 1 ≤ 100 ∧ 100 ≤ 4095) ∧
    (wlan_signal_unpack (wlan_signal_pack ⟨WLAN_SIGNAL_RATE_36, 0, 100⟩)).q
      = ⟨WLAN_SIGNAL_RATE_36, 0, 100⟩ :=
  ⟨by decide, signal_pack_unpack_roundtrip ⟨WLAN_SIGNAL_RATE_36, 0, 100⟩ (by decide)
    (by decide) (by decide) (by decide)⟩

/-- C2. For a rate code `r` in 0..15, `R` in {0,1} and a length `L` in 0..4095,
`wlan_signal_pack` writes 3 bytes in which, numbering the bits MSB-first, bits 0-3 hold `r`
(most significant bit first), bit 4 is `R`, bit `5+i` is bit `i` of `L` for `i` in 0..11 and
the tail bits 18-23 are 0. -/
theorem signal_pack_bit_layout (r R L : Nat) (hr : r < 16) (hR : R < 2) (_hL : L < 4096) :
    (wlan_signal_pack ⟨r, R, L⟩).b0 < 256 ∧ (wlan_signal_pack ⟨r, R, L⟩).b1 < 256 ∧
    (wlan_signal_pack ⟨r, R, L⟩).b2 < 256 ∧
    (∀ i, i < 4 → signal_bit (wlan_signal_pack ⟨r, R, L⟩) i = r >>> (3 - i) % 2) ∧
    signal_bit (wlan_signal_pack ⟨r, R, L⟩) 4 = R ∧
    (∀ i, i < 12 → signal_bit (wlan_signal_pack ⟨r, R, L⟩) (5 + i) = L >>> i % 2) ∧
    (∀ k, 18 ≤ k → k < 24 → signal_bit (wlan_signal_pack ⟨r, R, L⟩) k = 0) := by
  obtain ⟨a, a7, a6, a5, a4, a3, a2, a1, a0, -⟩ :=
    form0_bits r hr R hR _ (bit_lt L 0) _ (bit_lt L 1) _ (bit_lt L 2)
  obtain ⟨c, c7, c6, c5, c4, c3, c2, c1, c0⟩ :=
    form1_bits _ (bit_lt L 3) _ (bit_lt L 4) _ (bit_lt L 5) _ (bit_lt L 6) _ (bit_lt L 7)
      _ (bit_lt L 8) _ (bit_lt L 9) _ (bit_lt L 10)
  have e2 := pack_b2 ⟨r, R, L⟩
  generalize hp : (liquid_count_ones (wlan_signal_pack ⟨r, R, L⟩).b0 +
    liquid_count_ones (wlan_signal_pack ⟨r, R, L⟩).b1 +
    liquid_count_ones (0 ||| 0x80 * (L >>> 11 % 2))) % 2 = p at e2
  have hp2 : p < 2 := by rw [← hp]; exact Nat.mod_lt _ (by norm_num)
  obtain ⟨d, d7, -, d5, d4, d3, d2, d1, d0, -⟩ := form2_bits _ (bit_lt L 11) p hp2
  have e0 := pack_b0 ⟨r, R, L⟩
  have e1 := pack_b1 ⟨r, R, L⟩
  simp only at e0 e1 e2
  rw [← e0] at a a7 a6 a5 a4 a3 a2 a1 a0
  rw [← e1] at c c7 c6 c5 c4 c3 c2 c1 c0
  rw [← e2] at d d7 d5 d4 d3 d2 d1 d0
  clear e0 e1 e2 hp
  generalize (wlan_signal_pack ⟨r, R, L⟩) = f at *
  obtain ⟨b0, b1, b2⟩ := f
  simp only at a a7 a6 a5 a4 a3 a2 a1 a0 c c7 c6 c5 c4 c3 c2 c1 c0 d d7 d5 d4 d3 d2 d1 d0
  refine ⟨a, c, d, ?_, ?_, ?_, ?_⟩
  · intro i hi
    interval_cases i <;> simp only [signal_bit, signal_bytes.byte, Nat.reduceMod, Nat.reduceSub,
      Nat.reduceDiv] <;> assumption
  · simpa only [signal_bit, signal_bytes.byte, Nat.reduceMod, Nat.reduceSub,
      Nat.reduceDiv] using a3
  · intro i hi
    interval_cases i <;> simp only [signal_bit, signal_bytes.byte, Nat.reduceMod, Nat.reduceSub,
      Nat.reduceDiv, Nat.reduceAdd] <;> assumption
  · intro k hk1 hk2
    interval_cases k <;> simp only [signal_bit, signal_bytes.byte, Nat.reduceMod, Nat.reduceSub,
      Nat.reduceDiv] <;> assumption

/-- Witness for C2: rate code 11, `R = 0`, length 100. -/
theorem signal_pack_bit_layout_witness :
    (11 < 16 ∧ 0 < 2 ∧ 100 < 4096) ∧
    (wlan_signal_pack ⟨11, 0, 100⟩).b0 < 256 ∧ (wlan_signal_pack ⟨11, 0, 100⟩).b1 < 256 ∧
    (wlan_signal_pack ⟨11, 0, 100⟩).b2 < 256 ∧
    (∀ i, i < 4 → signal_bit (wlan_signal_pack ⟨11, 0, 100⟩) i = 11 >>> (3 - i) % 2) ∧
    signal_bit (wlan_signal_pack ⟨11, 0, 100⟩) 4 = 0 ∧
    (∀ i, i < 12 → signal_bit (wlan_signal_pack ⟨11, 0, 100⟩) (5 + i) = 100 >>> i % 2) ∧
    (∀ k, 18 ≤ k → k < 24 → signal_bit (wlan_signal_pack ⟨11, 0, 100⟩) k = 0) :=
  ⟨by decide, signal_pack_bit_layout 11 0 100 (by decide) (by decide) (by decide)⟩

/-- C3. For every input structure, bit 17 of the field written by `wlan_signal_pack` is the
sum modulo 2 of bits 0-16, so bits 0-17 hold an even number of ones. -/
theorem signal_pack_even_parity (q : wlan_signal_s) :
    signal_bit (wlan_signal_pack q) 17
        = (Finset.sum (Finset.range 17) (signal_bit (wlan_signal_pack q))) % 2 ∧
    (Finset.sum (Finset.range 18) (signal_bit (wlan_signal_pack q))) % 2 = 0 := by
  have e0 := count_ones_byte _ (pack_b0_lt q)
  have e1 := count_ones_byte _ (pack_b1_lt q)
  have e2 := pack_b2 q
  have hl : (q.length >>> 11) % 2 < 2 := bit_lt _ _
  rw [e0, e1] at e2
  simp only [Finset.sum_range_succ, Finset.sum_range_zero, signal_bit, signal_bytes.byte,
    Nat.reduceMod, Nat.reduceSub, Nat.reduceDiv]
  generalize (wlan_signal_pack q).b0 = b0 at *
  generalize (wlan_signal_pack q).b1 = b1 at *
  generalize (wlan_signal_pack q).b2 = b2 at *
  generalize (q.length >>> 11) % 2 = l at *
  generalize b0 >>> 7 % 2 = x7 at *
  generalize b0 >>> 6 % 2 = x6 at *
  generalize b0 >>> 5 % 2 = x5 at *
  generalize b0 >>> 4 % 2 = x4 at *
  generalize b0 >>> 3 % 2 = x3 at *
  generalize b0 >>> 2 % 2 = x2 at *
  generalize b0 >>> 1 % 2 = x1 at *
  generalize b0 >>> 0 % 2 = x0 at *
  generalize b1 >>> 7 % 2 = y7 at *
  generalize b1 >>> 6 % 2 = y6 at *
  generalize b1 >>> 5 % 2 = y5 at *
  generalize b1 >>> 4 % 2 = y4 at *
  generalize b1 >>> 3 % 2 = y3 at *
  generalize b1 >>> 2 % 2 = y2 at *
  generalize b1 >>> 1 % 2 = y1 at *
  generalize b1 >>> 0 % 2 = y0 at *
  have hc : liquid_count_ones (0 ||| 0x80 * l) = l := (form2_bits l hl 0 (by norm_num)).2.2.2.2.2.2.2.2.2
  rw [hc] at e2
  generalize hp : (x7 + x6 + x5 + x4 + x3 + x2 + x1 + x0 +
    (y7 + y6 + y5 + y4 + y3 + y2 + y1 + y0) + l) % 2 = p at e2
  have hp2 : p < 2 := by rw [← hp]; exact Nat.mod_lt _ (by norm_num)
  obtain ⟨-, t7, t6, -⟩ := form2_bits l hl p hp2
  rw [← e2] at t7 t6
  rw [t7, t6]
  omega

/-- C4 (the code at the failing inputs). The field packed for rate 6, `R = 0`, length 2048
with its parity bit flipped has wrong parity, yet `wlan_signal_unpack` prints no warning and
writes the structure; for length 1 the flipped field draws the `parity mismatch` warning,
and the structure is written all the same. -/
theorem signal_unpack_flipped_parity_delivered :
    wlan_signal_pack ⟨WLAN_SIGNAL_RATE_6, 0, 2048⟩ = ⟨0xd0, 0x00, 0x80⟩ ∧
    ¬ signal_parity_ok ⟨0xd0, 0x00, 0xc0⟩ ∧
    wlan_signal_unpack ⟨0xd0, 0x00, 0xc0⟩ = ⟨⟨WLAN_SIGNAL_RATE_6, 0, 2048⟩, []⟩ ∧
    wlan_signal_pack ⟨WLAN_SIGNAL_RATE_6, 0, 1⟩ = ⟨0xd4, 0x00, 0x00⟩ ∧
    ¬ signal_parity_ok ⟨0xd4, 0x00, 0x40⟩ ∧
    wlan_signal_unpack ⟨0xd4, 0x00, 0x40⟩
      = ⟨⟨WLAN_SIGNAL_RATE_6, 0, 1⟩, [unpack_warning.parity_mismatch]⟩ := by
  decide!

/-- C5 (what the code does). For every field whose rate nibble is not a defined rate code,
`wlan_signal_unpack` prints the `invalid rate` warning and writes the rate
`WLAN_SIGNAL_RATE_6` into the structure: a rate is delivered. -/
theorem signal_unpack_undefined_rate (s : signal_bytes) (h : ¬ valid_rate (signal_rate_nibble s)) :
    (wlan_signal_unpack s).q.rate = WLAN_SIGNAL_RATE_6 ∧
    unpack_warning.invalid_rate ∈ (wlan_signal_unpack s).warnings := by
  unfold signal_rate_nibble at h
  constructor
  · rw [unpack_q]
    simp only [if_neg h]
  · have h' := h
    unfold valid_rate at h'
    simp only [wlan_signal_unpack, if_neg h', List.mem_append, List.mem_singleton, or_true]

/-- Witness for C5: rate nibble 0, length 1, parity bit set. -/
theorem signal_unpack_undefined_rate_witness :
    ¬ valid_rate (signal_rate_nibble ⟨0x04, 0x00, 0x40⟩) ∧
    (wlan_signal_unpack ⟨0x04, 0x00, 0x40⟩).q.rate = WLAN_SIGNAL_RATE_6 ∧
    unpack_warning.invalid_rate ∈ (wlan_signal_unpack ⟨0x04, 0x00, 0x40⟩).warnings :=
  ⟨by decide, signal_unpack_undefined_rate ⟨0x04, 0x00, 0x40⟩ (by decide)⟩

/-- C6, counterexample. The field `d0 00 40` has even parity and the defined rate code 13,
its length bits are all zero, and `wlan_signal_unpack` accepts it: acceptance is not
equivalent to a length in [1,4095]. -/
theorem signal_unpack_zero_length_accepted :
    signal_parity_ok ⟨0xd0, 0x00, 0x40⟩ ∧
    valid_rate (signal_rate_nibble ⟨0xd0, 0x00, 0x40⟩) ∧
    signal_length_bits ⟨0xd0, 0x00, 0x40⟩ = 0 ∧
    wlan_signal_unpack ⟨0xd0, 0x00, 0x40⟩ = ⟨⟨WLAN_SIGNAL_RATE_6, 0, 0⟩, []⟩ ∧
    unpack_accepts ⟨0xd0, 0x00, 0x40⟩ ∧
    ¬ (unpack_accepts ⟨0xd0, 0x00, 0x40⟩ ↔
        (1 ≤ signal_length_bits ⟨0xd0, 0x00, 0x40⟩ ∧
          signal_length_bits ⟨0xd0, 0x00, 0x40⟩ ≤ 4095)) := by
  decide!

/-- C6, amended. Every field that passes the parity test of `wlan_signal_unpack` and has a
defined rate code is accepted (no warning) whatever its 12 length bits are; the length
written is the one they decode to, and it lies in [0,4095]. -/
theorem signal_unpack_no_length_check (s : signal_bytes) (hp : unpack_parity_ok s)
    (hr : valid_rate (signal_rate_nibble s)) :
    unpack_accepts s ∧
    (wlan_signal_unpack s).q.length = signal_length_bits s ∧
    (wlan_signal_unpack s).q.length ≤ 4095 := by
  have hlen : (wlan_signal_unpack s).q.length = signal_length_bits s := by
    rw [unpack_q]
    simp only [signal_length_bits, Finset.sum_range_succ, Finset.sum_range_zero, signal_bit,
      signal_bytes.byte, Nat.reduceAdd, Nat.reduceMod, Nat.reduceSub, Nat.reduceDiv,
      Nat.reducePow]
    rw [unpack_form_sum _ _ _ _ _ _ _ _ _ _ _ _ (bit_lt _ _) (bit_lt _ _) (bit_lt _ _)
      (bit_lt _ _) (bit_lt _ _) (bit_lt _ _) (bit_lt _ _) (bit_lt _ _) (bit_lt _ _)
      (bit_lt _ _) (bit_lt _ _) (bit_lt _ _)]
    omega
  refine ⟨?_, hlen, ?_⟩
  · unfold unpack_parity_ok at hp
    unfold signal_rate_nibble valid_rate at hr
    simp only [unpack_accepts, wlan_signal_unpack, hp, hr, ne_eq, not_true_eq_false, if_false,
      if_true, List.append_nil]
  · rw [unpack_q]
    simp only
    rw [unpack_form_sum _ _ _ _ _ _ _ _ _ _ _ _ (bit_lt _ _) (bit_lt _ _) (bit_lt _ _)
      (bit_lt _ _) (bit_lt _ _) (bit_lt _ _) (bit_lt _ _) (bit_lt _ _) (bit_lt _ _)
      (bit_lt _ _) (bit_lt _ _) (bit_lt _ _)]
    have := bit_lt s.b0 2; have := bit_lt s.b0 1; have := bit_lt s.b0 0
    have := bit_lt s.b1 7; have := bit_lt s.b1 6; have := bit_lt s.b1 5; have := bit_lt s.b1 4
    have := bit_lt s.b1 3; have := bit_lt s.b1 2; have := bit_lt s.b1 1; have := bit_lt s.b1 0
    have := bit_lt s.b2 7
    omega

/-- Witness for C6: the field `d0 00 40` (rate code 13, length bits zero). -/
theorem signal_unpack_no_length_check_witness :
    unpack_parity_ok ⟨0xd0, 0x00, 0x40⟩ ∧ valid_rate (signal_rate_nibble ⟨0xd0, 0x00, 0x40⟩) ∧
    unpack_accepts ⟨0xd0, 0x00, 0x40⟩ ∧
    (wlan_signal_unpack ⟨0xd0, 0x00, 0x40⟩).q.length = signal_length_bits ⟨0xd0, 0x00, 0x40⟩ ∧
    (wlan_signal_unpack ⟨0xd0, 0x00, 0x40⟩).q.length ≤ 4095 :=
  ⟨by decide!, by decide!, signal_unpack_no_length_check ⟨0xd0, 0x00, 0x40⟩ (by decide!) (by decide!)⟩

/-- C7. After `wlanframesync_reset`, applied to any synchronizer object whose pilot generator
was built with seed `0x7f` (as `wlanframesync_create` builds it), the state is SEEK, the
timer, the symbol counter and `phi_prime` are 0 and the pilot LFSR is back at `0x7f`; the
same holds right after `wlanframesync_create`, whatever the allocated memory held. -/
theorem reset_restores_seek (q : wlanframesync_s) (hseed : q.ms_pilot.a = 0x7f) :
    ((wlanframesync_reset q).state = wlanframesync_state.WLANFRAMESYNC_STATE_SEEKPLCP ∧
      (wlanframesync_reset q).timer = 0 ∧
      (wlanframesync_reset q).num_symbols = 0 ∧
      (wlanframesync_reset q).phi_prime = 0 ∧
      (wlanframesync_reset q).ms_pilot.v = 0x7f) ∧
    (∀ (callback : Bool) (mem : wlanframesync_s),
      (wlanframesync_create callback mem).state = wlanframesync_state.WLANFRAMESYNC_STATE_SEEKPLCP ∧
      (wlanframesync_create callback mem).timer = 0 ∧
      (wlanframesync_create callback mem).num_symbols = 0 ∧
      (wlanframesync_create callback mem).phi_prime = 0 ∧
      (wlanframesync_create callback mem).ms_pilot.v = 0x7f ∧
      (wlanframesync_create callback mem).ms_pilot.a = 0x7f) := by
  refine ⟨⟨rfl, rfl, rfl, rfl, ?_⟩, fun callback mem => ⟨rfl, rfl, rfl, rfl, rfl, rfl⟩⟩
  simp only [wlanframesync_reset, wlan_lfsr_reset, hseed]

/-- Witness for C7: the object made by `wlanframesync_create`, reset once more. -/
theorem reset_restores_seek_witness :
    (wlanframesync_create true wlanframesync_zero).ms_pilot.a = 0x7f ∧
    (wlanframesync_reset (wlanframesync_create true wlanframesync_zero)).state
      = wlanframesync_state.WLANFRAMESYNC_STATE_SEEKPLCP ∧
    (wlanframesync_reset (wlanframesync_create true wlanframesync_zero)).timer = 0 ∧
    (wlanframesync_reset (wlanframesync_create true wlanframesync_zero)).num_symbols = 0 ∧
    (wlanframesync_reset (wlanframesync_create true wlanframesync_zero)).phi_prime = 0 ∧
    (wlanframesync_reset (wlanframesync_create true wlanframesync_zero)).ms_pilot.v = 0x7f :=
  ⟨rfl, (reset_restores_seek (wlanframesync_create true wlanframesync_zero) rfl).1⟩

/-- C8. For a valid SIGNAL with length in [1,4095] and `ndbps` one of the 8 table values,
`wlanframesync_decode_signal` produces a result and its symbol count (quotient of `div`,
plus 1 for a non-zero remainder) is `ceil((16 + 8·length + 6) / ndbps)`. -/
theorem decode_signal_nsym_ceil (u : signal_unpacked) (ratetab : Nat → wlanframe_param_s)
    (q : wlanframesync_s) (hv : u.valid ≠ 0) (hL1 : 1 ≤ u.length) (hL2 : u.length ≤ 4095)
    (hn : std_ndbps (ratetab u.rate).ndbps) :
    ∃ q', wlanframesync_decode_signal u ratetab q = some q' ∧
      (q'.nsym : ℤ) = ⌈((16 + 8 * u.length + 6 : ℚ) / ((ratetab u.rate).ndbps : ℚ))⌉ := by
  obtain ⟨q', hq, -, -, hnd, -, -, hsym, -⟩ := decode_signal_some u ratetab q hv hL2 hn
  refine ⟨q', hq, ?_⟩
  rw [hnd] at hsym
  generalize (ratetab u.rate).ndbps = n at *
  generalize q'.nsym = s at *
  have hpos : 0 < n := by unfold std_ndbps at hn; omega
  have hb : 16 + 8 * u.length + 6 ≤ s * n ∧ s * n < 16 + 8 * u.length + 6 + n := by
    unfold std_ndbps at hn
    rcases hn with h | h | h | h | h | h | h | h <;> subst h <;> omega
  have hpos' : (0 : ℚ) < (n : ℚ) := by exact_mod_cast hpos
  symm
  rw [Int.ceil_eq_iff]
  constructor
  · rw [lt_div_iff₀ hpos']
    have h2 : ((s * n : Nat) : ℚ) < ((16 + 8 * u.length + 6 + n : Nat) : ℚ) := by
      exact_mod_cast hb.2
    push_cast at h2 ⊢
    linarith
  · rw [div_le_iff₀ hpos']
    have h1 : ((16 + 8 * u.length + 6 : Nat) : ℚ) ≤ ((s * n : Nat) : ℚ) := by
      exact_mod_cast hb.1
    push_cast at h1 ⊢
    linarith

/-- Witness for C8: rate 6 with length 1 gives 2 symbols, rate 54 with length 4095 gives
152. -/
theorem decode_signal_nsym_ceil_witness :
    (∃ q', wlanframesync_decode_signal ⟨1, WLANFRAME_RATE_6, 1⟩ wlanframe_ratetab
        wlanframesync_zero = some q' ∧ (q'.nsym : ℤ) = 2) ∧
    (∃ q', wlanframesync_decode_signal ⟨1, WLANFRAME_RATE_54, 4095⟩ wlanframe_ratetab
        wlanframesync_zero = some q' ∧ (q'.nsym : ℤ) = 152) := by
  constructor
  · obtain ⟨q', h, hs⟩ := decode_signal_nsym_ceil ⟨1, WLANFRAME_RATE_6, 1⟩ wlanframe_ratetab
      wlanframesync_zero (by decide) (by decide) (by decide) (by decide)
    refine ⟨q', h, ?_⟩
    rw [hs, Int.ceil_eq_iff]
    simp only [wlanframe_ratetab, WLANFRAME_RATE_6]
    norm_num
  · obtain ⟨q', h, hs⟩ := decode_signal_nsym_ceil ⟨1, WLANFRAME_RATE_54, 4095⟩ wlanframe_ratetab
      wlanframesync_zero (by decide) (by decide) (by decide) (by decide)
    refine ⟨q', h, ?_⟩
    rw [hs, Int.ceil_eq_iff]
    simp only [wlanframe_ratetab, WLANFRAME_RATE_54]
    norm_num

/-- C9. For a valid SIGNAL with length in [1,4095] and `ndbps` one of the 8 table values,
the computed values satisfy `ndata = nsym · ndbps` and `npad = ndata − (16 + 8·length + 6)`
with `0 ≤ npad < ndbps`: the unsigned subtraction does not wrap. -/
theorem decode_signal_npad_range (u : signal_unpacked) (ratetab : Nat → wlanframe_param_s)
    (q : wlanframesync_s) (hv : u.valid ≠ 0) (hL1 : 1 ≤ u.length) (hL2 : u.length ≤ 4095)
    (hn : std_ndbps (ratetab u.rate).ndbps) :
    ∃ q', wlanframesync_decode_signal u ratetab q = some q' ∧
      q'.ndata = q'.nsym * (ratetab u.rate).ndbps ∧
      (q'.npad : ℤ) = (q'.ndata : ℤ) - (16 + 8 * (u.length : ℤ) + 6) ∧
      0 ≤ (q'.ndata : ℤ) - (16 + 8 * (u.length : ℤ) + 6) ∧
      q'.npad < (ratetab u.rate).ndbps := by
  obtain ⟨q', hq, -, -, hnd, -, -, hsym, hdata, hpad, -⟩ :=
    decode_signal_some u ratetab q hv hL2 hn
  refine ⟨q', hq, ?_⟩
  rw [hnd] at hsym hdata
  generalize (ratetab u.rate).ndbps = n at *
  generalize q'.nsym = s at *
  generalize q'.ndata = d at *
  generalize q'.npad = p at *
  refine ⟨hdata, by omega, by omega, ?_⟩
  unfold std_ndbps at hn
  rcases hn with h | h | h | h | h | h | h | h <;> subst h <;> omega

/-- Witness for C9: rate 36 with length 100 (6 symbols of 144 bits, 42 pad bits). -/
theorem decode_signal_npad_range_witness :
    ∃ q', wlanframesync_decode_signal ⟨1, WLANFRAME_RATE_36, 100⟩ wlanframe_ratetab
        wlanframesync_zero = some q' ∧
      q'.ndata = q'.nsym * 144 ∧ (q'.npad : ℤ) = (q'.ndata : ℤ) - 822 ∧
      0 ≤ (q'.ndata : ℤ) - 822 ∧ q'.npad < 144 := by
  obtain ⟨q', h, h1, h2, h3, h4⟩ := decode_signal_npad_range ⟨1, WLANFRAME_RATE_36, 100⟩
    wlanframe_ratetab wlanframesync_zero (by decide) (by decide) (by decide) (by decide)
  refine ⟨q', h, h1, ?_, ?_, h4⟩
  · rw [h2]; norm_num
  · norm_num at h3 ⊢; exact h3

/-- C10 (the code at rate 9). For a valid SIGNAL of rate 9 (`ndbps = 36`, `ncbps = 48`) and
length 1, `wlanframesync_decode_signal` computes `ndata = 36`, `dec_msg_len = 36/8 = 4` and
`enc_msg_len = 4·48/36 = 5`: both divisions truncate, and `enc_msg_len · ndbps = 180` is not
`dec_msg_len · ncbps = 192`. -/
theorem decode_signal_rate9_truncates (q : wlanframesync_s) :
    ∃ q', wlanframesync_decode_signal ⟨1, WLANFRAME_RATE_9, 1⟩ wlanframe_ratetab q = some q' ∧
      q'.ndbps = 36 ∧ q'.ncbps = 48 ∧ q'.nsym = 1 ∧ q'.ndata = 36 ∧
      q'.dec_msg_len = 4 ∧ q'.enc_msg_len = 5 ∧
      8 * q'.dec_msg_len ≠ q'.ndata ∧
      q'.enc_msg_len * q'.ndbps ≠ q'.dec_msg_len * q'.ncbps := by
  obtain ⟨q', hq, -, -, hnd, hnc, -, hsym, hdata, -, hdec, henc, -⟩ :=
    decode_signal_some ⟨1, WLANFRAME_RATE_9, 1⟩ wlanframe_ratetab q (by decide) (by decide)
      (by decide)
  have hnd' : q'.ndbps = 36 := hnd
  have hnc' : q'.ncbps = 48 := hnc
  rw [hnd'] at hsym hdata henc
  rw [hnc'] at henc
  simp only at hsym
  norm_num at hsym
  rw [hsym] at hdata
  norm_num at hdata
  rw [hdata] at hdec
  norm_num at hdec
  rw [hdec] at henc
  norm_num at henc
  refine ⟨q', hq, hnd', hnc', hsym, hdata, hdec, henc, ?_, ?_⟩
  · rw [hdec, hdata]; norm_num
  · rw [henc, hdec, hnd', hnc']; norm_num

/-! ## Lemmas on the parity check of `wlan_signal_unpack` -/

/-- Byte 2 as the packer builds it, seen through the masks of the unpacker: the 6 tail
bits are zero and the parity bit is the one stored. -/
theorem form2_masks : ∀ l < 2, ∀ p < 2,
    liquid_count_ones (pack_form2 l p &&& 0x3f) = 0 ∧
    (if pack_form2 l p &&& 0x40 ≠ 0 then 1 else 0) = p := by
  decide!

/-- The ones of a byte masked with `0x3f` are its 6 low bits. -/
theorem count_ones_tail : ∀ b < 256, liquid_count_ones (b &&& 0x3f) =
    b >>> 5 % 2 + b >>> 4 % 2 + b >>> 3 % 2 + b >>> 2 % 2 + b >>> 1 % 2 + b >>> 0 % 2 := by
  decide!

/-- The parity test of `wlan_signal_unpack` on a packed field succeeds exactly when bit 11
of the length is 0. -/
theorem unpack_parity_pack (s : wlan_signal_s) :
    unpack_parity_ok (wlan_signal_pack s) ↔ (s.length >>> 11) % 2 = 0 := by
  have e2 := pack_b2 s
  have hl : (s.length >>> 11) % 2 < 2 := bit_lt _ _
  have hc : liquid_count_ones (0 ||| 0x80 * ((s.length >>> 11) % 2)) = (s.length >>> 11) % 2 :=
    (form2_bits _ hl 0 (by norm_num)).2.2.2.2.2.2.2.2.2
  rw [hc] at e2
  unfold unpack_parity_ok
  generalize hp : (liquid_count_ones (wlan_signal_pack s).b0 +
    liquid_count_ones (wlan_signal_pack s).b1 + (s.length >>> 11) % 2) % 2 = p at e2
  have hp2 : p < 2 := by rw [← hp]; exact Nat.mod_lt _ (by norm_num)
  obtain ⟨m1, m2⟩ := form2_masks _ hl p hp2
  rw [e2, m1, m2]
  generalize liquid_count_ones (wlan_signal_pack s).b0 = c0 at *
  generalize liquid_count_ones (wlan_signal_pack s).b1 = c1 at *
  generalize (s.length >>> 11) % 2 = l at *
  omega

/-- The warning of `wlan_signal_unpack` is printed exactly when its parity test fails. -/
theorem unpack_warning_iff (s : signal_bytes) :
    unpack_warning.parity_mismatch ∈ (wlan_signal_unpack s).warnings ↔ ¬ unpack_parity_ok s := by
  unfold unpack_parity_ok
  simp only [wlan_signal_unpack, List.mem_append]
  constructor
  · rintro (h | h)
    · by_contra hc
      rw [if_neg (not_not.2 hc)] at h
      exact absurd h (List.not_mem_nil _)
    · split at h
      · exact absurd h (List.not_mem_nil _)
      · simp at h
  · intro h
    left
    rw [if_pos h]
    exact List.mem_singleton_self _

/-- The parity test of `wlan_signal_unpack` in terms of the bits of the field: bit 17 is
compared with the sum of bits 0-15 and of the tail bits 18-23. -/
theorem unpack_parity_bits (s : signal_bytes) (h0 : s.b0 < 256) (h1 : s.b1 < 256)
    (h2 : s.b2 < 256) :
    unpack_parity_ok s ↔
      signal_bit s 17 = (Finset.sum (Finset.range 16) (signal_bit s) +
        Finset.sum (Finset.range 6) (fun i => signal_bit s (18 + i))) % 2 := by
  unfold unpack_parity_ok
  rw [count_ones_byte _ h0, count_ones_byte _ h1, count_ones_tail _ h2, ite_mask _ 0x40 6 _ rfl]
  simp only [Finset.sum_range_succ, Finset.sum_range_zero, signal_bit, signal_bytes.byte,
    Nat.reduceMod, Nat.reduceSub, Nat.reduceDiv, Nat.reduceAdd]
  generalize s.b0 >>> 7 % 2 = x7
  generalize s.b0 >>> 6 % 2 = x6
  generalize s.b0 >>> 5 % 2 = x5
  generalize s.b0 >>> 4 % 2 = x4
  generalize s.b0 >>> 3 % 2 = x3
  generalize s.b0 >>> 2 % 2 = x2
  generalize s.b0 >>> 1 % 2 = x1
  generalize s.b0 >>> 0 % 2 = x0
  generalize s.b1 >>> 7 % 2 = y7
  generalize s.b1 >>> 6 % 2 = y6
  generalize s.b1 >>> 5 % 2 = y5
  generalize s.b1 >>> 4 % 2 = y4
  generalize s.b1 >>> 3 % 2 = y3
  generalize s.b1 >>> 2 % 2 = y2
  generalize s.b1 >>> 1 % 2 = y1
  generalize s.b1 >>> 0 % 2 = y0
  generalize s.b2 >>> 6 % 2 = z6
  generalize s.b2 >>> 5 % 2 = z5
  generalize s.b2 >>> 4 % 2 = z4
  generalize s.b2 >>> 3 % 2 = z3
  generalize s.b2 >>> 2 % 2 = z2
  generalize s.b2 >>> 1 % 2 = z1
  generalize s.b2 >>> 0 % 2 = z0
  omega

/-! ## Lemmas on the runs of the synchronizer -/

theorem push_state (env : dsp_env) (q : wlanframesync_s) (x : sample) :
    (wlanframesync_execute_push env q x).state = q.state := by
  unfold wlanframesync_execute_push; split <;> rfl

theorem push_timer (env : dsp_env) (q : wlanframesync_s) (x : sample) :
    (wlanframesync_execute_push env q x).timer = q.timer := by
  unfold wlanframesync_execute_push; split <;> rfl

theorem push_buffer (env : dsp_env) (q : wlanframesync_s) (x : sample) :
    (wlanframesync_execute_push env q x).input_buffer =
      windowcf_push q.input_buffer (wlanframesync_pushed_sample env q x) := by
  unfold wlanframesync_execute_push wlanframesync_pushed_sample; split <;> rfl

theorem execute_nil (env : dsp_env) (q : wlanframesync_s) :
    wlanframesync_execute env q [] = some (q, []) := rfl

theorem execute_cons (env : dsp_env) (q : wlanframesync_s) (x : sample) (xs : List sample) :
    wlanframesync_execute env q (x :: xs) =
      match wlanframesync_execute_sample env q x with
      | none => none
      | some (q1, c1) =>
        match wlanframesync_execute env q1 xs with
        | none => none
        | some (q2, c2) => some (q2, c1 ++ c2) := rfl

/-- Execution on a concatenation is execution on the first part, then on the second. -/
theorem execute_append_eq (env : dsp_env) (q : wlanframesync_s) (a b : List sample) :
    wlanframesync_execute env q (a ++ b) =
      match wlanframesync_execute env q a with
      | none => none
      | some (q1, c1) =>
        match wlanframesync_execute env q1 b with
        | none => none
        | some (q2, c2) => some (q2, c1 ++ c2) := by
  induction a generalizing q with
  | nil =>
    rw [List.nil_append, execute_nil]
    simp only
    cases wlanframesync_execute env q b with
    | none => rfl
    | some r => simp only [List.nil_append]
  | cons x xs ih =>
    rw [List.cons_append, execute_cons, execute_cons]
    cases wlanframesync_execute_sample env q x with
    | none => rfl
    | some r =>
      obtain ⟨q1, c1⟩ := r
      simp only
      rw [ih q1]
      cases wlanframesync_execute env q1 xs with
      | none => rfl
      | some r2 =>
        obtain ⟨q2, c2⟩ := r2
        simp only
        cases wlanframesync_execute env q2 b with
        | none => rfl
        | some r3 =>
          obtain ⟨q3, c3⟩ := r3
          simp only [List.append_assoc]

theorem execute_append_some (env : dsp_env) (q q1 q2 : wlanframesync_s) (a b : List sample)
    (c1 c2 : List callback_call) (ha : wlanframesync_execute env q a = some (q1, c1))
    (hb : wlanframesync_execute env q1 b = some (q2, c2)) :
    wlanframesync_execute env q (a ++ b) = some (q2, c1 ++ c2) := by
  rw [execute_append_eq, ha]; simp only; rw [hb]

theorem execute_single (env : dsp_env) (q q1 : wlanframesync_s) (x : sample)
    (c : List callback_call) (h : wlanframesync_execute_sample env q x = some (q1, c)) :
    wlanframesync_execute env q [x] = some (q1, c) := by
  rw [execute_cons, h]; simp only [execute_nil, List.append_nil]

/-- A run without callback has no callback on any of its prefixes. -/
theorem execute_initial_silent (env : dsp_env) (q q1 : wlanframesync_s) (xs : List sample)
    (h : wlanframesync_execute env q xs = some (q1, [])) (n : Nat) :
    ∃ qn, wlanframesync_execute env q (xs.take n) = some (qn, []) := by
  have hx : xs = xs.take n ++ xs.drop n := (List.take_append_drop n xs).symm
  rw [hx, execute_append_eq] at h
  cases ha : wlanframesync_execute env q (xs.take n) with
  | none => rw [ha] at h; simp at h
  | some r =>
    obtain ⟨qa, ca⟩ := r
    rw [ha] at h
    simp only at h
    cases hb : wlanframesync_execute env qa (xs.drop n) with
    | none => rw [hb] at h; simp at h
    | some r2 =>
      obtain ⟨qb, cb⟩ := r2
      rw [hb] at h
      simp only [Option.some.injEq, Prod.mk.injEq, List.append_eq_nil] at h
      exact ⟨qa, by rw [h.2.1]⟩

/-- While the timer stays below the period of the state, a sample is pushed and counted. -/
theorem execute_sample_wait (env : dsp_env) (q : wlanframesync_s) (x : sample)
    (h : q.timer + 1 < state_period q.state) :
    wlanframesync_execute_sample env q x = some (wait_sample env q x, []) := by
  have hs := push_state env q x
  have ht := push_timer env q x
  unfold wlanframesync_execute_sample wlanframesync_execute_state wait_sample
  generalize wlanframesync_execute_push env q x = p at *
  rw [← ht, ← hs] at h
  cases hst : p.state <;> rw [hst] at h <;> simp only [state_period] at h <;> simp only
  · simp only [wlanframesync_execute_seekplcp, if_pos h]
  · simp only [wlanframesync_execute_rxshort0, if_pos h]
  · simp only [wlanframesync_execute_rxshort1, if_pos h]
  · simp only [wlanframesync_execute_rxlong0, if_pos h]
  · simp only [wlanframesync_execute_rxlong1, if_pos h]
  · simp only [wlanframesync_execute_rxsignal, if_pos h, Option.map_some']
  · simp only [wlanframesync_execute_rxdata, if_pos h]

theorem same_frame_refl (q : wlanframesync_s) : same_frame q q :=
  ⟨rfl, rfl, rfl, rfl, rfl, rfl⟩

theorem same_frame_trans {q q1 q2 : wlanframesync_s} (h1 : same_frame q q1)
    (h2 : same_frame q1 q2) : same_frame q q2 := by
  unfold same_frame at *
  refine ⟨h2.1.trans h1.1, h2.2.1.trans h1.2.1, h2.2.2.1.trans h1.2.2.1, ?_, ?_, ?_⟩
  · rw [h2.2.2.2.1, h1.2.2.2.1]
  · rw [h2.2.2.2.2.1, h1.2.2.2.2.1]
  · rw [h2.2.2.2.2.2, h1.2.2.2.2.2]

theorem push_same_frame (env : dsp_env) (q : wlanframesync_s) (x : sample) :
    same_frame q (wlanframesync_execute_push env q x) := by
  unfold wlanframesync_execute_push; split <;> exact ⟨rfl, rfl, rfl, rfl, rfl, rfl⟩

theorem push_num_symbols (env : dsp_env) (q : wlanframesync_s) (x : sample) :
    (wlanframesync_execute_push env q x).num_symbols = q.num_symbols := by
  unfold wlanframesync_execute_push; split <;> rfl

theorem wait_sample_state (env : dsp_env) (q : wlanframesync_s) (x : sample) :
    (wait_sample env q x).state = q.state := push_state env q x

theorem wait_sample_timer (env : dsp_env) (q : wlanframesync_s) (x : sample) :
    (wait_sample env q x).timer = q.timer + 1 := by
  show (wlanframesync_execute_push env q x).timer + 1 = q.timer + 1
  rw [push_timer]

theorem wait_sample_num_symbols (env : dsp_env) (q : wlanframesync_s) (x : sample) :
    (wait_sample env q x).num_symbols = q.num_symbols := push_num_symbols env q x

theorem wait_sample_same_frame (env : dsp_env) (q : wlanframesync_s) (x : sample) :
    same_frame q (wait_sample env q x) := push_same_frame env q x

theorem wait_samples_cons (env : dsp_env) (q : wlanframesync_s) (x : sample)
    (xs : List sample) :
    wait_samples env q (x :: xs) = wait_samples env (wait_sample env q x) xs := rfl

/-- What a run of counted samples leaves: the state, the symbol counter and the frame
parameters are kept, the timer has advanced by the number of samples. -/
theorem wait_samples_fields (env : dsp_env) (q : wlanframesync_s) (xs : List sample) :
    (wait_samples env q xs).state = q.state ∧
    (wait_samples env q xs).timer = q.timer + xs.length ∧
    (wait_samples env q xs).num_symbols = q.num_symbols ∧
    same_frame q (wait_samples env q xs) := by
  induction xs generalizing q with
  | nil => exact ⟨rfl, by simp [wait_samples], rfl, same_frame_refl q⟩
  | cons x xs ih =>
    obtain ⟨h1, h2, h3, h4⟩ := ih (wait_sample env q x)
    rw [wait_samples_cons]
    refine ⟨h1.trans (wait_sample_state env q x), ?_, h3.trans (wait_sample_num_symbols env q x),
      same_frame_trans (wait_sample_same_frame env q x) h4⟩
    rw [h2, wait_sample_timer, List.length_cons]
    push_cast
    ring

/-- While the timer stays below the period of the state, a run of samples is pushed and
counted, and no callback is invoked. -/
theorem execute_wait (env : dsp_env) (q : wlanframesync_s) (xs : List sample)
    (h : q.timer + xs.length < state_period q.state) :
    wlanframesync_execute env q xs = some (wait_samples env q xs, []) := by
  induction xs generalizing q with
  | nil => rfl
  | cons x xs ih =>
    rw [List.length_cons] at h
    push_cast at h
    have h1 : q.timer + 1 < state_period q.state := by
      have : (0 : Int) ≤ (xs.length : Int) := Int.natCast_nonneg _
      omega
    have h2 : (wait_sample env q x).timer + xs.length < state_period (wait_sample env q x).state := by
      rw [wait_sample_timer, wait_sample_state]; omega
    rw [execute_cons, execute_sample_wait env q x h1]
    simp only
    rw [ih _ h2, wait_samples_cons]
    simp only [List.append_nil]

/-- The sample on which the timer of RXLONG1 reaches 64: the state becomes RXSIGNAL and the
timer 0, on both branches of the check. -/
theorem execute_sample_rxlong1_fire (env : dsp_env) (q : wlanframesync_s) (x : sample)
    (hs : q.state = wlanframesync_state.WLANFRAMESYNC_STATE_RXLONG1) (ht : q.timer = 63) :
    ∃ q1, wlanframesync_execute_sample env q x = some (q1, []) ∧
      q1.state = wlanframesync_state.WLANFRAMESYNC_STATE_RXSIGNAL ∧ q1.timer = 0 := by
  have hs1 := push_state env q x
  have ht1 := push_timer env q x
  unfold wlanframesync_execute_sample wlanframesync_execute_state
  generalize wlanframesync_execute_push env q x = p at *
  rw [hs] at hs1
  rw [ht] at ht1
  have hn : ¬ (p.timer + 1 < 64) := by omega
  simp only [hs1, wlanframesync_execute_rxlong1, if_neg hn]
  split
  · exact ⟨_, rfl, rfl, rfl⟩
  · exact ⟨_, rfl, rfl, rfl⟩

/-- What `wlanframesync_decode_signal` leaves untouched, and the validity it stores. -/
theorem decode_signal_preserves (u : signal_unpacked) (ratetab : Nat → wlanframe_param_s)
    (q q1 : wlanframesync_s) (h : wlanframesync_decode_signal u ratetab q = some q1) :
    q1.state = q.state ∧ q1.timer = q.timer ∧ q1.num_symbols = q.num_symbols ∧
    q1.input_buffer = q.input_buffer ∧ q1.signal_valid = u.valid ∧ q1.callback = q.callback := by
  unfold wlanframesync_decode_signal at h
  simp only at h
  split_ifs at h <;>
    (injection h with h; subst h; exact ⟨rfl, rfl, rfl, rfl, rfl, rfl⟩)

/-- The sample on which the timer of RXSIGNAL reaches 80, for an unpacker that reports
valid only fields with a 12-bit length and a rate of the table: no callback, timer 0, and
the state is SEEK for an invalid field, RXDATA for a valid one. -/
theorem execute_sample_rxsignal_fire (env : dsp_env) (q : wlanframesync_s) (x : sample)
    (hs : q.state = wlanframesync_state.WLANFRAMESYNC_STATE_RXSIGNAL) (ht : q.timer = 79)
    (hu : ∀ d, (env.wlan_signal_unpack d).valid ≠ 0 →
      (env.wlan_signal_unpack d).length ≤ 4095 ∧
      std_ndbps (env.wlanframe_ratetab (env.wlan_signal_unpack d).rate).ndbps) :
    ∃ q1, wlanframesync_execute_sample env q x = some (q1, []) ∧ q1.timer = 0 ∧
      q1.signal_valid =
        (decode_signal_unpacked env (rxsignal_sliced env (wlanframesync_execute_push env q x))).valid ∧
      (q1.signal_valid = 0 →
        q1.state = wlanframesync_state.WLANFRAMESYNC_STATE_SEEKPLCP ∧ q1.num_symbols = 0) ∧
      (q1.signal_valid ≠ 0 →
        q1.state = wlanframesync_state.WLANFRAMESYNC_STATE_RXDATA ∧
        q1.num_symbols = q.num_symbols) := by
  have hs1 := push_state env q x
  have ht1 := push_timer env q x
  have hn1 := push_num_symbols env q x
  unfold wlanframesync_execute_sample wlanframesync_execute_state
  generalize wlanframesync_execute_push env q x = p at *
  rw [hs] at hs1
  rw [ht] at ht1
  have hn : ¬ (p.timer + 1 < 80) := by omega
  simp only [hs1, wlanframesync_execute_rxsignal, if_neg hn]
  have hsl : (rxsignal_sliced env p).timer = 0 ∧
      (rxsignal_sliced env p).num_symbols = p.num_symbols := ⟨rfl, rfl⟩
  unfold wlanframesync_decode_signal_env
  simp only
  have hdu : decode_signal_unpacked env (rxsignal_sliced env p) =
      env.wlan_signal_unpack (wlan_fec_signal_decode env
        (env.wlan_interleaver_decode_symbol WLANFRAME_RATE_6 (rxsignal_sliced env p).signal_int)) :=
    rfl
  rw [hdu]
  generalize hsl2 : rxsignal_sliced env p = p2 at *
  generalize hd : wlan_fec_signal_decode env
    (env.wlan_interleaver_decode_symbol WLANFRAME_RATE_6 p2.signal_int) = d at *
  generalize hp3 : ({ p2 with
    signal_enc := env.wlan_interleaver_decode_symbol WLANFRAME_RATE_6 p2.signal_int,
    signal_dec := d } : wlanframesync_s) = p3
  have h3 : p3.timer = 0 ∧ p3.num_symbols = p.num_symbols := by
    subst hp3; exact hsl
  by_cases hv : (env.wlan_signal_unpack d).valid = 0
  · have hdec : wlanframesync_decode_signal (env.wlan_signal_unpack d) env.wlanframe_ratetab p3 =
        some { p3 with signal_valid := (env.wlan_signal_unpack d).valid,
                       rate := (env.wlan_signal_unpack d).rate,
                       length := (env.wlan_signal_unpack d).length } := by
      unfold wlanframesync_decode_signal
      simp only [hv, if_true]
    rw [hdec]
    simp only [hv, if_true, Option.map_some']
    refine ⟨_, rfl, rfl, rfl, fun _ => ⟨rfl, rfl⟩, fun h => absurd rfl h⟩
  · obtain ⟨hL, hnd⟩ := hu d hv
    obtain ⟨q2, hq2, -⟩ := decode_signal_some (env.wlan_signal_unpack d) env.wlanframe_ratetab
      p3 hv hL hnd
    obtain ⟨-, e2, e3, -, e5, -⟩ := decode_signal_preserves _ _ _ _ hq2
    rw [hq2]
    have hv2 : ¬ q2.signal_valid = 0 := by rw [e5]; exact hv
    simp only [hv2, if_false, Option.map_some']
    refine ⟨_, rfl, ?_, e5, fun h => absurd h hv2, fun _ => ⟨rfl, ?_⟩⟩
    · show q2.timer = 0
      rw [e2]; exact h3.1
    · show q2.num_symbols = q.num_symbols
      rw [e3, h3.2, hn1]

/-- The sample on which the timer of RXLONG0 reaches 16: the timer goes back to 0, and the
state is RXLONG1 if the check passes and still RXLONG0 if it fails. -/
theorem execute_sample_rxlong0_fire (env : dsp_env) (q : wlanframesync_s) (x : sample)
    (hs : q.state = wlanframesync_state.WLANFRAMESYNC_STATE_RXLONG0) (ht : q.timer = 15) :
    ∃ q1, wlanframesync_execute_sample env q x = some (q1, []) ∧ q1.timer = 0 ∧
      q1.state =
        (if rxlong_check env (rxlong_statistic env (wlanframesync_execute_push env q x)) then
          wlanframesync_state.WLANFRAMESYNC_STATE_RXLONG1
        else wlanframesync_state.WLANFRAMESYNC_STATE_RXLONG0) := by
  have hs1 := push_state env q x
  have ht1 := push_timer env q x
  unfold wlanframesync_execute_sample wlanframesync_execute_state rxlong_statistic
  generalize wlanframesync_execute_push env q x = p at *
  rw [hs] at hs1
  rw [ht] at ht1
  have hn : ¬ (p.timer + 1 < 16) := by omega
  simp only [hs1, wlanframesync_execute_rxlong0, if_neg hn]
  split
  · exact ⟨_, rfl, rfl, rfl⟩
  · exact ⟨_, rfl, rfl, hs1.symm ▸ rfl⟩

/-- The sample on which the timer of RXLONG1 reaches 64, when the check fails: the state
becomes RXSIGNAL, the timer 0, and neither the oscillator nor the equalizer is updated. -/
theorem execute_sample_rxlong1_fail (env : dsp_env) (q : wlanframesync_s) (x : sample)
    (hs : q.state = wlanframesync_state.WLANFRAMESYNC_STATE_RXLONG1) (ht : q.timer = 63)
    (hc : rxlong_check env (rxlong_statistic env (wlanframesync_execute_push env q x)) = false) :
    ∃ q1, wlanframesync_execute_sample env q x = some (q1, []) ∧ q1.timer = 0 ∧
      q1.state = wlanframesync_state.WLANFRAMESYNC_STATE_RXSIGNAL ∧
      q1.G = q.G ∧ q1.R = q.R ∧
      q1.nco_rx = (wlanframesync_execute_push env q x).nco_rx := by
  have hs1 := push_state env q x
  have ht1 := push_timer env q x
  have hG : (wlanframesync_execute_push env q x).G = q.G ∧
      (wlanframesync_execute_push env q x).R = q.R := by
    unfold wlanframesync_execute_push; split <;> exact ⟨rfl, rfl⟩
  unfold rxlong_statistic at hc
  unfold wlanframesync_execute_sample wlanframesync_execute_state
  generalize wlanframesync_execute_push env q x = p at *
  rw [hs] at hs1
  rw [ht] at ht1
  have hn : ¬ (p.timer + 1 < 64) := by omega
  simp only [hs1, wlanframesync_execute_rxlong1, if_neg hn]
  simp only [windowcf_read] at hc ⊢
  rw [hc]
  simp only [Bool.false_eq_true, if_false]
  exact ⟨_, rfl, rfl, rfl, hG.1, hG.2, rfl⟩

/-- The sample on which the timer of RXDATA reaches 80, before the last symbol: the symbol
is counted, no callback is invoked and the state stays RXDATA with timer 0. -/
theorem execute_sample_rxdata_symbol (env : dsp_env) (q : wlanframesync_s) (x : sample)
    (hs : q.state = wlanframesync_state.WLANFRAMESYNC_STATE_RXDATA) (ht : q.timer = 79)
    (hrep : ∀ syms, (env.liquid_wlan_repack_bytes syms q.nbpsc 48 8
      q.bytes_per_symbol).num_written = q.bytes_per_symbol)
    (hk : (q.num_symbols + 1) % 2 ^ 32 ≠ q.nsym) :
    ∃ q1, wlanframesync_execute_sample env q x = some (q1, []) ∧
      q1.state = wlanframesync_state.WLANFRAMESYNC_STATE_RXDATA ∧ q1.timer = 0 ∧
      q1.num_symbols = (q.num_symbols + 1) % 2 ^ 32 ∧ same_frame q q1 := by
  have hs1 := push_state env q x
  have ht1 := push_timer env q x
  have hn1 := push_num_symbols env q x
  obtain ⟨f1, f2, f3, f4, f5, f6⟩ := push_same_frame env q x
  unfold wlanframesync_execute_sample wlanframesync_execute_state
  generalize wlanframesync_execute_push env q x = p at *
  rw [hs] at hs1
  rw [ht] at ht1
  rw [← f5, ← f6] at hrep
  rw [← hn1, ← f4] at hk
  have hn : ¬ (p.timer + 1 < 80) := by omega
  simp only [hs1, wlanframesync_execute_rxdata, if_neg hn, hrep, ne_eq, not_true_eq_false,
    if_false, if_neg hk]
  exact ⟨_, rfl, rfl, rfl, by rw [hn1], ⟨f1, f2, f3, f4, f5, f6⟩⟩

/-- The sample on which the timer of RXDATA reaches 80 and the last symbol is counted, with a
callback set: the callback is invoked once, with the length and the rate of the object in
the RX vector, and the synchronizer is reset. -/
theorem execute_sample_rxdata_last (env : dsp_env) (q : wlanframesync_s) (x : sample)
    (hs : q.state = wlanframesync_state.WLANFRAMESYNC_STATE_RXDATA) (ht : q.timer = 79)
    (hcb : q.callback = true)
    (hrep : ∀ syms, (env.liquid_wlan_repack_bytes syms q.nbpsc 48 8
      q.bytes_per_symbol).num_written = q.bytes_per_symbol)
    (hk : (q.num_symbols + 1) % 2 ^ 32 = q.nsym) :
    ∃ q1 c, wlanframesync_execute_sample env q x = some (q1, [c]) ∧
      c.rxvector.LENGTH = q.length ∧ c.rxvector.DATARATE = q.rate ∧
      q1.state = wlanframesync_state.WLANFRAMESYNC_STATE_SEEKPLCP ∧ q1.timer = 0 ∧
      q1.num_symbols = 0 := by
  have hs1 := push_state env q x
  have ht1 := push_timer env q x
  have hn1 := push_num_symbols env q x
  obtain ⟨f1, f2, f3, f4, f5, f6⟩ := push_same_frame env q x
  unfold wlanframesync_execute_sample wlanframesync_execute_state
  generalize wlanframesync_execute_push env q x = p at *
  rw [hs] at hs1
  rw [ht] at ht1
  rw [← f5, ← f6] at hrep
  rw [← hn1, ← f4] at hk
  rw [← f1] at hcb
  have hn : ¬ (p.timer + 1 < 80) := by omega
  simp only [hs1, wlanframesync_execute_rxdata, if_neg hn, hrep, ne_eq, not_true_eq_false,
    if_false, if_pos hk, hcb, if_true]
  exact ⟨_, _, rfl, f3, f2, rfl, rfl, rfl⟩

/-- In SEEK the oscillator is neither used nor stepped by the head of the loop. -/
theorem push_seek_nco (env : dsp_env) (q : wlanframesync_s) (x : sample)
    (hs : q.state = wlanframesync_state.WLANFRAMESYNC_STATE_SEEKPLCP) :
    (wlanframesync_execute_push env q x).nco_rx = q.nco_rx ∧
    (wlanframesync_execute_push env q x).input_buffer = windowcf_push q.input_buffer x := by
  unfold wlanframesync_execute_push
  rw [if_neg (not_not.2 hs)]
  exact ⟨rfl, rfl⟩

theorem execute_sample_seek (env : dsp_env) (q : wlanframesync_s) (x : sample)
    (hs : q.state = wlanframesync_state.WLANFRAMESYNC_STATE_SEEKPLCP) :
    wlanframesync_execute_sample env q x =
      some (wlanframesync_execute_seekplcp env (wlanframesync_execute_push env q x), []) := by
  have hs1 := push_state env q x
  unfold wlanframesync_execute_sample wlanframesync_execute_state
  generalize wlanframesync_execute_push env q x = p at *
  rw [hs] at hs1
  simp only [hs1]

/-- A turn of SEEK on which no test is made or the test fails: the state stays SEEK and the
oscillator is not touched. -/
theorem seekplcp_quiet (env : dsp_env) (p : wlanframesync_s)
    (hs : p.state = wlanframesync_state.WLANFRAMESYNC_STATE_SEEKPLCP)
    (hq : p.timer + 1 < 64 ∨ env.cabsf (seekplcp_s_hat env p) ≤ 0.4) :
    (wlanframesync_execute_seekplcp env p).state =
      wlanframesync_state.WLANFRAMESYNC_STATE_SEEKPLCP ∧
    (wlanframesync_execute_seekplcp env p).nco_rx = p.nco_rx := by
  unfold wlanframesync_execute_seekplcp
  by_cases ht : p.timer + 1 < 64
  · simp only [if_pos ht, and_true]; exact hs
  · have hc : ¬ env.cabsf (seekplcp_s_hat env p) > 0.4 := by
      rcases hq with h | h
      · exact absurd h ht
      · exact not_lt.2 h
    unfold seekplcp_s_hat at hc
    simp only [if_neg ht, if_neg hc, and_true]
    exact hs

/-- On a stream on which SEEK never detects, the run has a result, invokes no callback, ends
in SEEK and leaves the oscillator as it was. -/
theorem execute_seek_quiet (env : dsp_env) (q : wlanframesync_s) (xs : List sample)
    (hs : q.state = wlanframesync_state.WLANFRAMESYNC_STATE_SEEKPLCP)
    (hq : seek_never_detects env q xs = true) :
    ∃ q1, wlanframesync_execute env q xs = some (q1, []) ∧
      q1.state = wlanframesync_state.WLANFRAMESYNC_STATE_SEEKPLCP ∧ q1.nco_rx = q.nco_rx := by
  induction xs generalizing q with
  | nil => exact ⟨q, rfl, hs, rfl⟩
  | cons x xs ih =>
    simp only [seek_never_detects, Bool.and_eq_true, Bool.or_eq_true, decide_eq_true_eq] at hq
    obtain ⟨h1, h2⟩ := hq
    have hp := push_state env q x
    rw [hs] at hp
    obtain ⟨e1, e2⟩ := seekplcp_quiet env _ hp h1
    obtain ⟨q1, r1, r2, r3⟩ := ih _ e1 h2
    refine ⟨q1, ?_, r2, ?_⟩
    · rw [execute_cons, execute_sample_seek env q x hs]
      simp only
      rw [r1]
      simp only [List.append_nil]
    · rw [r3, e2, (push_seek_nco env q x hs).1]

theorem seek_never_detects_take (env : dsp_env) (q : wlanframesync_s) (xs : List sample)
    (n : Nat) (hq : seek_never_detects env q xs = true) :
    seek_never_detects env q (xs.take n) = true := by
  induction xs generalizing q n with
  | nil => simp [seek_never_detects]
  | cons x xs ih =>
    cases n with
    | zero => simp [seek_never_detects]
    | succ n =>
      simp only [seek_never_detects, Bool.and_eq_true, List.take_succ_cons] at hq ⊢
      exact ⟨hq.1, ih _ n hq.2⟩

theorem list_split_last (xs : List sample) (n : Nat) (h : xs.length = n + 1) :
    ∃ x, xs = xs.take n ++ [x] := by
  have h1 : (xs.drop n).length = 1 := by rw [List.length_drop, h]; omega
  obtain ⟨x, hx⟩ := List.length_eq_one.1 h1
  exact ⟨x, by rw [← hx, List.take_append_drop]⟩

/-- The 80 samples of a DATA symbol that is not the last one. -/
theorem execute_rxdata_symbol (env : dsp_env) (q : wlanframesync_s) (xs : List sample)
    (hs : q.state = wlanframesync_state.WLANFRAMESYNC_STATE_RXDATA) (ht : q.timer = 0)
    (hrep : ∀ syms, (env.liquid_wlan_repack_bytes syms q.nbpsc 48 8
      q.bytes_per_symbol).num_written = q.bytes_per_symbol)
    (hk : (q.num_symbols + 1) % 2 ^ 32 ≠ q.nsym) (hlen : xs.length = 80) :
    ∃ q1, wlanframesync_execute env q xs = some (q1, []) ∧
      q1.state = wlanframesync_state.WLANFRAMESYNC_STATE_RXDATA ∧ q1.timer = 0 ∧
      q1.num_symbols = (q.num_symbols + 1) % 2 ^ 32 ∧ same_frame q q1 := by
  obtain ⟨x, hx⟩ := list_split_last xs 79 hlen
  have hl : (xs.take 79).length = 79 := by rw [List.length_take, hlen]; rfl
  have hw := execute_wait env q (xs.take 79) (by rw [hl, ht, hs]; decide)
  obtain ⟨w1, w2, w3, w4⟩ := wait_samples_fields env q (xs.take 79)
  rw [hl, ht] at w2
  have w4' := w4
  obtain ⟨f1, f2, f3, f4, f5, f6⟩ := w4'
  obtain ⟨q1, r1, r2, r3, r4, r5⟩ := execute_sample_rxdata_symbol env _ x (w1.trans hs)
    (by rw [w2]; rfl) (by rw [f5, f6]; exact hrep) (by rw [w3, f4]; exact hk)
  refine ⟨q1, ?_, r2, r3, by rw [r4, w3], same_frame_trans w4 r5⟩
  rw [hx]
  exact execute_append_some env q _ q1 _ _ [] [] hw (execute_single env _ q1 x [] r1)

/-- The 80 samples of the last DATA symbol: no callback on the first 79, one on the 80th. -/
theorem execute_rxdata_last_symbol (env : dsp_env) (q : wlanframesync_s) (xs : List sample)
    (hs : q.state = wlanframesync_state.WLANFRAMESYNC_STATE_RXDATA) (ht : q.timer = 0)
    (hcb : q.callback = true)
    (hrep : ∀ syms, (env.liquid_wlan_repack_bytes syms q.nbpsc 48 8
      q.bytes_per_symbol).num_written = q.bytes_per_symbol)
    (hk : (q.num_symbols + 1) % 2 ^ 32 = q.nsym) (hlen : xs.length = 80) :
    (∃ qp, wlanframesync_execute env q (xs.take 79) = some (qp, [])) ∧
    ∃ q1 c, wlanframesync_execute env q xs = some (q1, [c]) ∧
      c.rxvector.LENGTH = q.length ∧ c.rxvector.DATARATE = q.rate ∧
      q1.state = wlanframesync_state.WLANFRAMESYNC_STATE_SEEKPLCP ∧ q1.timer = 0 ∧
      q1.num_symbols = 0 := by
  obtain ⟨x, hx⟩ := list_split_last xs 79 hlen
  have hl : (xs.take 79).length = 79 := by rw [List.length_take, hlen]; rfl
  have hw := execute_wait env q (xs.take 79) (by rw [hl, ht, hs]; decide)
  obtain ⟨w1, w2, w3, f1, f2, f3, f4, f5, f6⟩ := wait_samples_fields env q (xs.take 79)
  rw [hl, ht] at w2
  obtain ⟨q1, c, r1, r2, r3, r4, r5, r6⟩ := execute_sample_rxdata_last env _ x (w1.trans hs)
    (by rw [w2]; rfl) (by rw [f1]; exact hcb) (by rw [f5, f6]; exact hrep)
    (by rw [w3, f4]; exact hk)
  refine ⟨⟨_, hw⟩, q1, c, ?_, by rw [r2, f3], by rw [r3, f2], r4, r5, r6⟩
  rw [hx]
  exact execute_append_some env q _ q1 _ _ [] [c] hw (execute_single env _ q1 x [c] r1)

/-- The samples of `m + 1` DATA symbols, the last of which completes the frame: no callback
before the last sample, one on it, and the synchronizer is reset. -/
theorem execute_rxdata_symbols (env : dsp_env) (m : Nat) :
    ∀ (q : wlanframesync_s) (xs : List sample),
      q.state = wlanframesync_state.WLANFRAMESYNC_STATE_RXDATA → q.timer = 0 →
      q.callback = true → q.nsym < 2 ^ 32 → q.num_symbols + m + 1 = q.nsym →
      (∀ syms, (env.liquid_wlan_repack_bytes syms q.nbpsc 48 8
        q.bytes_per_symbol).num_written = q.bytes_per_symbol) →
      xs.length = 80 * (m + 1) →
      (∃ qp, wlanframesync_execute env q (xs.take (80 * (m + 1) - 1)) = some (qp, [])) ∧
      ∃ q1 c, wlanframesync_execute env q xs = some (q1, [c]) ∧
        c.rxvector.LENGTH = q.length ∧ c.rxvector.DATARATE = q.rate ∧
        q1.state = wlanframesync_state.WLANFRAMESYNC_STATE_SEEKPLCP ∧ q1.timer = 0 ∧
        q1.num_symbols = 0 := by
  induction m with
  | zero =>
    intro q xs hs ht hcb h32 hk hrep hlen
    exact execute_rxdata_last_symbol env q xs hs ht hcb hrep
      (by rw [Nat.mod_eq_of_lt (by omega)]; omega) (by omega)
  | succ m ih =>
    intro q xs hs ht hcb h32 hk hrep hlen
    have hxs : xs = xs.take 80 ++ xs.drop 80 := (List.take_append_drop 80 xs).symm
    have hla : (xs.take 80).length = 80 := by rw [List.length_take, hlen]; omega
    have hlb : (xs.drop 80).length = 80 * (m + 1) := by rw [List.length_drop, hlen]; omega
    have hmod : (q.num_symbols + 1) % 2 ^ 32 = q.num_symbols + 1 := Nat.mod_eq_of_lt (by omega)
    obtain ⟨q1, r1, r2, r3, r4, r5⟩ := execute_rxdata_symbol env q (xs.take 80) hs ht hrep
      (by rw [hmod]; omega) hla
    have r5' := r5
    obtain ⟨f1, f2, f3, f4, f5, f6⟩ := r5'
    obtain ⟨⟨qp, hp⟩, q2, c, s1, s2, s3, s4, s5, s6⟩ := ih q1 (xs.drop 80) r2 r3
      (by rw [f1]; exact hcb) (by rw [f4]; exact h32) (by rw [r4, hmod, f4]; omega)
      (by rw [f5, f6]; exact hrep) hlb
    refine ⟨⟨qp, ?_⟩, q2, c, ?_, by rw [s2, f3], by rw [s3, f2], s4, s5, s6⟩
    · have ht : 80 * (m + 1 + 1) - 1 = 80 + (80 * (m + 1) - 1) := by omega
      rw [ht, List.take_add]
      exact execute_append_some env q q1 qp _ _ [] [] r1 hp
    · rw [hxs]
      exact execute_append_some env q q1 q2 _ _ [] [c] r1 s1

theorem windowcf_push_length (w : windowcf) (v : sample) :
    (windowcf_push w v).length = w.length := by
  simp [windowcf_push]

/-- Pushing into a window that holds the last 80 entries of `w` gives the last 80 entries of
`w` with the sample appended. -/
theorem last_samples_push (w : List sample) (v : sample) (h : 80 ≤ w.length) :
    windowcf_push (last_samples 80 w) v = last_samples 80 (w ++ [v]) := by
  unfold windowcf_push last_samples
  have h0 : (w ++ [v]).length = w.length + 1 := by simp
  have h1 : (w ++ [v]).length - 80 = (w.length - 80) + 1 := by omega
  have e1 : List.drop 1 (List.drop (w.length - 80) w ++ [v]) =
      List.drop 1 (List.drop (w.length - 80) w) ++ [v] :=
    List.drop_append_of_le_length (by rw [List.length_drop]; omega)
  have e2 : List.drop (w.length - 80 + 1) (w ++ [v]) =
      List.drop (w.length - 80 + 1) w ++ [v] :=
    List.drop_append_of_le_length (by omega)
  rw [h1, e1, e2, List.drop_drop, Nat.add_comm]

/-- What `wlanframesync_execute_rxsignal` does to the buffer: cleared when it resets, kept
otherwise. -/
theorem rxsignal_buffer (env : dsp_env) (p r : wlanframesync_s)
    (hs : p.state = wlanframesync_state.WLANFRAMESYNC_STATE_RXSIGNAL)
    (h : wlanframesync_execute_rxsignal env p = some r) :
    (r.state = wlanframesync_state.WLANFRAMESYNC_STATE_SEEKPLCP ∧
      r.input_buffer = List.replicate p.input_buffer.length (0, 0)) ∨
    (r.state ≠ wlanframesync_state.WLANFRAMESYNC_STATE_SEEKPLCP ∧
      r.input_buffer = p.input_buffer) := by
  unfold wlanframesync_execute_rxsignal at h
  simp only at h
  split_ifs at h with ht
  · injection h with h; subst h
    right
    exact ⟨by simp [hs], rfl⟩
  · cases hd : wlanframesync_decode_signal_env env (rxsignal_sliced env p) with
    | none => rw [hd] at h; simp at h
    | some q2 =>
      rw [hd] at h
      simp only at h
      unfold wlanframesync_decode_signal_env at hd
      obtain ⟨e1, -, -, e4, -, -⟩ := decode_signal_preserves _ _ _ _ hd
      have e4' : q2.input_buffer = p.input_buffer := e4
      split_ifs at h with hv
      · injection h with h; subst h
        left
        refine ⟨rfl, ?_⟩
        show windowcf_reset q2.input_buffer = _
        rw [e4']; rfl
      · injection h with h; subst h
        right
        exact ⟨by simp, e4'⟩

/-- What `wlanframesync_execute_rxdata` does to the buffer: cleared when it resets, kept
otherwise. -/
theorem rxdata_buffer (env : dsp_env) (p r : wlanframesync_s) (c : List callback_call)
    (hs : p.state = wlanframesync_state.WLANFRAMESYNC_STATE_RXDATA)
    (h : wlanframesync_execute_rxdata env p = some (r, c)) :
    (r.state = wlanframesync_state.WLANFRAMESYNC_STATE_SEEKPLCP ∧
      r.input_buffer = List.replicate p.input_buffer.length (0, 0)) ∨
    (r.state ≠ wlanframesync_state.WLANFRAMESYNC_STATE_SEEKPLCP ∧
      r.input_buffer = p.input_buffer) := by
  unfold wlanframesync_execute_rxdata at h
  simp only at h
  split_ifs at h <;> (injection h with h; injection h with h1 h2; subst h1) <;>
    first
    | (left; exact ⟨rfl, rfl⟩)
    | (right; exact ⟨by simp [hs], rfl⟩)

/-- What one sample does to the buffer: it is cleared if the sample takes the synchronizer
back to SEEK, and the sample is pushed otherwise. -/
theorem execute_sample_buffer (env : dsp_env) (q q1 : wlanframesync_s) (x : sample)
    (c : List callback_call) (h : wlanframesync_execute_sample env q x = some (q1, c)) :
    q1.input_buffer =
      if q.state ≠ wlanframesync_state.WLANFRAMESYNC_STATE_SEEKPLCP ∧
          q1.state = wlanframesync_state.WLANFRAMESYNC_STATE_SEEKPLCP
        then List.replicate q.input_buffer.length (0, 0)
        else windowcf_push q.input_buffer (wlanframesync_pushed_sample env q x) := by
  have hs1 := push_state env q x
  have hb := push_buffer env q x
  have hl : (wlanframesync_execute_push env q x).input_buffer.length = q.input_buffer.length := by
    rw [hb, windowcf_push_length]
  unfold wlanframesync_execute_sample wlanframesync_execute_state at h
  generalize wlanframesync_execute_push env q x = p at *
  rw [← hb]
  cases hst : p.state <;> rw [hst] at h hs1 <;> simp only at h
  · injection h with h; injection h with h1 h2; subst h1
    rw [if_neg (fun hh => hh.1 hs1.symm)]
    unfold wlanframesync_execute_seekplcp
    simp only
    split_ifs <;> rfl
  · injection h with h; injection h with h1 h2; subst h1
    have hne : (wlanframesync_execute_rxshort0 env p).state ≠
        wlanframesync_state.WLANFRAMESYNC_STATE_SEEKPLCP := by
      unfold wlanframesync_execute_rxshort0; simp only; split_ifs <;> simp [hst]
    rw [if_neg (fun hh => hne hh.2)]
    unfold wlanframesync_execute_rxshort0
    simp only
    split_ifs <;> rfl
  · injection h with h; injection h with h1 h2; subst h1
    have hne : (wlanframesync_execute_rxshort1 env p).state ≠
        wlanframesync_state.WLANFRAMESYNC_STATE_SEEKPLCP := by
      unfold wlanframesync_execute_rxshort1; simp only; split_ifs <;> simp [hst]
    rw [if_neg (fun hh => hne hh.2)]
    unfold wlanframesync_execute_rxshort1
    simp only
    split_ifs <;> rfl
  · injection h with h; injection h with h1 h2; subst h1
    have hne : (wlanframesync_execute_rxlong0 env p).state ≠
        wlanframesync_state.WLANFRAMESYNC_STATE_SEEKPLCP := by
      unfold wlanframesync_execute_rxlong0; simp only; split_ifs <;> simp [hst]
    rw [if_neg (fun hh => hne hh.2)]
    unfold wlanframesync_execute_rxlong0
    simp only
    split_ifs <;> rfl
  · injection h with h; injection h with h1 h2; subst h1
    have hne : (wlanframesync_execute_rxlong1 env p).state ≠
        wlanframesync_state.WLANFRAMESYNC_STATE_SEEKPLCP := by
      unfold wlanframesync_execute_rxlong1; simp only; split_ifs <;> simp [hst]
    rw [if_neg (fun hh => hne hh.2)]
    unfold wlanframesync_execute_rxlong1
    simp only
    split_ifs <;> rfl
  · cases hr : wlanframesync_execute_rxsignal env p with
    | none => rw [hr] at h; simp at h
    | some r =>
      rw [hr] at h
      simp only [Option.map_some', Option.some.injEq, Prod.mk.injEq] at h
      obtain ⟨h1, -⟩ := h
      subst h1
      rcases rxsignal_buffer env p r hst hr with ⟨a1, a2⟩ | ⟨a1, a2⟩
      · rw [if_pos ⟨by rw [← hs1]; simp, a1⟩, a2, hl]
      · rw [if_neg (fun hh => a1 hh.2), a2]
  · rcases rxdata_buffer env p q1 c hst h with ⟨a1, a2⟩ | ⟨a1, a2⟩
    · rw [if_pos ⟨by rw [← hs1]; simp, a1⟩, a2, hl]
    · rw [if_neg (fun hh => a1 hh.2), a2]

/-- After a run, the buffer holds the last 80 entries of the content it started from followed
by the samples pushed, started again from 80 zeros at every return to SEEK. -/
theorem execute_buffer_history (env : dsp_env) (xs : List sample) :
    ∀ (q : wlanframesync_s) (w : List sample), q.input_buffer.length = 80 → 80 ≤ w.length →
      q.input_buffer = last_samples 80 w →
      match wlanframesync_execute env q xs with
      | none => True
      | some (q1, _) => q1.input_buffer = last_samples 80 (pushed_since_reset env q w xs) := by
  induction xs with
  | nil => intro q w _ _ h; exact h
  | cons x xs ih =>
    intro q w hl hw hq
    rw [execute_cons]
    unfold pushed_since_reset
    cases hsmp : wlanframesync_execute_sample env q x with
    | none => trivial
    | some r =>
      obtain ⟨q1, c1⟩ := r
      simp only
      have hb := execute_sample_buffer env q q1 x c1 hsmp
      have key : q1.input_buffer.length = 80 ∧
          80 ≤ (if q.state ≠ wlanframesync_state.WLANFRAMESYNC_STATE_SEEKPLCP ∧
              q1.state = wlanframesync_state.WLANFRAMESYNC_STATE_SEEKPLCP
            then List.replicate 80 ((0 : ℚ), (0 : ℚ))
            else w ++ [wlanframesync_pushed_sample env q x]).length ∧
          q1.input_buffer = last_samples 80
            (if q.state ≠ wlanframesync_state.WLANFRAMESYNC_STATE_SEEKPLCP ∧
              q1.state = wlanframesync_state.WLANFRAMESYNC_STATE_SEEKPLCP
            then List.replicate 80 ((0 : ℚ), (0 : ℚ))
            else w ++ [wlanframesync_pushed_sample env q x]) := by
        split_ifs at hb ⊢ with hc
        · rw [hb, hl]
          refine ⟨by simp, by simp, ?_⟩
          simp [last_samples]
        · rw [hb, windowcf_push_length]
          refine ⟨hl, by rw [List.length_append]; omega, ?_⟩
          rw [hq, last_samples_push w _ hw]
      have := ih q1 _ key.1 key.2.1 key.2.2
      cases hrun : wlanframesync_execute env q1 xs with
      | none => trivial
      | some r2 =>
        obtain ⟨q2, c2⟩ := r2
        rw [hrun] at this
        exact this

/-! ## The all-zero stream -/

theorem cmul_zero_left (w : sample) : cmul (0, 0) w = (0, 0) := by
  simp [cmul]

theorem cscale_zero (r : ℚ) : cscale (0, 0) r = (0, 0) := by
  simp [cscale]

theorem getD_zeros (n i : Nat) :
    (List.replicate n ((0 : ℚ), (0 : ℚ))).getD i 0 = 0 := by
  rw [List.getD_eq_getElem?_getD, List.getElem?_replicate]
  split <;> rfl

/-- The S0 metric of the gains of a zero spectrum is zero. -/
theorem S0_metrics_zero (S0 : Nat → sample) (gain : ℚ) :
    wlanframesync_S0_metrics ((List.range 64).map (fun i =>
      if i ∈ S0_subcarriers then
        cscale (cmul ((List.replicate 64 ((0 : ℚ), (0 : ℚ))).getD i 0) (conjf (S0 i))) gain
      else (0, 0))) = (0, 0) := by
  have h : ((List.range 64).map (fun i =>
      if i ∈ S0_subcarriers then
        cscale (cmul ((List.replicate 64 ((0 : ℚ), (0 : ℚ))).getD i 0) (conjf (S0 i))) gain
      else (0, 0))) = (List.range 64).map (fun _ => ((0 : ℚ), (0 : ℚ))) := by
    apply List.map_congr_left
    intro i _
    rw [getD_zeros]
    split
    · show cscale (cmul (0, 0) (conjf (S0 i))) gain = (0, 0)
      rw [cmul_zero_left, cscale_zero]
    · rfl
  rw [h]
  decide!

/-- On a window of zeros, with a transform that maps zeros to zeros, the detection statistic
of SEEK is zero. -/
theorem seekplcp_s_hat_zero (env : dsp_env) (p : wlanframesync_s)
    (hfft : env.fft (List.replicate 64 (0, 0)) = List.replicate 64 (0, 0))
    (hbuf : p.input_buffer = List.replicate 80 (0, 0)) :
    seekplcp_s_hat env p = (0, 0) := by
  have hx : ((List.replicate 80 ((0 : ℚ), (0 : ℚ))).drop 16).take 64 =
      List.replicate 64 (0, 0) := by decide!
  unfold seekplcp_s_hat wlanframesync_estimate_gain_S0 windowcf_read
  simp only
  rw [hbuf, hx, hfft, S0_metrics_zero, cscale_zero]

theorem push_zero_window :
    windowcf_push (List.replicate 80 ((0 : ℚ), (0 : ℚ))) (0, 0) = List.replicate 80 (0, 0) := by
  decide!

/-- A turn of SEEK keeps the buffer. -/
theorem seekplcp_buffer (env : dsp_env) (p : wlanframesync_s) :
    (wlanframesync_execute_seekplcp env p).input_buffer = p.input_buffer := by
  unfold wlanframesync_execute_seekplcp
  simp only
  split_ifs <;> rfl

/-- From SEEK with a buffer of zeros, with a transform that maps zeros to zeros and a
magnitude of zero that is at most 0.4, the all-zero stream never detects. -/
theorem seek_never_detects_zeros (env : dsp_env)
    (hfft : env.fft (List.replicate 64 (0, 0)) = List.replicate 64 (0, 0))
    (habs : env.cabsf (0, 0) ≤ 0.4) (n : Nat) :
    ∀ q : wlanframesync_s, q.state = wlanframesync_state.WLANFRAMESYNC_STATE_SEEKPLCP →
      q.input_buffer = List.replicate 80 (0, 0) →
      seek_never_detects env q (stream_zeros n) = true := by
  induction n with
  | zero => intro q _ _; rfl
  | succ n ih =>
    intro q hs hbuf
    have hp := push_state env q (0, 0)
    rw [hs] at hp
    have hb : (wlanframesync_execute_push env q (0, 0)).input_buffer =
        List.replicate 80 (0, 0) := by
      rw [(push_seek_nco env q (0, 0) hs).2, hbuf, push_zero_window]
    have hz := seekplcp_s_hat_zero env _ hfft hb
    have hq : (wlanframesync_execute_push env q (0, 0)).timer + 1 < 64 ∨
        env.cabsf (seekplcp_s_hat env (wlanframesync_execute_push env q (0, 0))) ≤ 0.4 := by
      right; rw [hz]; exact habs
    have hstep : stream_zeros (n + 1) = (0, 0) :: stream_zeros n := rfl
    rw [hstep]
    simp only [seek_never_detects, Bool.and_eq_true, Bool.or_eq_true, decide_eq_true_eq]
    refine ⟨hq, ih _ (seekplcp_quiet env _ hp hq).1 ?_⟩
    rw [seekplcp_buffer, hb]

/-- The services `env_accept` map zeros to zeros. -/
theorem env_accept_zero :
    env_accept.fft (List.replicate 64 (0, 0)) = List.replicate 64 (0, 0) ∧
    env_accept.cabsf (0, 0) ≤ 0.4 ∧
    sync_created.state = wlanframesync_state.WLANFRAMESYNC_STATE_SEEKPLCP ∧
    sync_created.input_buffer = List.replicate 80 (0, 0) := by
  decide!

/-! ## Facts on the example runs -/

/-- The repacker of `env_accept` writes the number of bytes asked for. -/
theorem env_accept_repack (syms : List Nat) (nbpsc n : Nat) :
    (env_accept.liquid_wlan_repack_bytes syms nbpsc 48 8 n).num_written = n := rfl

theorem stream_ones_length (n : Nat) : (stream_ones n).length = n := by
  simp [stream_ones]

theorem stream_zeros_length (n : Nat) : (stream_zeros n).length = n := by
  simp [stream_zeros]

/-- With `env_reject`, 112 samples `1 + 0i` lead into RXLONG1. -/
theorem sync_reject_112 :
    (sync_reject 112).state = wlanframesync_state.WLANFRAMESYNC_STATE_RXLONG1 ∧
    (sync_reject 112).timer = 0 := by
  decide!

/-- With `env_reject`, the S1 check made on sample 176 of the stream of ones passes. -/
theorem sync_reject_175 :
    rxlong_check env_reject (rxlong_statistic env_reject
      (wlanframesync_execute_push env_reject (sync_reject 175) (1, 0))) = true := by
  decide!

/-- With `env_reject`, 176 samples `1 + 0i` lead into RXSIGNAL. -/
theorem sync_reject_176 :
    (sync_reject 176).state = wlanframesync_state.WLANFRAMESYNC_STATE_RXSIGNAL ∧
    (sync_reject 176).timer = 0 ∧ (sync_reject 176).num_symbols = 0 := by
  decide!

/-- With `env_reject`, the SIGNAL field is rejected on sample 256: the state is SEEK and the
buffer holds zeros. -/
theorem sync_reject_256 :
    (sync_reject 256).state = wlanframesync_state.WLANFRAMESYNC_STATE_SEEKPLCP ∧
    (sync_reject 256).input_buffer = List.replicate 80 (0, 0) := by
  decide!

/-- With `env_accept`, 176 samples `1 + 0i` lead into RXSIGNAL. -/
theorem sync_accept_176 :
    (sync_accept 176).state = wlanframesync_state.WLANFRAMESYNC_STATE_RXSIGNAL ∧
    (sync_accept 176).timer = 0 ∧ (sync_accept 176).num_symbols = 0 := by
  decide!

/-- With `env_accept`, the SIGNAL field is accepted on sample 256: the state is RXDATA, the
frame has rate 6 Mbit/s, length 1 and 2 symbols. -/
theorem sync_accept_256 :
    (sync_accept 256).state = wlanframesync_state.WLANFRAMESYNC_STATE_RXDATA ∧
    (sync_accept 256).timer = 0 ∧ (sync_accept 256).num_symbols = 0 ∧
    (sync_accept 256).callback = true ∧ (sync_accept 256).nsym = 2 ∧
    (sync_accept 256).length = 1 ∧ (sync_accept 256).rate = WLANFRAME_RATE_6 := by
  decide!

theorem sync_accept_stream_length : (stream_ones 160).length = 80 * (sync_accept 256).nsym :=
  (stream_ones_length 160).trans (congrArg (fun k => 80 * k) sync_accept_256.2.2.2.2.1.symm)

/-- The run on `stream_s1_fail`, before and after the failed check of sample 112. -/
theorem sync_s1_fail_112 :
    (sync_s1_fail 111).state = wlanframesync_state.WLANFRAMESYNC_STATE_RXLONG0 ∧
    (sync_s1_fail 111).timer = 15 ∧
    rxlong_check env_reject (rxlong_statistic env_reject
      (wlanframesync_execute_push env_reject (sync_s1_fail 111) (0, 0))) = false ∧
    (sync_s1_fail 112).state = wlanframesync_state.WLANFRAMESYNC_STATE_RXLONG0 ∧
    (sync_s1_fail 112).timer = 0 := by
  decide!

/-- The run on `stream_s1_fail`, after the passed check of sample 128. -/
theorem sync_s1_fail_128 :
    (sync_s1_fail 128).state = wlanframesync_state.WLANFRAMESYNC_STATE_RXLONG1 ∧
    (sync_s1_fail 128).timer = 0 := by
  decide!

/-- The run on `stream_s1_fail`, before and after the failed check of sample 192. -/
theorem sync_s1_fail_192 :
    (sync_s1_fail 191).state = wlanframesync_state.WLANFRAMESYNC_STATE_RXLONG1 ∧
    (sync_s1_fail 191).timer = 63 ∧
    rxlong_check env_reject (rxlong_statistic env_reject
      (wlanframesync_execute_push env_reject (sync_s1_fail 191) (0, 0))) = false ∧
    (sync_s1_fail 192).state = wlanframesync_state.WLANFRAMESYNC_STATE_RXSIGNAL ∧
    (sync_s1_fail 192).timer = 0 := by
  decide!

/-- The services `env_reject` map zeros to zeros. -/
theorem env_reject_zero :
    env_reject.fft (List.replicate 64 (0, 0)) = List.replicate 64 (0, 0) ∧
    env_reject.cabsf (0, 0) ≤ 0.4 := by
  decide!

/-- The run of `env_reject` on 256 samples `1 + 0i`: the state before the last sample, the
state and the buffer after it, and the last 80 samples pushed. -/
theorem run_reject_256 :
    (sync_reject 255).state = wlanframesync_state.WLANFRAMESYNC_STATE_RXSIGNAL ∧
    (wlanframesync_execute env_reject sync_created (stream_ones 256)).map
        (fun r => r.1.state) = some wlanframesync_state.WLANFRAMESYNC_STATE_SEEKPLCP ∧
    (wlanframesync_execute env_reject sync_created (stream_ones 256)).map
        (fun r => r.1.input_buffer) = some (List.replicate 80 (0, 0)) ∧
    last_samples 80 (wlanframesync_execute_pushed env_reject sync_created (stream_ones 256)) =
      List.replicate 80 (1, 0) := by
  decide!

/-! ## The claims on the synchronizer, the parity check and the phase error -/

/-- C11. For every object `q`, every set of services and every two buffers `a` and `b`,
`wlanframesync_execute` on `a ++ b` gives the final object and the sequence of callback
invocations of `wlanframesync_execute` on `a` followed by `wlanframesync_execute` on `b`
(and has no result exactly where one of the two has none); on the empty buffer it leaves
the object unchanged and invokes no callback. -/
theorem execute_concat (env : dsp_env) (q : wlanframesync_s) (a b : List sample) :
    wlanframesync_execute env q (a ++ b) =
      (match wlanframesync_execute env q a with
      | none => none
      | some (q1, c1) =>
        match wlanframesync_execute env q1 b with
        | none => none
        | some (q2, c2) => some (q2, c1 ++ c2)) ∧
    wlanframesync_execute env q [] = some (q, []) :=
  ⟨execute_append_eq env q a b, rfl⟩

/-- C12, counterexample. From a created synchronizer, on 256 samples `1 + 0i` with services
whose unpacker rejects the SIGNAL field: the 256th sample is processed in RXSIGNAL and
resets the synchronizer, after which the buffer holds 80 zeros, while the last 80 samples
pushed are all `1 + 0i`. -/
theorem execute_buffer_cleared_by_reset :
    (sync_reject 255).state = wlanframesync_state.WLANFRAMESYNC_STATE_RXSIGNAL ∧
    (wlanframesync_execute env_reject sync_created (stream_ones 256)).map
        (fun r => r.1.state) = some wlanframesync_state.WLANFRAMESYNC_STATE_SEEKPLCP ∧
    (wlanframesync_execute env_reject sync_created (stream_ones 256)).map
        (fun r => r.1.input_buffer) = some (List.replicate 80 (0, 0)) ∧
    last_samples 80 (wlanframesync_execute_pushed env_reject sync_created (stream_ones 256)) =
      List.replicate 80 (1, 0) ∧
    (wlanframesync_execute env_reject sync_created (stream_ones 256)).map
        (fun r => r.1.input_buffer) ≠
      some (last_samples 80
        (wlanframesync_execute_pushed env_reject sync_created (stream_ones 256))) := by
  refine ⟨run_reject_256.1, run_reject_256.2.1, run_reject_256.2.2.1, run_reject_256.2.2.2, ?_⟩
  rw [run_reject_256.2.2.1, run_reject_256.2.2.2]
  decide!

/-- C12, amended. After `wlanframesync_execute` on any stream, from an object whose buffer
holds 80 samples, the buffer holds the last 80 entries of: the content it started from
followed by the samples pushed (raw in SEEK, down-mixed otherwise), started again from 80
zeros on every sample that takes the synchronizer back to SEEK. -/
theorem execute_buffer_since_reset (env : dsp_env) (q : wlanframesync_s) (xs : List sample)
    (hlen : q.input_buffer.length = 80) :
    (wlanframesync_execute env q xs).map (fun r => r.1.input_buffer) =
      (wlanframesync_execute env q xs).map
        (fun _ => last_samples 80 (pushed_since_reset env q q.input_buffer xs)) := by
  have h := execute_buffer_history env xs q q.input_buffer hlen (by omega)
    (by unfold last_samples; rw [hlen]; rfl)
  cases hr : wlanframesync_execute env q xs with
  | none => rfl
  | some r =>
    obtain ⟨q1, c1⟩ := r
    rw [hr] at h
    simp only [Option.map_some', Option.some.injEq]
    exact h

/-- Witness for C12: the run of the counterexample (256 samples, a reset on the last one). -/
theorem execute_buffer_since_reset_witness :
    sync_created.input_buffer.length = 80 ∧
    (wlanframesync_execute env_reject sync_created (stream_ones 256)).map
        (fun r => r.1.input_buffer) =
      (wlanframesync_execute env_reject sync_created (stream_ones 256)).map
        (fun _ => last_samples 80
          (pushed_since_reset env_reject sync_created sync_created.input_buffer
            (stream_ones 256))) :=
  ⟨by decide, execute_buffer_since_reset env_reject sync_created (stream_ones 256) (by decide)⟩

/-- C13. From entry into RXSIGNAL (timer 0, no symbol counted), for an unpacker that reports
valid only fields with a 12-bit length and a rate whose `ndbps` is in the table: the first 79
samples leave the state RXSIGNAL, and the 80th invokes no callback and ends with timer 0 and
`num_symbols` 0, in state SEEK when decoding reports `signal_valid = 0` and in state RXDATA
when it reports the field valid. -/
theorem rxsignal_eightieth_sample (env : dsp_env) (q : wlanframesync_s) (xs : List sample)
    (x : sample)
    (hs : q.state = wlanframesync_state.WLANFRAMESYNC_STATE_RXSIGNAL) (ht : q.timer = 0)
    (hn : q.num_symbols = 0) (hlen : xs.length = 79)
    (hu : ∀ d, (env.wlan_signal_unpack d).valid ≠ 0 →
      (env.wlan_signal_unpack d).length ≤ 4095 ∧
      std_ndbps (env.wlanframe_ratetab (env.wlan_signal_unpack d).rate).ndbps) :
    ∃ q79 q1, wlanframesync_execute env q xs = some (q79, []) ∧
      q79.state = wlanframesync_state.WLANFRAMESYNC_STATE_RXSIGNAL ∧
      wlanframesync_execute_sample env q79 x = some (q1, []) ∧
      wlanframesync_execute env q (xs ++ [x]) = some (q1, []) ∧
      q1.timer = 0 ∧ q1.num_symbols = 0 ∧
      q1.signal_valid = (decode_signal_unpacked env
        (rxsignal_sliced env (wlanframesync_execute_push env q79 x))).valid ∧
      (q1.signal_valid = 0 → q1.state = wlanframesync_state.WLANFRAMESYNC_STATE_SEEKPLCP) ∧
      (q1.signal_valid ≠ 0 → q1.state = wlanframesync_state.WLANFRAMESYNC_STATE_RXDATA) := by
  have hw := execute_wait env q xs (by rw [hlen, ht, hs]; decide)
  obtain ⟨w1, w2, w3, -⟩ := wait_samples_fields env q xs
  rw [hlen, ht] at w2
  obtain ⟨q1, r1, r2, r3, r4, r5⟩ := execute_sample_rxsignal_fire env _ x (w1.trans hs)
    (by rw [w2]; rfl) hu
  refine ⟨_, q1, hw, w1.trans hs, r1, ?_, r2, ?_, r3, fun h => (r4 h).1, fun h => (r5 h).1⟩
  · exact execute_append_some env q _ q1 _ _ [] [] hw (execute_single env _ q1 x [] r1)
  · by_cases hv : q1.signal_valid = 0
    · exact (r4 hv).2
    · rw [(r5 hv).2, w3, hn]

/-- Witness for C13: from the created synchronizer, 176 samples `1 + 0i` lead into RXSIGNAL;
the 80 samples that follow end with the rejecting unpacker and with the accepting one. -/
theorem rxsignal_eightieth_sample_witness :
    (∃ q79 q1, wlanframesync_execute env_reject (sync_reject 176) (stream_ones 79) =
        some (q79, []) ∧
      q79.state = wlanframesync_state.WLANFRAMESYNC_STATE_RXSIGNAL ∧
      wlanframesync_execute_sample env_reject q79 (1, 0) = some (q1, []) ∧
      wlanframesync_execute env_reject (sync_reject 176) (stream_ones 79 ++ [(1, 0)]) =
        some (q1, []) ∧
      q1.timer = 0 ∧ q1.num_symbols = 0 ∧
      q1.signal_valid = (decode_signal_unpacked env_reject
        (rxsignal_sliced env_reject (wlanframesync_execute_push env_reject q79 (1, 0)))).valid ∧
      (q1.signal_valid = 0 → q1.state = wlanframesync_state.WLANFRAMESYNC_STATE_SEEKPLCP) ∧
      (q1.signal_valid ≠ 0 → q1.state = wlanframesync_state.WLANFRAMESYNC_STATE_RXDATA)) ∧
    (∃ q79 q1, wlanframesync_execute env_accept (sync_accept 176) (stream_ones 79) =
        some (q79, []) ∧
      q79.state = wlanframesync_state.WLANFRAMESYNC_STATE_RXSIGNAL ∧
      wlanframesync_execute_sample env_accept q79 (1, 0) = some (q1, []) ∧
      wlanframesync_execute env_accept (sync_accept 176) (stream_ones 79 ++ [(1, 0)]) =
        some (q1, []) ∧
      q1.timer = 0 ∧ q1.num_symbols = 0 ∧
      q1.signal_valid = (decode_signal_unpacked env_accept
        (rxsignal_sliced env_accept (wlanframesync_execute_push env_accept q79 (1, 0)))).valid ∧
      (q1.signal_valid = 0 → q1.state = wlanframesync_state.WLANFRAMESYNC_STATE_SEEKPLCP) ∧
      (q1.signal_valid ≠ 0 → q1.state = wlanframesync_state.WLANFRAMESYNC_STATE_RXDATA)) :=
  ⟨rxsignal_eightieth_sample env_reject (sync_reject 176) (stream_ones 79) (1, 0)
      sync_reject_176.1 sync_reject_176.2.1 sync_reject_176.2.2 (stream_ones_length 79)
      (fun _ h => absurd rfl h),
    rxsignal_eightieth_sample env_accept (sync_accept 176) (stream_ones 79) (1, 0)
      sync_accept_176.1 sync_accept_176.2.1 sync_accept_176.2.2 (stream_ones_length 79)
      (fun _ _ => ⟨show (1 : Nat) ≤ 4095 by decide, show std_ndbps 24 by decide⟩)⟩

/-- The DATA field when the assertion of the C code holds. From the state right after a valid
SIGNAL field (RXDATA, timer 0, no symbol counted, `nsym ≥ 1`) with a callback set, and a
repacker that writes `bytes_per_symbol` bytes: on `80 · nsym` samples no callback is invoked
on any of the first `80 · nsym - 1`, exactly one is invoked on the last, its RX vector carries
the length and the rate of the object, and the synchronizer is then reset (SEEK, timer 0,
`num_symbols` 0). -/
theorem rxdata_callback_once (env : dsp_env) (q : wlanframesync_s) (xs : List sample)
    (hs : q.state = wlanframesync_state.WLANFRAMESYNC_STATE_RXDATA) (ht : q.timer = 0)
    (hn : q.num_symbols = 0) (h1 : 1 ≤ q.nsym) (h32 : q.nsym < 2 ^ 32)
    (hcb : q.callback = true)
    (hrep : ∀ syms, (env.liquid_wlan_repack_bytes syms q.nbpsc 48 8
      q.bytes_per_symbol).num_written = q.bytes_per_symbol)
    (hlen : xs.length = 80 * q.nsym) :
    (∀ n, n < 80 * q.nsym →
      ∃ qn, wlanframesync_execute env q (xs.take n) = some (qn, [])) ∧
    ∃ q1 c, wlanframesync_execute env q xs = some (q1, [c]) ∧
      c.rxvector.LENGTH = q.length ∧ c.rxvector.DATARATE = q.rate ∧
      q1.state = wlanframesync_state.WLANFRAMESYNC_STATE_SEEKPLCP ∧ q1.timer = 0 ∧
      q1.num_symbols = 0 := by
  obtain ⟨m, hm⟩ : ∃ m, q.nsym = m + 1 := ⟨q.nsym - 1, by omega⟩
  obtain ⟨⟨qp, hp⟩, hfin⟩ := execute_rxdata_symbols env m q xs hs ht hcb h32
    (by rw [hn, hm]; omega) hrep (by rw [hlen, hm])
  refine ⟨fun n hlt => ?_, hfin⟩
  obtain ⟨qn, hq⟩ := execute_initial_silent env q qp _ hp n
  refine ⟨qn, ?_⟩
  rw [List.take_take, Nat.min_eq_left (by rw [hm] at hlt; omega)] at hq
  exact hq

/-- An instance of `rxdata_callback_once`: the created synchronizer after 256 samples `1 + 0i` and an accepted SIGNAL
field of rate 6 Mbit/s and length 1 (2 symbols): 160 more samples invoke the callback once,
on the last one. -/
theorem rxdata_callback_once_witness :
    (sync_accept 256).nsym = 2 ∧ (sync_accept 256).length = 1 ∧
    (sync_accept 256).rate = WLANFRAME_RATE_6 ∧
    ((∀ n, n < 80 * (sync_accept 256).nsym →
      ∃ qn, wlanframesync_execute env_accept (sync_accept 256) ((stream_ones 160).take n) =
        some (qn, [])) ∧
    ∃ q1 c, wlanframesync_execute env_accept (sync_accept 256) (stream_ones 160) =
        some (q1, [c]) ∧
      c.rxvector.LENGTH = (sync_accept 256).length ∧
      c.rxvector.DATARATE = (sync_accept 256).rate ∧
      q1.state = wlanframesync_state.WLANFRAMESYNC_STATE_SEEKPLCP ∧ q1.timer = 0 ∧
      q1.num_symbols = 0) :=
  ⟨sync_accept_256.2.2.2.2.1, sync_accept_256.2.2.2.2.2.1, sync_accept_256.2.2.2.2.2.2,
    rxdata_callback_once env_accept (sync_accept 256) (stream_ones 160)
      sync_accept_256.1 sync_accept_256.2.1 sync_accept_256.2.2.1
      (by rw [sync_accept_256.2.2.2.2.1]; decide) (by rw [sync_accept_256.2.2.2.2.1]; decide)
      sync_accept_256.2.2.2.1
      (fun syms => env_accept_repack syms _ _) sync_accept_stream_length⟩

/-- C15, counterexample. From a created synchronizer on the stream `stream_s1_fail`: the S1
check made on sample 112 in RXLONG0 fails and the state after that sample is RXLONG0 with
timer 0, not SEEK; the check is made again on sample 128 and the state becomes RXLONG1; the
check made on sample 192 in RXLONG1 fails and the state after that sample is RXSIGNAL. -/
theorem s1_check_failed_not_seek :
    ((sync_s1_fail 111).state = wlanframesync_state.WLANFRAMESYNC_STATE_RXLONG0 ∧
      (sync_s1_fail 111).timer = 15 ∧
      rxlong_check env_reject (rxlong_statistic env_reject
        (wlanframesync_execute_push env_reject (sync_s1_fail 111) (0, 0))) = false ∧
      (sync_s1_fail 112).state = wlanframesync_state.WLANFRAMESYNC_STATE_RXLONG0 ∧
      (sync_s1_fail 112).timer = 0) ∧
    ((sync_s1_fail 128).state = wlanframesync_state.WLANFRAMESYNC_STATE_RXLONG1 ∧
      (sync_s1_fail 128).timer = 0) ∧
    ((sync_s1_fail 191).state = wlanframesync_state.WLANFRAMESYNC_STATE_RXLONG1 ∧
      (sync_s1_fail 191).timer = 63 ∧
      rxlong_check env_reject (rxlong_statistic env_reject
        (wlanframesync_execute_push env_reject (sync_s1_fail 191) (0, 0))) = false ∧
      (sync_s1_fail 192).state = wlanframesync_state.WLANFRAMESYNC_STATE_RXSIGNAL ∧
      (sync_s1_fail 192).timer = 0) :=
  ⟨sync_s1_fail_112, sync_s1_fail_128, sync_s1_fail_192⟩

/-- C16. From an object in state SEEK (as `wlanframesync_reset` leaves it), on every stream on
which no detection test finds `cabsf(s_hat)` above 0.4: after every number of samples the run
has a result with no callback invoked, the state is SEEK and the oscillator is the one of
the start, whatever its step routine does (it is never stepped). -/
theorem seek_stays_quiet (env : dsp_env) (q : wlanframesync_s) (xs : List sample)
    (hs : q.state = wlanframesync_state.WLANFRAMESYNC_STATE_SEEKPLCP)
    (hq : seek_never_detects env q xs = true) :
    ∀ n, ∃ qn, wlanframesync_execute env q (xs.take n) = some (qn, []) ∧
      qn.state = wlanframesync_state.WLANFRAMESYNC_STATE_SEEKPLCP ∧ qn.nco_rx = q.nco_rx :=
  fun n => execute_seek_quiet env q (xs.take n) hs (seek_never_detects_take env q xs n hq)

/-- Witness for C16: the all-zero stream of 300 samples, fed to the created synchronizer and
to the synchronizer reset after a rejected SIGNAL field; the services map zeros to zeros, so
no test detects (`seek_never_detects_zeros`, for every length). -/
theorem seek_stays_quiet_witness :
    (∀ n, ∃ qn, wlanframesync_execute env_accept sync_created ((stream_zeros 300).take n) =
        some (qn, []) ∧
      qn.state = wlanframesync_state.WLANFRAMESYNC_STATE_SEEKPLCP ∧
      qn.nco_rx = sync_created.nco_rx) ∧
    (∀ n, ∃ qn, wlanframesync_execute env_reject (sync_reject 256)
        ((stream_zeros 300).take n) = some (qn, []) ∧
      qn.state = wlanframesync_state.WLANFRAMESYNC_STATE_SEEKPLCP ∧
      qn.nco_rx = (sync_reject 256).nco_rx) :=
  ⟨seek_stays_quiet env_accept sync_created (stream_zeros 300) env_accept_zero.2.2.1
      (seek_never_detects_zeros env_accept env_accept_zero.1 env_accept_zero.2.1 300
        sync_created env_accept_zero.2.2.1 env_accept_zero.2.2.2),
    seek_stays_quiet env_reject (sync_reject 256) (stream_zeros 300) sync_reject_256.1
      (seek_never_detects_zeros env_reject env_reject_zero.1 env_reject_zero.2 300
        (sync_reject 256) sync_reject_256.1 sync_reject_256.2)⟩

/-- C17 (what the code does). For every SIGNAL structure, the field written by
`wlan_signal_pack` passes the parity test of `wlan_signal_unpack` exactly when bit 11 of
the length is 0, and draws the `parity mismatch` warning exactly when it is 1; for rate 6
Mbit/s, `R = 0` and length 2048 the packed field is `d0 00 80` and the only thing
`wlan_signal_unpack` reports on it is the parity mismatch. -/
theorem signal_pack_fails_unpack_parity (s : wlan_signal_s) :
    (unpack_parity_ok (wlan_signal_pack s) ↔ (s.length >>> 11) % 2 = 0) ∧
    (unpack_warning.parity_mismatch ∈ (wlan_signal_unpack (wlan_signal_pack s)).warnings ↔
      (s.length >>> 11) % 2 = 1) ∧
    valid_rate WLAN_SIGNAL_RATE_6 ∧
    wlan_signal_pack ⟨WLAN_SIGNAL_RATE_6, 0, 2048⟩ = ⟨0xd0, 0x00, 0x80⟩ ∧
    ¬ unpack_parity_ok (wlan_signal_pack ⟨WLAN_SIGNAL_RATE_6, 0, 2048⟩) ∧
    (wlan_signal_unpack (wlan_signal_pack ⟨WLAN_SIGNAL_RATE_6, 0, 2048⟩)).warnings =
      [unpack_warning.parity_mismatch] := by
  have h := unpack_parity_pack s
  refine ⟨h, ?_, by decide, by decide!, by decide!, by decide!⟩
  rw [unpack_warning_iff, h]
  have := bit_lt s.length 11
  omega

/-- C18 (what the code does). For every 3-byte field, `wlan_signal_unpack` prints the
`parity mismatch` warning exactly when bit 17 differs from the sum modulo 2 of bits 0-15 and
of the tail bits 18-23: bit 16, the most significant bit of the length, takes no part in the
check and the six tail bits do. -/
theorem signal_unpack_parity_bits (s : signal_bytes) (h0 : s.b0 < 256) (h1 : s.b1 < 256)
    (h2 : s.b2 < 256) :
    unpack_warning.parity_mismatch ∈ (wlan_signal_unpack s).warnings ↔
      signal_bit s 17 ≠ (Finset.sum (Finset.range 16) (signal_bit s) +
        Finset.sum (Finset.range 6) (fun i => signal_bit s (18 + i))) % 2 := by
  rw [unpack_warning_iff, unpack_parity_bits s h0 h1 h2]

/-- Witness for C18: the field `d0 00 80` (the packed field of rate 6 Mbit/s, length 2048) has
bit 17 equal to the parity of bits 0-16 and draws the warning; the field `d0 00 01` has bit
17 different from the parity of bits 0-16, one tail bit set, and draws no warning. -/
theorem signal_unpack_parity_bits_witness :
    signal_parity_ok ⟨0xd0, 0x00, 0x80⟩ ∧
    (unpack_warning.parity_mismatch ∈ (wlan_signal_unpack ⟨0xd0, 0x00, 0x80⟩).warnings ↔
      signal_bit ⟨0xd0, 0x00, 0x80⟩ 17 ≠
        (Finset.sum (Finset.range 16) (signal_bit ⟨0xd0, 0x00, 0x80⟩) +
          Finset.sum (Finset.range 6) (fun i => signal_bit ⟨0xd0, 0x00, 0x80⟩ (18 + i))) % 2) ∧
    unpack_warning.parity_mismatch ∈ (wlan_signal_unpack ⟨0xd0, 0x00, 0x80⟩).warnings ∧
    ¬ signal_parity_ok ⟨0xd0, 0x00, 0x01⟩ ∧
    (wlan_signal_unpack ⟨0xd0, 0x00, 0x01⟩).warnings = [] :=
  ⟨by decide!, signal_unpack_parity_bits ⟨0xd0, 0x00, 0x80⟩ (by decide) (by decide) (by decide),
    by decide!, by decide!, by decide!⟩

/-- C19. From entry into RXLONG1 (timer 0), for every set of services and every 64 samples:
after each of the first 63 samples the state is still RXLONG1, and after the 64th the state is
RXSIGNAL with timer 0, whatever the outcome of the S1 check. -/
theorem rxlong1_advances_after_64 (env : dsp_env) (q : wlanframesync_s) (xs : List sample)
    (hs : q.state = wlanframesync_state.WLANFRAMESYNC_STATE_RXLONG1) (ht : q.timer = 0)
    (hlen : xs.length = 64) :
    (∀ n, n < 64 → ∃ qn, wlanframesync_execute env q (xs.take n) = some (qn, []) ∧
      qn.state = wlanframesync_state.WLANFRAMESYNC_STATE_RXLONG1) ∧
    ∃ q1, wlanframesync_execute env q xs = some (q1, []) ∧
      q1.state = wlanframesync_state.WLANFRAMESYNC_STATE_RXSIGNAL ∧ q1.timer = 0 := by
  have hwait : ∀ n, n < 64 →
      wlanframesync_execute env q (xs.take n) = some (wait_samples env q (xs.take n), []) ∧
      (wait_samples env q (xs.take n)).state = wlanframesync_state.WLANFRAMESYNC_STATE_RXLONG1 ∧
      (wait_samples env q (xs.take n)).timer = n := by
    intro n hn
    have hl : (xs.take n).length = n := by rw [List.length_take, hlen]; omega
    have hw := execute_wait env q (xs.take n) (by
      rw [hl, ht, hs]
      simp only [state_period]
      omega)
    obtain ⟨w1, w2, -⟩ := wait_samples_fields env q (xs.take n)
    rw [hl, ht] at w2
    exact ⟨hw, w1.trans hs, by rw [w2]; simp⟩
  refine ⟨fun n hn => ⟨_, (hwait n hn).1, (hwait n hn).2.1⟩, ?_⟩
  obtain ⟨x, hx⟩ := list_split_last xs 63 hlen
  obtain ⟨hw, w1, w2⟩ := hwait 63 (by omega)
  obtain ⟨q1, r1, r2, r3⟩ := execute_sample_rxlong1_fire env _ x w1 (by rw [w2]; rfl)
  refine ⟨q1, ?_, r2, r3⟩
  rw [hx]
  exact execute_append_some env q _ q1 _ _ [] [] hw (execute_single env _ q1 x [] r1)

/-- Witness for C19: the created synchronizer after 112 samples `1 + 0i` is in RXLONG1 and
the check made 64 samples later passes; after the first 128 samples of `stream_s1_fail` it
is in RXLONG1 and the check made 64 samples later fails; both runs end in RXSIGNAL. -/
theorem rxlong1_advances_after_64_witness :
    rxlong_check env_reject (rxlong_statistic env_reject
      (wlanframesync_execute_push env_reject (sync_reject 175) (1, 0))) = true ∧
    rxlong_check env_reject (rxlong_statistic env_reject
      (wlanframesync_execute_push env_reject (sync_s1_fail 191) (0, 0))) = false ∧
    ((∀ n, n < 64 → ∃ qn, wlanframesync_execute env_reject (sync_reject 112)
        ((stream_ones 64).take n) = some (qn, []) ∧
      qn.state = wlanframesync_state.WLANFRAMESYNC_STATE_RXLONG1) ∧
    ∃ q1, wlanframesync_execute env_reject (sync_reject 112) (stream_ones 64) = some (q1, []) ∧
      q1.state = wlanframesync_state.WLANFRAMESYNC_STATE_RXSIGNAL ∧ q1.timer = 0) ∧
    ((∀ n, n < 64 → ∃ qn, wlanframesync_execute env_reject (sync_s1_fail 128)
        ((stream_zeros 64).take n) = some (qn, []) ∧
      qn.state = wlanframesync_state.WLANFRAMESYNC_STATE_RXLONG1) ∧
    ∃ q1, wlanframesync_execute env_reject (sync_s1_fail 128) (stream_zeros 64) =
        some (q1, []) ∧
      q1.state = wlanframesync_state.WLANFRAMESYNC_STATE_RXSIGNAL ∧ q1.timer = 0) :=
  ⟨sync_reject_175, sync_s1_fail_192.2.2.1,
    rxlong1_advances_after_64 env_reject (sync_reject 112) (stream_ones 64)
      sync_reject_112.1 sync_reject_112.2 (stream_ones_length 64),
    rxlong1_advances_after_64 env_reject (sync_s1_fail 128) (stream_zeros 64)
      sync_s1_fail_128.1 sync_s1_fail_128.2 (stream_zeros_length 64)⟩

/-- C20 (the code at the failing input). In `wlanframesync_rxsymbol` with one symbol counted,
stored phase `phi_prime = 0` and pilot intercept `p_phase[0] = 4` (a difference inside
`(-2·pi, 2·pi)`): the phase error is `4 - M_2_PI`, with `M_2_PI = 2/pi` as in `math.h`, and
the oscillator frequency is adjusted by `1e-3` times it; this value is above `pi` and differs
from the raw difference by no integer multiple of `2·pi`. -/
theorem rxsymbol_dphi_not_unwrapped :
    sync_second_symbol.num_symbols = 1 ∧ sync_second_symbol.phi_prime = 0 ∧
    (wlanframesync_rxsymbol (env_flat 1 ⟨0, 0, 0⟩ [4, 0]) sync_second_symbol []).phi_prime = 4 ∧
    (wlanframesync_rxsymbol (env_flat 1 ⟨0, 0, 0⟩ [4, 0]) sync_second_symbol []).nco_rx.d_theta =
      sync_second_symbol.nco_rx.d_theta + 1e-3 * rxsymbol_dphi_prime 4 0 ∧
    rxsymbol_dphi_prime 4 0 = 4 - M_2_PI ∧
    |(4 : ℝ) - 0| < 2 * Real.pi ∧
    Real.pi < ((rxsymbol_dphi_prime 4 0 : ℚ) : ℝ) ∧
    ¬ ∃ k : ℤ, (4 : ℝ) - 0 - ((rxsymbol_dphi_prime 4 0 : ℚ) : ℝ) = k * (2 * Real.pi) := by
  have hv : rxsymbol_dphi_prime 4 0 = 4 - M_2_PI := by decide!
  have h3 := Real.pi_gt_three
  have h315 := Real.pi_lt_d2
  refine ⟨by decide!, by decide!, by decide!, by decide!, hv, ?_, ?_, ?_⟩
  · rw [sub_zero, abs_of_pos (by norm_num)]
    linarith
  · rw [hv]
    unfold M_2_PI
    push_cast
    norm_num
    linarith
  · rintro ⟨k, hk⟩
    rw [hv] at hk
    unfold M_2_PI at hk
    push_cast at hk
    norm_num at hk
    rcases le_or_lt k 0 with h | h
    · have hk0 : (k : ℝ) ≤ 0 := by exact_mod_cast h
      nlinarith
    · have hk1 : (1 : ℝ) ≤ (k : ℝ) := by exact_mod_cast h
      nlinarith

/-! ## Lemmas on the subcarrier loops -/

/-- The turns of the RXDATA loop store the images under `demod` of what they store for the
identity. -/
theorem rxdata_demod_turns (demod : Nat → Nat) (l : List Nat) :
    ∀ acc : Option (List Nat × Nat),
      l.foldl (rxdata_demod_turn demod) (acc.map (fun p => (p.1.map demod, p.2))) =
        (l.foldl (rxdata_demod_turn (fun k => k)) acc).map (fun p => (p.1.map demod, p.2)) := by
  induction l with
  | nil => intro acc; rfl
  | cons i l ih =>
    intro acc
    rw [List.foldl_cons, List.foldl_cons, ← ih]
    congr 1
    cases acc with
    | none => rfl
    | some p =>
      obtain ⟨syms, n⟩ := p
      simp only [rxdata_demod_turn, Option.map_some']
      split_ifs <;> simp

/-- With the identity for `demod` the RXDATA loop passes its assertions and stores the DATA
subcarriers. -/
theorem rxdata_demod_loop_id :
    (List.range 64).foldl (rxdata_demod_turn (fun k => k)) (some ([], 0)) =
      some (data_subcarriers, 48) := by
  decide!

/-- The turns of the equalizer loop store the images under `entry` of what they store for
the identity. -/
theorem eqgain_store_turns {α : Type} (entry : Nat → α) (l : List Nat) :
    ∀ acc : Option (List Nat × Nat),
      l.foldl (eqgain_store_turn entry) (acc.map (fun p => (p.1.map entry, p.2))) =
        (l.foldl (eqgain_store_turn (fun k => k)) acc).map (fun p => (p.1.map entry, p.2)) := by
  induction l with
  | nil => intro acc; rfl
  | cons i l ih =>
    intro acc
    rw [List.foldl_cons, List.foldl_cons, ← ih]
    congr 1
    cases acc with
    | none => rfl
    | some p =>
      obtain ⟨es, n⟩ := p
      simp only [eqgain_store_turn, Option.map_some']
      split_ifs <;> simp

theorem eqgain_store_loop_id :
    (List.range 64).foldl (eqgain_store_turn (fun k => k)) (some ([], 0)) =
      some (eq_subcarriers, 52) := by
  decide!

theorem rxdata_demod_loop_eq (demod : Nat → Nat) :
    rxdata_demod_loop demod = some (data_subcarriers.map demod) := by
  have h := rxdata_demod_turns demod (List.range 64) (some ([], 0))
  rw [rxdata_demod_loop_id] at h
  simp only [Option.map_some', List.map_nil] at h
  unfold rxdata_demod_loop
  rw [h]
  rfl

theorem eqgain_store_loop_eq {α : Type} (entry : Nat → α) :
    eqgain_store_loop entry = some (eq_subcarriers.map entry) := by
  have h := eqgain_store_turns entry (List.range 64) (some ([], 0))
  rw [eqgain_store_loop_id] at h
  simp only [Option.map_some', List.map_nil] at h
  unfold eqgain_store_loop
  rw [h]
  rfl

/-! ## Lemmas on the message lengths -/

theorem div_of_bounds (m n k : Nat) (lo : k * n ≤ m) (hi : m < (k + 1) * n) : m / n = k :=
  Nat.div_eq_of_lt_le lo hi

/-- The lengths that `wlanframesync_decode_signal` computes, for a 12-bit length and a row of
the rate table: for the rows other than `(36, 48)`, and for that row with an even symbol
count, no division truncates and `bytes_per_symbol` is `ncbps / 8`; for the row `(36, 48)`
with an odd symbol count `ndata` is 4 above a multiple of 8, `enc_msg_len` is `6·nsym - 1` and
`bytes_per_symbol` is 5. -/
theorem frame_lengths (L n c s d dl el b : Nat) (hL1 : 1 ≤ L) (hL2 : L ≤ 4095)
    (hrow : std_row n c) (hs : s = (16 + 8 * L + 6 + n - 1) / n) (hd : d = s * n)
    (hdl : dl = d / 8) (hel : el = (dl * c % 2 ^ 32) / n) (hb : b = el / s) :
    1 ≤ s ∧ L + 3 ≤ dl ∧
    (¬ (n = 36 ∧ s % 2 = 1) → 8 * dl = d ∧ el = s * (c / 8) ∧ b = c / 8) ∧
    (n = 36 ∧ s % 2 = 1 → 8 * dl + 4 = d ∧ el + 1 = 6 * s ∧ b = 5) := by
  have hb0 : c ≤ 288 ∧ n ≤ 216 := by unfold std_row at hrow; omega
  have h1 : s ≤ 33000 := by
    rw [hs]; exact le_trans (Nat.div_le_self _ _) (by omega)
  have h2 : d ≤ 33000 * 216 := by rw [hd]; exact Nat.mul_le_mul h1 hb0.2
  have h3 : dl ≤ 33000 * 216 := by rw [hdl]; exact le_trans (Nat.div_le_self _ _) h2
  have h4 : dl * c ≤ 33000 * 216 * 288 := Nat.mul_le_mul h3 hb0.1
  rw [Nat.mod_eq_of_lt (lt_of_le_of_lt h4 (by norm_num))] at hel
  clear h1 h2 h3 h4 hb0
  unfold std_row at hrow
  rcases hrow with ⟨h, h'⟩ | ⟨h, h'⟩ | ⟨h, h'⟩ | ⟨h, h'⟩ | ⟨h, h'⟩ | ⟨h, h'⟩ | ⟨h, h'⟩ | ⟨h, h'⟩ <;>
    subst h h'
  case inr.inl =>
    have hs1 : 1 ≤ s := by omega
    have hs2 : s ≤ 1000 := by omega
    refine ⟨hs1, by omega, ?_, ?_⟩
    · intro hne
      have hev : s % 2 = 0 := by omega
      have e1 : el = 6 * s := by omega
      refine ⟨by omega, by omega, ?_⟩
      rw [hb, e1]
      exact Nat.mul_div_cancel 6 (by omega)
    · intro ⟨_, hodd⟩
      have e1 : el + 1 = 6 * s := by omega
      refine ⟨by omega, e1, ?_⟩
      rw [hb]
      exact div_of_bounds el s 5 (by omega) (by omega)
  all_goals
    have hs1 : 1 ≤ s := by omega
    have hs2 : s ≤ 2000 := by omega
    refine ⟨hs1, by omega, ?_, ?_⟩
    · intro _
      simp only [Nat.reduceDiv]
      refine ⟨by omega, by omega, ?_⟩
      rw [hb]
      exact div_of_bounds el s _ (by omega) (by omega)
    · intro ⟨h36, _⟩
      omega

/-- The lengths of `frame_lengths`, on the object that `wlanframesync_decode_signal` returns
for a valid SIGNAL field with length in [1,4095] and a row of the rate table. -/
theorem decode_signal_lengths (u : signal_unpacked) (ratetab : Nat → wlanframe_param_s)
    (q : wlanframesync_s) (hv : u.valid ≠ 0) (hL1 : 1 ≤ u.length) (hL2 : u.length ≤ 4095)
    (hrow : std_row (ratetab u.rate).ndbps (ratetab u.rate).ncbps) :
    ∃ q', wlanframesync_decode_signal u ratetab q = some q' ∧
      q'.ndbps = (ratetab u.rate).ndbps ∧ q'.ncbps = (ratetab u.rate).ncbps ∧
      q'.nbpsc = (ratetab u.rate).nbpsc ∧
      1 ≤ q'.nsym ∧ u.length + 3 ≤ q'.dec_msg_len ∧
      (¬ (q'.ndbps = 36 ∧ q'.nsym % 2 = 1) →
        8 * q'.dec_msg_len = q'.ndata ∧ q'.enc_msg_len = q'.nsym * (q'.ncbps / 8) ∧
        q'.bytes_per_symbol = q'.ncbps / 8) ∧
      (q'.ndbps = 36 ∧ q'.nsym % 2 = 1 →
        8 * q'.dec_msg_len + 4 = q'.ndata ∧ q'.enc_msg_len + 1 = 6 * q'.nsym ∧
        q'.bytes_per_symbol = 5) := by
  have hn : std_ndbps (ratetab u.rate).ndbps := by
    unfold std_row at hrow; unfold std_ndbps; omega
  obtain ⟨q', hq, -, -, hnd, hnc, hnb, hsym, hdata, -, hdec, henc, hbps⟩ :=
    decode_signal_some u ratetab q hv hL2 hn
  rw [← hnd, ← hnc] at hrow
  exact ⟨q', hq, hnd, hnc, hnb,
    frame_lengths u.length q'.ndbps q'.ncbps q'.nsym q'.ndata q'.dec_msg_len q'.enc_msg_len
      q'.bytes_per_symbol hL1 hL2 hrow hsym hdata hdec henc hbps⟩

/-- The row `(ndbps, ncbps)` of a row `(ndbps, ncbps, nbpsc)`, and its `nbpsc`. -/
theorem std_row_of_nbpsc {n c b : Nat} (h : std_row_nbpsc n c b) :
    std_row n c ∧ c / 8 = 6 * b ∧ (n = 36 → b = 1) := by
  unfold std_row_nbpsc at h
  rcases h with ⟨h1, h2, h3⟩ | ⟨h1, h2, h3⟩ | ⟨h1, h2, h3⟩ | ⟨h1, h2, h3⟩ | ⟨h1, h2, h3⟩ |
    ⟨h1, h2, h3⟩ | ⟨h1, h2, h3⟩ | ⟨h1, h2, h3⟩ <;> subst h1 h2 h3 <;>
    exact ⟨by decide, by decide, by decide⟩

/-- A row `(ndbps, ncbps)` for a value of `ndbps` of the table. -/
theorem std_row_of_ndbps {n : Nat} (h : std_ndbps n) : ∃ c, std_row n c := by
  unfold std_ndbps at h
  unfold std_row
  rcases h with h | h | h | h | h | h | h | h <;> subst h
  · exact ⟨48, by omega⟩
  · exact ⟨48, by omega⟩
  · exact ⟨96, by omega⟩
  · exact ⟨96, by omega⟩
  · exact ⟨192, by omega⟩
  · exact ⟨192, by omega⟩
  · exact ⟨288, by omega⟩
  · exact ⟨288, by omega⟩

/-! ## Lemmas on the slicing of the SIGNAL symbol -/

theorem slice_bit_lt (X : List sample) (k : Nat) : slice_bit X k < 2 := by
  unfold slice_bit; split <;> omega

theorem slice_mask (X : List sample) (k m : Nat) :
    (if crealf (X.getD k 0) > 0 then m else 0x00) = m * slice_bit X k := by
  unfold slice_bit; split <;> simp

/-- The byte that `wlanframesync_execute_rxsignal` builds from 8 subcarriers holds their hard
decisions, most significant bit first. -/
theorem signal_int_byte_bits (X : List sample) (k0 k1 k2 k3 k4 k5 k6 k7 : Nat) :
    byte_bits (signal_int_byte X [k0, k1, k2, k3, k4, k5, k6, k7]) =
      [slice_bit X k0, slice_bit X k1, slice_bit X k2, slice_bit X k3, slice_bit X k4,
        slice_bit X k5, slice_bit X k6, slice_bit X k7] := by
  have hf : signal_int_byte X [k0, k1, k2, k3, k4, k5, k6, k7] =
      pack_form1 (slice_bit X k0) (slice_bit X k1) (slice_bit X k2) (slice_bit X k3)
        (slice_bit X k4) (slice_bit X k5) (slice_bit X k6) (slice_bit X k7) := by
    simp only [signal_int_byte, List.zip_cons_cons, List.zip_nil_right, List.foldl_cons,
      List.foldl_nil, slice_mask, pack_form1]
  have hc := (form1_bits _ (slice_bit_lt X k0) _ (slice_bit_lt X k1) _ (slice_bit_lt X k2)
      _ (slice_bit_lt X k3) _ (slice_bit_lt X k4) _ (slice_bit_lt X k5)
      _ (slice_bit_lt X k6) _ (slice_bit_lt X k7)).2
  obtain ⟨c7, c6, c5, c4, c3, c2, c1, c0⟩ := hc
  rw [hf]
  have hr : List.range 8 = [0, 1, 2, 3, 4, 5, 6, 7] := by decide
  simp only [byte_bits, hr, List.map_cons, List.map_nil, Nat.reduceSub,
    c7, c6, c5, c4, c3, c2, c1, c0]

theorem data_subcarriers_eq :
    data_subcarriers =
      [38, 39, 40, 41, 42, 44, 45, 46, 47, 48, 49, 50, 51, 52, 53, 54, 55, 56, 58, 59, 60, 61,
        62, 63, 1, 2, 3, 4, 5, 6, 8, 9, 10, 11, 12, 13, 14, 15, 16, 17, 18, 19, 20, 22, 23, 24,
        25, 26] := by
  decide

/-! ## Lemmas on the bounds of the timer and of the symbol counter -/

/-- For `dt` in `[-8, 8]` the C remainder `(16 + dt) % 16` is the residue modulo 16. -/
theorem tmod_offset (dt : Int) (h1 : -8 ≤ dt) (h2 : dt ≤ 8) :
    Int.tmod (16 + dt) 16 = (16 + dt) % 16 ∧ 0 ≤ Int.tmod (16 + dt) 16 ∧
      Int.tmod (16 + dt) 16 < 16 := by
  have e : Int.tmod (16 + dt) 16 = (16 + dt) % 16 := by
    rw [Int.tmod_eq_emod] <;> omega
  rw [e]
  omega

theorem push_nsym (env : dsp_env) (q : wlanframesync_s) (x : sample) :
    (wlanframesync_execute_push env q x).nsym = q.nsym := by
  unfold wlanframesync_execute_push; split <;> rfl

theorem push_invariant (env : dsp_env) (q : wlanframesync_s) (x : sample)
    (h : sync_invariant_range q) : sync_invariant_range (wlanframesync_execute_push env q x) := by
  unfold sync_invariant_range sync_invariant at *
  rw [push_state, push_timer, push_num_symbols, push_nsym]
  exact h

theorem reset_invariant (q : wlanframesync_s) : sync_invariant_range (wlanframesync_reset q) := by
  unfold sync_invariant_range sync_invariant wlanframesync_reset
  simp [state_period]

/-- A SIGNAL field decoded as valid gives a number of symbols in `[1, 2^32)`. -/
theorem decode_signal_nsym (u : signal_unpacked) (ratetab : Nat → wlanframe_param_s)
    (q q1 : wlanframesync_s) (h : wlanframesync_decode_signal u ratetab q = some q1)
    (hv : q1.signal_valid ≠ 0) : 0 < q1.nsym ∧ q1.nsym < 2 ^ 32 := by
  have hu : ¬ u.valid = 0 := by
    rw [← (decode_signal_preserves u ratetab q q1 h).2.2.2.2.1]; exact hv
  unfold wlanframesync_decode_signal at h
  simp only [if_neg hu] at h
  split_ifs at h
  all_goals
    injection h with h; subst h
    refine ⟨Nat.pos_of_ne_zero ?_, ?_⟩
    · assumption
    · show to_uint _ < 2 ^ 32
      unfold to_uint
      omega

theorem seekplcp_invariant (env : dsp_env) (hdt : dt_in_range env) (q : wlanframesync_s)
    (hs : q.state = wlanframesync_state.WLANFRAMESYNC_STATE_SEEKPLCP)
    (h : sync_invariant_range q) :
    sync_invariant_range (wlanframesync_execute_seekplcp env q) := by
  obtain ⟨⟨h0, -, h2, -⟩, -⟩ := h
  have hn : q.num_symbols = 0 := h2 (by rw [hs]; decide)
  have hd := hdt (seekplcp_s_hat env q)
  obtain ⟨-, t0, t1⟩ := tmod_offset _ hd.1 hd.2
  unfold seekplcp_s_hat at t0 t1
  unfold wlanframesync_execute_seekplcp sync_invariant_range sync_invariant
  simp only
  split_ifs
  · simp only [hs, state_period]
    refine ⟨⟨?_, ?_, ?_, ?_⟩, ?_⟩ <;>
      first | omega | assumption | decide | exact fun _ => hn | (intro c; cases c)
  · simp only [state_period]
    refine ⟨⟨?_, ?_, ?_, ?_⟩, ?_⟩ <;>
      first | omega | assumption | decide | exact fun _ => hn | (intro c; cases c)
  · simp only [hs, state_period]
    refine ⟨⟨?_, ?_, ?_, ?_⟩, ?_⟩ <;>
      first | omega | assumption | decide | exact fun _ => hn | (intro c; cases c)

theorem rxshort0_invariant (env : dsp_env) (q : wlanframesync_s)
    (hs : q.state = wlanframesync_state.WLANFRAMESYNC_STATE_RXSHORT0)
    (h : sync_invariant_range q) :
    sync_invariant_range (wlanframesync_execute_rxshort0 env q) := by
  obtain ⟨⟨h0, -, h2, -⟩, -⟩ := h
  have hn : q.num_symbols = 0 := h2 (by rw [hs]; decide)
  unfold wlanframesync_execute_rxshort0 sync_invariant_range sync_invariant
  simp only
  split_ifs
  · simp only [hs, state_period]
    refine ⟨⟨?_, ?_, ?_, ?_⟩, ?_⟩ <;>
      first | omega | assumption | decide | exact fun _ => hn | (intro c; cases c)
  · simp only [state_period]
    refine ⟨⟨?_, ?_, ?_, ?_⟩, ?_⟩ <;>
      first | omega | assumption | decide | exact fun _ => hn | (intro c; cases c)

theorem rxshort1_invariant (env : dsp_env) (q : wlanframesync_s)
    (hs : q.state = wlanframesync_state.WLANFRAMESYNC_STATE_RXSHORT1)
    (h : sync_invariant_range q) :
    sync_invariant_range (wlanframesync_execute_rxshort1 env q) := by
  obtain ⟨⟨h0, -, h2, -⟩, -⟩ := h
  have hn : q.num_symbols = 0 := h2 (by rw [hs]; decide)
  unfold wlanframesync_execute_rxshort1 sync_invariant_range sync_invariant
  simp only
  split_ifs
  · simp only [hs, state_period]
    refine ⟨⟨?_, ?_, ?_, ?_⟩, ?_⟩ <;>
      first | omega | assumption | decide | exact fun _ => hn | (intro c; cases c)
  · simp only [state_period]
    refine ⟨⟨?_, ?_, ?_, ?_⟩, ?_⟩ <;>
      first | omega | assumption | decide | exact fun _ => hn | (intro c; cases c)

theorem rxlong0_invariant (env : dsp_env) (q : wlanframesync_s)
    (hs : q.state = wlanframesync_state.WLANFRAMESYNC_STATE_RXLONG0)
    (h : sync_invariant_range q) :
    sync_invariant_range (wlanframesync_execute_rxlong0 env q) := by
  obtain ⟨⟨h0, -, h2, -⟩, -⟩ := h
  have hn : q.num_symbols = 0 := h2 (by rw [hs]; decide)
  unfold wlanframesync_execute_rxlong0 sync_invariant_range sync_invariant
  simp only
  split_ifs
  · simp only [hs, state_period]
    refine ⟨⟨?_, ?_, ?_, ?_⟩, ?_⟩ <;>
      first | omega | assumption | decide | exact fun _ => hn | (intro c; cases c)
  · simp only [state_period]
    refine ⟨⟨?_, ?_, ?_, ?_⟩, ?_⟩ <;>
      first | omega | assumption | decide | exact fun _ => hn | (intro c; cases c)
  · simp only [hs, state_period]
    refine ⟨⟨?_, ?_, ?_, ?_⟩, ?_⟩ <;>
      first | omega | assumption | decide | exact fun _ => hn | (intro c; cases c)

theorem rxlong1_invariant (env : dsp_env) (q : wlanframesync_s)
    (hs : q.state = wlanframesync_state.WLANFRAMESYNC_STATE_RXLONG1)
    (h : sync_invariant_range q) :
    sync_invariant_range (wlanframesync_execute_rxlong1 env q) := by
  obtain ⟨⟨h0, -, h2, -⟩, -⟩ := h
  have hn : q.num_symbols = 0 := h2 (by rw [hs]; decide)
  unfold wlanframesync_execute_rxlong1 sync_invariant_range sync_invariant
  simp only
  split_ifs
  · simp only [hs, state_period]
    refine ⟨⟨?_, ?_, ?_, ?_⟩, ?_⟩ <;>
      first | omega | assumption | decide | exact fun _ => hn | (intro c; cases c)
  · simp only [state_period]
    refine ⟨⟨?_, ?_, ?_, ?_⟩, ?_⟩ <;>
      first | omega | assumption | decide | exact fun _ => hn | (intro c; cases c)
  · simp only [state_period]
    refine ⟨⟨?_, ?_, ?_, ?_⟩, ?_⟩ <;>
      first | omega | assumption | decide | exact fun _ => hn | (intro c; cases c)

theorem rxsignal_invariant (env : dsp_env) (q q1 : wlanframesync_s)
    (hs : q.state = wlanframesync_state.WLANFRAMESYNC_STATE_RXSIGNAL)
    (h : sync_invariant_range q) (hr : wlanframesync_execute_rxsignal env q = some q1) :
    sync_invariant_range q1 := by
  obtain ⟨⟨h0, -, h2, -⟩, -⟩ := h
  have hn : q.num_symbols = 0 := h2 (by rw [hs]; decide)
  unfold wlanframesync_execute_rxsignal at hr
  simp only at hr
  split_ifs at hr with a
  · injection hr with hr; subst hr
    unfold sync_invariant_range sync_invariant
    simp only [hs, state_period]
    refine ⟨⟨?_, ?_, ?_, ?_⟩, ?_⟩ <;>
      first | omega | assumption | decide | exact fun _ => hn | (intro c; cases c)
  · cases hd : wlanframesync_decode_signal_env env (rxsignal_sliced env q) with
    | none => rw [hd] at hr; simp at hr
    | some q2 =>
      rw [hd] at hr
      simp only at hr
      unfold wlanframesync_decode_signal_env at hd
      have hp := decode_signal_preserves _ _ _ _ hd
      have ht : q2.timer = 0 := hp.2.1
      have hm : q2.num_symbols = q.num_symbols := hp.2.2.1
      split_ifs at hr with b
      · injection hr with hr; subst hr
        exact reset_invariant q2
      · injection hr with hr; subst hr
        have hv := decode_signal_nsym _ _ _ _ hd b
        unfold sync_invariant_range sync_invariant
        simp only [state_period]
        refine ⟨⟨?_, ?_, fun c => absurd rfl c, fun _ => ?_⟩, fun _ => hv.2⟩
        · rw [ht]
        · rw [ht]; decide
        · rw [hm, hn]; exact hv.1

theorem rxdata_invariant (env : dsp_env) (q : wlanframesync_s)
    (r : wlanframesync_s × List callback_call)
    (hs : q.state = wlanframesync_state.WLANFRAMESYNC_STATE_RXDATA)
    (h : sync_invariant_range q) (hr : wlanframesync_execute_rxdata env q = some r) :
    sync_invariant_range r.1 := by
  obtain ⟨⟨h0, -, -, h3⟩, h4⟩ := h
  have hn := h3 hs
  have hm := h4 hs
  unfold wlanframesync_execute_rxdata at hr
  simp only at hr
  split_ifs at hr with a
  all_goals
    injection hr with hr; subst hr
    first
    | exact reset_invariant _
    | (unfold sync_invariant_range sync_invariant
       simp only [hs, state_period]
       refine ⟨⟨?_, ?_, fun c => absurd rfl c, fun _ => ?_⟩, fun _ => hm⟩ <;> omega)

/-- One turn of the loop of `wlanframesync_execute` keeps the bounds. -/
theorem execute_sample_invariant (env : dsp_env) (hdt : dt_in_range env) (q : wlanframesync_s)
    (x : sample) (r : wlanframesync_s × List callback_call) (h : sync_invariant_range q)
    (hr : wlanframesync_execute_sample env q x = some r) : sync_invariant_range r.1 := by
  have hp := push_invariant env q x h
  unfold wlanframesync_execute_sample wlanframesync_execute_state at hr
  generalize wlanframesync_execute_push env q x = p at *
  cases hst : p.state <;> rw [hst] at hr <;> simp only at hr
  · injection hr with hr; subst hr; exact seekplcp_invariant env hdt p hst hp
  · injection hr with hr; subst hr; exact rxshort0_invariant env p hst hp
  · injection hr with hr; subst hr; exact rxshort1_invariant env p hst hp
  · injection hr with hr; subst hr; exact rxlong0_invariant env p hst hp
  · injection hr with hr; subst hr; exact rxlong1_invariant env p hst hp
  · cases hq : wlanframesync_execute_rxsignal env p with
    | none => rw [hq] at hr; simp at hr
    | some q1 =>
      rw [hq] at hr
      simp only [Option.map_some'] at hr
      injection hr with hr; subst hr
      exact rxsignal_invariant env p q1 hst hp hq
  · exact rxdata_invariant env p r hst hp hr

/-- A call of `wlanframesync_execute` keeps the bounds. -/
theorem execute_invariant (env : dsp_env) (hdt : dt_in_range env) (xs : List sample) :
    ∀ (q : wlanframesync_s) (r : wlanframesync_s × List callback_call),
      sync_invariant_range q → wlanframesync_execute env q xs = some r →
      sync_invariant_range r.1 := by
  induction xs with
  | nil =>
    intro q r h hr
    rw [execute_nil] at hr
    injection hr with hr; subst hr; exact h
  | cons x xs ih =>
    intro q r h hr
    rw [execute_cons] at hr
    cases h1 : wlanframesync_execute_sample env q x with
    | none => rw [h1] at hr; simp at hr
    | some r1 =>
      rw [h1] at hr
      simp only at hr
      have i1 := execute_sample_invariant env hdt q x r1 h h1
      cases h2 : wlanframesync_execute env r1.1 xs with
      | none => rw [h2] at hr; simp at hr
      | some r2 =>
        rw [h2] at hr
        simp only at hr
        injection hr with hr; subst hr
        exact ih r1.1 r2 i1 h2

theorem state_in_all_states (s : wlanframesync_state) : s ∈ all_states := by
  cases s <;> decide

/-! ## Lemmas on the detection, the retest of RXLONG0 and the equalizer gain -/

theorem push_gains (env : dsp_env) (q : wlanframesync_s) (x : sample) :
    (wlanframesync_execute_push env q x).s1a_hat = q.s1a_hat ∧
    (wlanframesync_execute_push env q x).G1a = q.G1a ∧
    (wlanframesync_execute_push env q x).G = q.G ∧
    (wlanframesync_execute_push env q x).R = q.R := by
  unfold wlanframesync_execute_push; split <;> exact ⟨rfl, rfl, rfl, rfl⟩

/-- A run of counted samples keeps the statistic and the gains of the first long sequence. -/
theorem wait_samples_gains (env : dsp_env) (q : wlanframesync_s) (xs : List sample) :
    (wait_samples env q xs).s1a_hat = q.s1a_hat ∧ (wait_samples env q xs).G1a = q.G1a := by
  induction xs generalizing q with
  | nil => exact ⟨rfl, rfl⟩
  | cons x xs ih =>
    rw [wait_samples_cons]
    obtain ⟨a, b⟩ := ih (wait_sample env q x)
    obtain ⟨c, d, -, -⟩ := push_gains env q x
    exact ⟨a.trans c, b.trans d⟩

/-- The sample on which the timer of RXLONG0 reaches 16: the S1 test is made on the window,
the statistic is stored, the timer restarts from 0, and the state is RXLONG1 if the test
passes, RXLONG0 if it fails. -/
theorem execute_sample_rxlong0_test (env : dsp_env) (q : wlanframesync_s) (x : sample)
    (hs : q.state = wlanframesync_state.WLANFRAMESYNC_STATE_RXLONG0) (ht : q.timer = 15) :
    ∃ q1, wlanframesync_execute_sample env q x = some (q1, []) ∧ q1.timer = 0 ∧
      q1.state =
        (if rxlong_check env (rxlong_statistic env (wlanframesync_execute_push env q x)) then
          wlanframesync_state.WLANFRAMESYNC_STATE_RXLONG1
        else wlanframesync_state.WLANFRAMESYNC_STATE_RXLONG0) ∧
      q1.s1a_hat = rxlong_statistic env (wlanframesync_execute_push env q x) := by
  have hs1 := push_state env q x
  have ht1 := push_timer env q x
  unfold wlanframesync_execute_sample wlanframesync_execute_state rxlong_statistic
  generalize wlanframesync_execute_push env q x = p at *
  rw [hs] at hs1
  rw [ht] at ht1
  have hn : ¬ (p.timer + 1 < 16) := by omega
  simp only [hs1, wlanframesync_execute_rxlong0, if_neg hn]
  split
  · exact ⟨_, rfl, rfl, rfl, rfl⟩
  · exact ⟨_, rfl, rfl, hs1.symm ▸ rfl, rfl⟩

/-- A detection of SEEK: the state becomes RXSHORT0 and the timer the C remainder of
`16 + dt` by 16. -/
theorem seekplcp_detect (env : dsp_env) (p : wlanframesync_s) (ht : 63 ≤ p.timer)
    (hdet : env.cabsf (seekplcp_s_hat env p) > 0.4) :
    (wlanframesync_execute_seekplcp env p).state =
      wlanframesync_state.WLANFRAMESYNC_STATE_RXSHORT0 ∧
    (wlanframesync_execute_seekplcp env p).timer =
      Int.tmod (16 + roundf (env.cargf (seekplcp_s_hat env p) * 16 / (2 * M_PI))) 16 := by
  have hn : ¬ (p.timer + 1 < 64) := by omega
  unfold seekplcp_s_hat at hdet ⊢
  unfold wlanframesync_execute_seekplcp
  simp only [if_neg hn, if_pos hdet, and_self]

/-- The sample on which the timer of RXSHORT0 reaches 16: the state becomes RXSHORT1. -/
theorem execute_sample_rxshort0_fire (env : dsp_env) (q : wlanframesync_s) (x : sample)
    (hs : q.state = wlanframesync_state.WLANFRAMESYNC_STATE_RXSHORT0) (ht : q.timer = 15) :
    ∃ q1, wlanframesync_execute_sample env q x = some (q1, []) ∧
      q1.state = wlanframesync_state.WLANFRAMESYNC_STATE_RXSHORT1 ∧ q1.timer = 0 := by
  have hs1 := push_state env q x
  have ht1 := push_timer env q x
  unfold wlanframesync_execute_sample wlanframesync_execute_state
  generalize wlanframesync_execute_push env q x = p at *
  rw [hs] at hs1
  rw [ht] at ht1
  have hn : ¬ (p.timer + 1 < 16) := by omega
  simp only [hs1, wlanframesync_execute_rxshort0, if_neg hn]
  exact ⟨_, rfl, rfl, rfl⟩

/-- From a timer `t` in `[0, 15]`, RXSHORT0 acts on sample `16 - t`. -/
theorem execute_rxshort0_fires (env : dsp_env) (q : wlanframesync_s) (xs : List sample)
    (hs : q.state = wlanframesync_state.WLANFRAMESYNC_STATE_RXSHORT0)
    (hlen : (xs.length : Int) = 16 - q.timer) (h1 : q.timer ≤ 15) :
    ∃ q2, wlanframesync_execute env q xs = some (q2, []) ∧
      q2.state = wlanframesync_state.WLANFRAMESYNC_STATE_RXSHORT1 ∧ q2.timer = 0 := by
  have hl0 : xs.length = (xs.length - 1) + 1 := by omega
  obtain ⟨x, hx⟩ := list_split_last xs (xs.length - 1) hl0
  have hl : ((xs.take (xs.length - 1)).length : Int) = 15 - q.timer := by
    rw [List.length_take]; omega
  have hw := execute_wait env q (xs.take (xs.length - 1)) (by rw [hl, hs]; simp only [state_period]; omega)
  obtain ⟨w1, w2, -, -⟩ := wait_samples_fields env q (xs.take (xs.length - 1))
  rw [hl] at w2
  obtain ⟨q2, r1, r2, r3⟩ := execute_sample_rxshort0_fire env _ x (w1.trans hs)
    (by rw [w2]; omega)
  refine ⟨q2, ?_, r2, r3⟩
  rw [hx]
  exact execute_append_some env q _ q2 _ _ [] [] hw (execute_single env _ q2 x [] r1)

/-- The gains that `wlanframesync_estimate_eqgain_poly` writes on a NULL subcarrier are 0. -/
theorem eqgain_null_entry (env : dsp_env) (G1b : List sample) (i : Nat) (hi : i < 64)
    (hn : subcarrier_null i = true) :
    (wlanframesync_estimate_eqgain_poly env G1b).G.getD i 0 = 0 ∧
    (wlanframesync_estimate_eqgain_poly env G1b).R.getD i 0 = 0 := by
  unfold wlanframesync_estimate_eqgain_poly
  simp only [List.getD_eq_getElem?_getD, List.getElem?_map, List.getElem?_range hi,
    Option.map_some', Option.getD_some, hn, if_true]
  exact ⟨rfl, rfl⟩

theorem null_subcarriers_eq : null_subcarriers = [0, 27, 28, 29, 30, 31, 32, 33, 34, 35, 36, 37] := by
  decide

/-- The services `env_accept` and `env_offset` give a timing offset in `[-8, 8]`. -/
theorem dt_in_range_examples : dt_in_range env_accept ∧ dt_in_range env_offset := by
  have h0 : roundf ((0 : ℚ) * 16 / (2 * M_PI)) = 0 := by decide!
  have h1 : roundf ((-1 : ℚ) * 16 / (2 * M_PI)) = -3 := by decide!
  constructor
  · intro s
    show -8 ≤ roundf ((0 : ℚ) * 16 / (2 * M_PI)) ∧ roundf ((0 : ℚ) * 16 / (2 * M_PI)) ≤ 8
    rw [h0]; decide
  · intro s
    show -8 ≤ roundf ((-1 : ℚ) * 16 / (2 * M_PI)) ∧ roundf ((-1 : ℚ) * 16 / (2 * M_PI)) ≤ 8
    rw [h1]; decide

/-- A sequence of calls of `wlanframesync_execute` keeps the bounds. -/
theorem execute_calls_invariant (env : dsp_env) (hdt : dt_in_range env)
    (bufs : List (List sample)) :
    ∀ (q q1 : wlanframesync_s), sync_invariant_range q →
      wlanframesync_execute_calls env q bufs = some q1 → sync_invariant_range q1 := by
  induction bufs with
  | nil =>
    intro q q1 h hr
    unfold wlanframesync_execute_calls at hr
    injection hr with hr; subst hr; exact h
  | cons b bs ih =>
    intro q q1 h hr
    unfold wlanframesync_execute_calls at hr
    cases h1 : wlanframesync_execute env q b with
    | none => rw [h1] at hr; simp at hr
    | some r =>
      rw [h1] at hr
      simp only at hr
      exact ih r.1 q1 (execute_invariant env hdt b q r h h1) hr

/-! ## Runs of the examples -/

/-- With `env_accept`, a call on 200 samples `1 + 0i` and a call on 136 more lead into the
second DATA symbol of a frame of 2 symbols. -/
theorem calls_accept_336 :
    (wlanframesync_execute_calls env_accept (wlanframesync_reset sync_created)
      [stream_ones 200, stream_ones 136]).map
        (fun q => (q.state, q.timer, q.num_symbols, q.nsym)) =
      some (wlanframesync_state.WLANFRAMESYNC_STATE_RXDATA, 0, 1, 2) := by
  decide!

/-- The run on `stream_retest`: the check of sample 112 fails; on sample 113 the window
passes the check, but the state only counts; the check of sample 128 passes. -/
theorem sync_retest_run :
    (sync_retest 111).state = wlanframesync_state.WLANFRAMESYNC_STATE_RXLONG0 ∧
    (sync_retest 111).timer = 15 ∧
    rxlong_check env_reject (rxlong_statistic env_reject
      (wlanframesync_execute_push env_reject (sync_retest 111) (1, 0))) = false ∧
    stream_retest.take 113 = stream_retest.take 111 ++ [(1, 0), (1, 0)] ∧
    (sync_retest 112).state = wlanframesync_state.WLANFRAMESYNC_STATE_RXLONG0 ∧
    (sync_retest 112).timer = 0 ∧
    rxlong_check env_reject (rxlong_statistic env_reject
      (wlanframesync_execute_push env_reject (sync_retest 112) (1, 0))) = true ∧
    (sync_retest 113).state = wlanframesync_state.WLANFRAMESYNC_STATE_RXLONG0 ∧
    (sync_retest 113).timer = 1 ∧
    (sync_retest 113).s1a_hat = (sync_retest 112).s1a_hat ∧
    (sync_retest 113).s1a_hat ≠ rxlong_statistic env_reject
      (wlanframesync_execute_push env_reject (sync_retest 112) (1, 0)) ∧
    (sync_retest 128).state = wlanframesync_state.WLANFRAMESYNC_STATE_RXLONG1 := by
  decide!

/-- The run of `env_offset` on samples `1 + 0i`: the detection of sample 64 has `dt = -3`. -/
theorem sync_offset_run :
    (sync_offset 63).state = wlanframesync_state.WLANFRAMESYNC_STATE_SEEKPLCP ∧
    (sync_offset 63).timer = 63 ∧
    env_offset.cabsf (seekplcp_s_hat env_offset
      (wlanframesync_execute_push env_offset (sync_offset 63) (1, 0))) > 0.4 ∧
    (-3 : Int) = roundf (env_offset.cargf (seekplcp_s_hat env_offset
      (wlanframesync_execute_push env_offset (sync_offset 63) (1, 0))) * 16 / (2 * M_PI)) ∧
    (sync_offset 64).state = wlanframesync_state.WLANFRAMESYNC_STATE_RXSHORT0 ∧
    (sync_offset 64).timer = 13 ∧
    (sync_offset 66).state = wlanframesync_state.WLANFRAMESYNC_STATE_RXSHORT0 ∧
    (sync_offset 67).state = wlanframesync_state.WLANFRAMESYNC_STATE_RXSHORT1 := by
  decide!

/-- The run on `stream_s1_fail` of the object created in the memory `mem_ones`: the check of
sample 192 fails, the state becomes RXSIGNAL and the arrays `G` and `R` hold what the memory
held. -/
theorem sync_dirty_run :
    (sync_dirty 191).state = wlanframesync_state.WLANFRAMESYNC_STATE_RXLONG1 ∧
    (sync_dirty 191).timer = 63 ∧
    rxlong_check env_reject (rxlong_statistic env_reject
      (wlanframesync_execute_push env_reject (sync_dirty 191) (0, 0))) = false ∧
    (wlanframesync_execute env_reject (wlanframesync_create true mem_ones) stream_s1_fail).map
      (fun r => (r.1.state, r.1.G.getD 0 0, r.1.R.getD 0 0, r.1.R.getD 27 0)) =
      some (wlanframesync_state.WLANFRAMESYNC_STATE_RXSIGNAL, (1, 0), (1, 0), (1, 0)) ∧
    (sync_dirty 192).state = wlanframesync_state.WLANFRAMESYNC_STATE_RXSIGNAL ∧
    (sync_dirty 192).G.getD 0 0 = (1, 0) ∧ (sync_dirty 192).R.getD 0 0 = (1, 0) ∧
    (sync_dirty 192).G.getD 27 0 = (1, 0) ∧ (sync_dirty 192).R.getD 27 0 = (1, 0) := by
  decide!

/-! ## The claims on the frame parameters, the subcarrier loops and the bounds -/

/-- C22 (what the code does). For a valid SIGNAL with length in [1,4095] and a row of the rate
table, `wlanframesync_decode_signal` returns `nsym ≥ 1`, and every write of `bytes_per_symbol`
bytes at offset `s · bytes_per_symbol`, `s < nsym`, ends at or before `enc_msg_len`; but
`nsym · bytes_per_symbol = enc_msg_len` holds exactly when the row is not `(36, 48)` with an
odd symbol count of 3 or more: there the `nsym` writes leave the end of `msg_enc` unwritten. -/
theorem decode_signal_symbol_bytes (u : signal_unpacked) (ratetab : Nat → wlanframe_param_s)
    (q : wlanframesync_s) (hv : u.valid ≠ 0) (hL1 : 1 ≤ u.length) (hL2 : u.length ≤ 4095)
    (hrow : std_row (ratetab u.rate).ndbps (ratetab u.rate).ncbps) :
    ∃ q', wlanframesync_decode_signal u ratetab q = some q' ∧ 1 ≤ q'.nsym ∧
      (∀ s, s < q'.nsym → s * q'.bytes_per_symbol + q'.bytes_per_symbol ≤ q'.enc_msg_len) ∧
      (q'.nsym * q'.bytes_per_symbol = q'.enc_msg_len ↔
        ¬ ((ratetab u.rate).ndbps = 36 ∧ q'.nsym % 2 = 1 ∧ 3 ≤ q'.nsym)) := by
  obtain ⟨q', hq, hnd, hnc, -, h1, -, hA, hB⟩ := decode_signal_lengths u ratetab q hv hL1 hL2 hrow
  refine ⟨q', hq, h1, ?_, ?_⟩
  · intro s hs
    have hle : (s + 1) * q'.bytes_per_symbol ≤ q'.nsym * q'.bytes_per_symbol :=
      Nat.mul_le_mul_right _ hs
    rw [Nat.add_mul, Nat.one_mul] at hle
    by_cases hc : q'.ndbps = 36 ∧ q'.nsym % 2 = 1
    · obtain ⟨-, e2, e3⟩ := hB hc
      rw [e3] at hle ⊢
      omega
    · obtain ⟨-, e2, e3⟩ := hA hc
      rw [e3] at hle ⊢
      rw [e2]
      exact hle
  · rw [← hnd]
    by_cases hc : q'.ndbps = 36 ∧ q'.nsym % 2 = 1
    · obtain ⟨-, e2, e3⟩ := hB hc
      rw [e3]
      omega
    · obtain ⟨-, e2, e3⟩ := hA hc
      rw [e3, e2]
      constructor
      · intro _ hh; exact hc ⟨hh.1, hh.2.1⟩
      · intro _; rfl

/-- Witness for C22: rate 9 Mbit/s (row `(36, 48)`) and length 7 give 3 symbols, 17 encoded
bytes and 5 bytes per symbol: the 3 writes cover 15 of the 17 bytes. -/
theorem decode_signal_symbol_bytes_witness :
    (wlanframesync_decode_signal ⟨1, WLANFRAME_RATE_9, 7⟩ wlanframe_ratetab
        wlanframesync_zero).map (fun q => (q.nsym, q.enc_msg_len, q.bytes_per_symbol)) =
      some (3, 17, 5) ∧
    ∃ q', wlanframesync_decode_signal ⟨1, WLANFRAME_RATE_9, 7⟩ wlanframe_ratetab
        wlanframesync_zero = some q' ∧ 1 ≤ q'.nsym ∧
      (∀ s, s < q'.nsym → s * q'.bytes_per_symbol + q'.bytes_per_symbol ≤ q'.enc_msg_len) ∧
      (q'.nsym * q'.bytes_per_symbol = q'.enc_msg_len ↔
        ¬ ((wlanframe_ratetab WLANFRAME_RATE_9).ndbps = 36 ∧ q'.nsym % 2 = 1 ∧ 3 ≤ q'.nsym)) :=
  ⟨by decide!, decode_signal_symbol_bytes ⟨1, WLANFRAME_RATE_9, 7⟩ wlanframe_ratetab
    wlanframesync_zero (by decide) (by decide) (by decide) (by decide)⟩

/-- C24 (what the code does). For a valid SIGNAL with length in [1,4095] and a row
`(ndbps, ncbps, nbpsc)` of the rate table, the `bytes_per_symbol` that
`wlanframesync_decode_signal` computes is `6 · nbpsc` exactly when the row is not
`(36, 48, 1)` with an odd symbol count; for that row and an odd count it is 5. -/
theorem decode_signal_bytes_per_symbol (u : signal_unpacked) (ratetab : Nat → wlanframe_param_s)
    (q : wlanframesync_s) (hv : u.valid ≠ 0) (hL1 : 1 ≤ u.length) (hL2 : u.length ≤ 4095)
    (hrow : std_row_nbpsc (ratetab u.rate).ndbps (ratetab u.rate).ncbps
      (ratetab u.rate).nbpsc) :
    ∃ q', wlanframesync_decode_signal u ratetab q = some q' ∧
      q'.nbpsc = (ratetab u.rate).nbpsc ∧
      (q'.bytes_per_symbol = 6 * q'.nbpsc ↔
        ¬ ((ratetab u.rate).ndbps = 36 ∧ q'.nsym % 2 = 1)) ∧
      ((ratetab u.rate).ndbps = 36 ∧ q'.nsym % 2 = 1 → q'.bytes_per_symbol = 5) := by
  obtain ⟨hr, h6, h36⟩ := std_row_of_nbpsc hrow
  obtain ⟨q', hq, hnd, hnc, hnb, -, -, hA, hB⟩ := decode_signal_lengths u ratetab q hv hL1 hL2 hr
  rw [← hnc, ← hnb] at h6
  rw [← hnd, ← hnb] at h36
  refine ⟨q', hq, hnb, ?_, ?_⟩
  swap
  · rw [← hnd]; exact fun hc => (hB hc).2.2
  rw [← hnd]
  by_cases hc : q'.ndbps = 36 ∧ q'.nsym % 2 = 1
  · have e3 := (hB hc).2.2
    have e1 := h36 hc.1
    rw [e3, e1]
    constructor
    · intro h; omega
    · intro h; exact absurd hc h
  · have e3 := (hA hc).2.2
    rw [e3, h6]
    exact ⟨fun _ => hc, fun _ => rfl⟩

/-- Witness for C24: rate 9 Mbit/s (row `(36, 48, 1)`) and length 1 give 1 symbol and 5
bytes per symbol, not 6. -/
theorem decode_signal_bytes_per_symbol_witness :
    (wlanframesync_decode_signal ⟨1, WLANFRAME_RATE_9, 1⟩ wlanframe_ratetab
        wlanframesync_zero).map (fun q => (q.nsym, q.nbpsc, q.bytes_per_symbol)) =
      some (1, 1, 5) ∧
    ∃ q', wlanframesync_decode_signal ⟨1, WLANFRAME_RATE_9, 1⟩ wlanframe_ratetab
        wlanframesync_zero = some q' ∧
      q'.nbpsc = (wlanframe_ratetab WLANFRAME_RATE_9).nbpsc ∧
      (q'.bytes_per_symbol = 6 * q'.nbpsc ↔
        ¬ ((wlanframe_ratetab WLANFRAME_RATE_9).ndbps = 36 ∧ q'.nsym % 2 = 1)) ∧
      ((wlanframe_ratetab WLANFRAME_RATE_9).ndbps = 36 ∧ q'.nsym % 2 = 1 →
        q'.bytes_per_symbol = 5) :=
  ⟨by decide!, decode_signal_bytes_per_symbol ⟨1, WLANFRAME_RATE_9, 1⟩ wlanframe_ratetab
    wlanframesync_zero (by decide) (by decide) (by decide) (by decide)⟩

/-- C29 (what the code does). For a valid SIGNAL with length `L` in [1,4095] and a value of
`ndbps` of the rate table, the `dec_msg_len` that `wlanframesync_decode_signal` computes is
at least `L + 3`, and `8 · dec_msg_len = ndata` holds exactly when `ndbps` is not 36 with an
odd symbol count; for `ndbps = 36` and an odd count the division by 8 drops 4 bits. -/
theorem decode_signal_dec_msg_len (u : signal_unpacked) (ratetab : Nat → wlanframe_param_s)
    (q : wlanframesync_s) (hv : u.valid ≠ 0) (hL1 : 1 ≤ u.length) (hL2 : u.length ≤ 4095)
    (hn : std_ndbps (ratetab u.rate).ndbps) :
    ∃ q', wlanframesync_decode_signal u ratetab q = some q' ∧
      u.length + 3 ≤ q'.dec_msg_len ∧
      (8 * q'.dec_msg_len = q'.ndata ↔
        ¬ ((ratetab u.rate).ndbps = 36 ∧ q'.nsym % 2 = 1)) ∧
      ((ratetab u.rate).ndbps = 36 ∧ q'.nsym % 2 = 1 → 8 * q'.dec_msg_len + 4 = q'.ndata) := by
  obtain ⟨q', hq, -, -, hnd, -, -, hsym, hdata, -, hdec, -⟩ :=
    decode_signal_some u ratetab q hv hL2 hn
  obtain ⟨c, hc⟩ := std_row_of_ndbps hn
  rw [← hnd] at hc
  obtain ⟨-, h3, hA, hB⟩ := frame_lengths u.length q'.ndbps c q'.nsym q'.ndata q'.dec_msg_len
    ((q'.dec_msg_len * c % 2 ^ 32) / q'.ndbps)
    (((q'.dec_msg_len * c % 2 ^ 32) / q'.ndbps) / q'.nsym) hL1 hL2 hc hsym hdata hdec rfl rfl
  refine ⟨q', hq, h3, ?_, ?_⟩
  swap
  · rw [← hnd]; exact fun h => (hB h).1
  rw [← hnd]
  by_cases h : q'.ndbps = 36 ∧ q'.nsym % 2 = 1
  · have e := (hB h).1
    constructor
    · intro h8; omega
    · intro hh; exact absurd h hh
  · exact ⟨fun _ => h, fun _ => (hA h).1⟩

/-- Witness for C29: rate 9 Mbit/s (`ndbps = 36`) and length 1 give `ndata = 36` and
`dec_msg_len = 4`: 8 times 4 is 32. -/
theorem decode_signal_dec_msg_len_witness :
    (wlanframesync_decode_signal ⟨1, WLANFRAME_RATE_9, 1⟩ wlanframe_ratetab
        wlanframesync_zero).map (fun q => (q.nsym, q.ndata, q.dec_msg_len)) =
      some (1, 36, 4) ∧
    ∃ q', wlanframesync_decode_signal ⟨1, WLANFRAME_RATE_9, 1⟩ wlanframe_ratetab
        wlanframesync_zero = some q' ∧
      1 + 3 ≤ q'.dec_msg_len ∧
      (8 * q'.dec_msg_len = q'.ndata ↔
        ¬ ((wlanframe_ratetab WLANFRAME_RATE_9).ndbps = 36 ∧ q'.nsym % 2 = 1)) ∧
      ((wlanframe_ratetab WLANFRAME_RATE_9).ndbps = 36 ∧ q'.nsym % 2 = 1 →
        8 * q'.dec_msg_len + 4 = q'.ndata) :=
  ⟨by decide!, decode_signal_dec_msg_len ⟨1, WLANFRAME_RATE_9, 1⟩ wlanframe_ratetab
    wlanframesync_zero (by decide) (by decide) (by decide) (by decide)⟩

/-- C23. The 48 subcarriers that `wlanframesync_execute_rxsignal` slices, byte after byte and
most significant bit first, are the sequence `38..42, 44..56, 58..63, 1..6, 8..20, 22..26`, and
this sequence is the one of the DATA subcarriers in the loop `k = (i + 32) % 64` of
`wlanframesync_execute_rxdata`; for every spectrum `X` the 48 bits of `signal_int`, most
significant first, are the hard decisions on these subcarriers in this order. -/
theorem signal_slicing_order (X : List sample) :
    signal_int_subcarriers.flatten = signal_subcarrier_order ∧
    signal_subcarrier_order = data_subcarriers ∧
    signal_subcarrier_order.length = 48 ∧
    ((signal_int_subcarriers.map (signal_int_byte X)).map byte_bits).flatten =
      data_subcarriers.map (slice_bit X) := by
  refine ⟨by decide, by decide, by decide, ?_⟩
  rw [data_subcarriers_eq]
  simp only [signal_int_subcarriers, List.map_cons, List.map_nil, signal_int_byte_bits,
    List.flatten, List.cons_append, List.nil_append, List.append_nil]

/-- C28. The loop of `wlanframesync_execute_rxdata` with its counter passes `assert(n<48)` on
every store and `assert(n==48)` at the end, and stores the symbols of the 48 DATA
subcarriers in the order `k = (i + 32) % 64`; of the 64 subcarriers it meets 12 NULL, 4 PILOT
and 48 DATA ones.  The loop of `wlanframesync_estimate_eqgain_poly` passes `assert(n < 52)` on
every store and `assert(n == 52)` at the end, and stores the entries of the 52 subcarriers
that are not NULL. -/
theorem subcarrier_loops_pass {α : Type} (demod : Nat → Nat) (entry : Nat → α) :
    rxdata_demod_loop demod = some (data_subcarriers.map demod) ∧
    (data_subcarriers.map demod).length = 48 ∧
    (((List.range 64).map (fun i => (i + 32) % 64)).filter subcarrier_null).length = 12 ∧
    (((List.range 64).map (fun i => (i + 32) % 64)).filter
      (fun k => !subcarrier_null k && subcarrier_pilot k)).length = 4 ∧
    (((List.range 64).map (fun i => (i + 32) % 64)).filter
      (fun k => !subcarrier_null k && !subcarrier_pilot k)).length = 48 ∧
    eqgain_store_loop entry = some (eq_subcarriers.map entry) ∧
    (eq_subcarriers.map entry).length = 52 :=
  ⟨rxdata_demod_loop_eq demod, by rw [List.length_map]; decide, by decide, by decide, by decide,
    eqgain_store_loop_eq entry, by rw [List.length_map]; decide⟩

/-- C30. For every 3-byte input the structure that `wlan_signal_unpack` writes has one of the
8 defined rate codes, `R` in {0,1} and a length of at most 4095; and an input with the same
bytes 0 and 1 and the same top bit of byte 2 (bits 0-16), whatever its parity bit and its
tail bits, gives the same structure. -/
theorem signal_unpack_well_formed (s t : signal_bytes) (h0 : t.b0 = s.b0) (h1 : t.b1 = s.b1)
    (h7 : (t.b2 >>> 7) % 2 = (s.b2 >>> 7) % 2) :
    valid_rate (wlan_signal_unpack s).q.rate ∧
    ((wlan_signal_unpack s).q.R = 0 ∨ (wlan_signal_unpack s).q.R = 1) ∧
    (wlan_signal_unpack s).q.length ≤ 4095 ∧
    (wlan_signal_unpack t).q = (wlan_signal_unpack s).q := by
  refine ⟨?_, ?_, ?_, ?_⟩
  · rw [unpack_q]
    simp only
    split
    · assumption
    · decide
  · rw [unpack_q]
    simp only
    have := bit_lt s.b0 3
    omega
  · rw [unpack_q]
    simp only
    rw [unpack_form_sum _ _ _ _ _ _ _ _ _ _ _ _ (bit_lt _ _) (bit_lt _ _) (bit_lt _ _)
      (bit_lt _ _) (bit_lt _ _) (bit_lt _ _) (bit_lt _ _) (bit_lt _ _) (bit_lt _ _)
      (bit_lt _ _) (bit_lt _ _) (bit_lt _ _)]
    have := bit_lt s.b0 2; have := bit_lt s.b0 1; have := bit_lt s.b0 0
    have := bit_lt s.b1 7; have := bit_lt s.b1 6; have := bit_lt s.b1 5; have := bit_lt s.b1 4
    have := bit_lt s.b1 3; have := bit_lt s.b1 2; have := bit_lt s.b1 1; have := bit_lt s.b1 0
    have := bit_lt s.b2 7
    omega
  · rw [unpack_q, unpack_q, h0, h1, h7]

/-- Witness for C30: the field `d4 00 00` and the field `d4 00 7f`, with the parity bit and
the six tail bits set, give the same structure (rate code 13, length 1); the field `04 00 c1`
with an undefined rate nibble, the top length bit and a tail bit gives rate code 13, `R = 0`
and length 2049. -/
theorem signal_unpack_well_formed_witness :
    (wlan_signal_unpack ⟨0xd4, 0x00, 0x7f⟩).q = ⟨WLAN_SIGNAL_RATE_6, 0, 1⟩ ∧
    (wlan_signal_unpack ⟨0x04, 0x00, 0xc1⟩).q = ⟨WLAN_SIGNAL_RATE_6, 0, 2049⟩ ∧
    (valid_rate (wlan_signal_unpack ⟨0xd4, 0x00, 0x00⟩).q.rate ∧
    ((wlan_signal_unpack ⟨0xd4, 0x00, 0x00⟩).q.R = 0 ∨
      (wlan_signal_unpack ⟨0xd4, 0x00, 0x00⟩).q.R = 1) ∧
    (wlan_signal_unpack ⟨0xd4, 0x00, 0x00⟩).q.length ≤ 4095 ∧
    (wlan_signal_unpack ⟨0xd4, 0x00, 0x7f⟩).q = (wlan_signal_unpack ⟨0xd4, 0x00, 0x00⟩).q) :=
  ⟨by decide!, by decide!,
    signal_unpack_well_formed ⟨0xd4, 0x00, 0x00⟩ ⟨0xd4, 0x00, 0x7f⟩ rfl rfl (by decide)⟩

/-- C21. From the object that `wlanframesync_reset` leaves, after any sequence of calls of
`wlanframesync_execute` that has a result, whatever the outcomes of the tests, with the
rounded timing offset in `[-8, 8]`: the state is one of the seven states of the `enum`, the
timer is in `[0, W)` for the period `W` of the state (64 in SEEK and RXLONG1, 16 in
RXSHORT0, RXSHORT1 and RXLONG0, 80 in RXSIGNAL and RXDATA), `num_symbols` is 0 outside
RXDATA and below `nsym` in RXDATA.  The buffers are arbitrary, so the bounds hold after
each sample. -/
theorem execute_keeps_bounds (env : dsp_env) (hdt : dt_in_range env) (q0 q : wlanframesync_s)
    (bufs : List (List sample))
    (h : wlanframesync_execute_calls env (wlanframesync_reset q0) bufs = some q) :
    q.state ∈ all_states ∧ 0 ≤ q.timer ∧ q.timer < state_period q.state ∧
    (q.state ≠ wlanframesync_state.WLANFRAMESYNC_STATE_RXDATA → q.num_symbols = 0) ∧
    (q.state = wlanframesync_state.WLANFRAMESYNC_STATE_RXDATA → q.num_symbols < q.nsym) :=
  ⟨state_in_all_states q.state,
    (execute_calls_invariant env hdt bufs _ q (reset_invariant q0) h).1⟩

/-- Witness for C21: with `env_accept`, two calls on 200 and 136 samples `1 + 0i` end in
RXDATA with the timer 0 and the first of 2 symbols counted. -/
theorem execute_keeps_bounds_witness :
    dt_in_range env_accept ∧
    ∃ q, wlanframesync_execute_calls env_accept (wlanframesync_reset sync_created)
        [stream_ones 200, stream_ones 136] = some q ∧
      (q.state, q.timer, q.num_symbols, q.nsym) =
        (wlanframesync_state.WLANFRAMESYNC_STATE_RXDATA, 0, 1, 2) ∧
      (q.state ∈ all_states ∧ 0 ≤ q.timer ∧ q.timer < state_period q.state ∧
      (q.state ≠ wlanframesync_state.WLANFRAMESYNC_STATE_RXDATA → q.num_symbols = 0) ∧
      (q.state = wlanframesync_state.WLANFRAMESYNC_STATE_RXDATA → q.num_symbols < q.nsym)) := by
  obtain ⟨q, hq, hf⟩ := Option.map_eq_some'.1 calls_accept_336
  exact ⟨dt_in_range_examples.1, q, hq, hf,
    execute_keeps_bounds env_accept dt_in_range_examples.1 sync_created q _ hq⟩

/-- C25, the run that contradicts it: on `stream_retest` with `env_reject` the S1 test of
sample 112 fails in RXLONG0; on sample 113 the window would pass the test, but the test is
not evaluated: the state stays RXLONG0, the timer is 1 and `s1a_hat` keeps its value, which
is not the statistic of that window; the next test is the one of sample 128. -/
theorem rxlong0_no_test_on_next_sample :
    (sync_retest 111).state = wlanframesync_state.WLANFRAMESYNC_STATE_RXLONG0 ∧
    rxlong_check env_reject (rxlong_statistic env_reject
      (wlanframesync_execute_push env_reject (sync_retest 111) (1, 0))) = false ∧
    (sync_retest 112).state = wlanframesync_state.WLANFRAMESYNC_STATE_RXLONG0 ∧
    rxlong_check env_reject (rxlong_statistic env_reject
      (wlanframesync_execute_push env_reject (sync_retest 112) (1, 0))) = true ∧
    (sync_retest 113).state = wlanframesync_state.WLANFRAMESYNC_STATE_RXLONG0 ∧
    (sync_retest 113).timer = 1 ∧
    (sync_retest 113).s1a_hat = (sync_retest 112).s1a_hat ∧
    (sync_retest 113).s1a_hat ≠ rxlong_statistic env_reject
      (wlanframesync_execute_push env_reject (sync_retest 112) (1, 0)) ∧
    (sync_retest 128).state = wlanframesync_state.WLANFRAMESYNC_STATE_RXLONG1 :=
  ⟨sync_retest_run.1, sync_retest_run.2.2.1, sync_retest_run.2.2.2.2.1,
    sync_retest_run.2.2.2.2.2.2.1, sync_retest_run.2.2.2.2.2.2.2.1,
    sync_retest_run.2.2.2.2.2.2.2.2.1, sync_retest_run.2.2.2.2.2.2.2.2.2.1,
    sync_retest_run.2.2.2.2.2.2.2.2.2.2.1, sync_retest_run.2.2.2.2.2.2.2.2.2.2.2⟩

/-- C25, amended: in RXLONG0, when the S1 test fails on the sample `x` that takes the timer
to 16, the timer restarts from 0 and the state stays RXLONG0; the next 15 samples `xs` are
only counted (state RXLONG0, timer `n` after `n` of them, `s1a_hat` and `G1a` kept); and
the test is evaluated again on the 16th sample `y` after the failed one, whose result
decides between RXLONG1 and RXLONG0. -/
theorem rxlong0_retest_after_16 (env : dsp_env) (q : wlanframesync_s) (x y : sample)
    (xs : List sample) (hs : q.state = wlanframesync_state.WLANFRAMESYNC_STATE_RXLONG0)
    (ht : q.timer = 15)
    (hfail : rxlong_check env (rxlong_statistic env (wlanframesync_execute_push env q x)) = false)
    (hlen : xs.length = 15) :
    ∃ q1, wlanframesync_execute_sample env q x = some (q1, []) ∧
      q1.state = wlanframesync_state.WLANFRAMESYNC_STATE_RXLONG0 ∧ q1.timer = 0 ∧
      (∀ n, n ≤ 15 → ∃ qn, wlanframesync_execute env q1 (xs.take n) = some (qn, []) ∧
        qn.state = wlanframesync_state.WLANFRAMESYNC_STATE_RXLONG0 ∧ qn.timer = n ∧
        qn.s1a_hat = q1.s1a_hat ∧ qn.G1a = q1.G1a) ∧
      ∃ q2, wlanframesync_execute env q1 (xs ++ [y]) = some (q2, []) ∧ q2.timer = 0 ∧
        q2.s1a_hat = rxlong_statistic env
          (wlanframesync_execute_push env (wait_samples env q1 xs) y) ∧
        q2.state =
          (if rxlong_check env (rxlong_statistic env
              (wlanframesync_execute_push env (wait_samples env q1 xs) y)) then
            wlanframesync_state.WLANFRAMESYNC_STATE_RXLONG1
          else wlanframesync_state.WLANFRAMESYNC_STATE_RXLONG0) := by
  obtain ⟨q1, r1, r2, r3, -⟩ := execute_sample_rxlong0_test env q x hs ht
  rw [hfail] at r3
  simp only [Bool.false_eq_true, if_false] at r3
  refine ⟨q1, r1, r3, r2, ?_, ?_⟩
  · intro n hn
    have hl : (xs.take n).length = n := by rw [List.length_take, hlen]; omega
    have hw := execute_wait env q1 (xs.take n)
      (by rw [hl, r2, r3]; simp only [state_period]; omega)
    obtain ⟨w1, w2, -, -⟩ := wait_samples_fields env q1 (xs.take n)
    obtain ⟨g1, g2⟩ := wait_samples_gains env q1 (xs.take n)
    rw [hl, r2] at w2
    exact ⟨_, hw, w1.trans r3, by rw [w2]; omega, g1, g2⟩
  · have hw := execute_wait env q1 xs (by rw [hlen, r2, r3]; decide)
    obtain ⟨w1, w2, -, -⟩ := wait_samples_fields env q1 xs
    rw [hlen, r2] at w2
    obtain ⟨q2, t1, t2, t3, t4⟩ := execute_sample_rxlong0_test env _ y (w1.trans r3)
      (by rw [w2]; rfl)
    exact ⟨q2, execute_append_some env q1 _ q2 _ _ [] [] hw (execute_single env _ q2 y [] t1),
      t2, t4, t3⟩

/-- Witness for C25 (amended): the failed test of sample 112 of `stream_retest`, followed by
15 samples `1 + 0i` and one more. -/
theorem rxlong0_retest_after_16_witness :
    (sync_retest 111).state = wlanframesync_state.WLANFRAMESYNC_STATE_RXLONG0 ∧
    (sync_retest 111).timer = 15 ∧
    ∃ q1, wlanframesync_execute_sample env_reject (sync_retest 111) (1, 0) = some (q1, []) ∧
      q1.state = wlanframesync_state.WLANFRAMESYNC_STATE_RXLONG0 ∧ q1.timer = 0 ∧
      (∀ n, n ≤ 15 → ∃ qn,
        wlanframesync_execute env_reject q1 ((stream_ones 15).take n) = some (qn, []) ∧
        qn.state = wlanframesync_state.WLANFRAMESYNC_STATE_RXLONG0 ∧ qn.timer = n ∧
        qn.s1a_hat = q1.s1a_hat ∧ qn.G1a = q1.G1a) ∧
      ∃ q2, wlanframesync_execute env_reject q1 (stream_ones 15 ++ [(1, 0)]) = some (q2, []) ∧
        q2.timer = 0 ∧
        q2.s1a_hat = rxlong_statistic env_reject
          (wlanframesync_execute_push env_reject (wait_samples env_reject q1 (stream_ones 15))
            (1, 0)) ∧
        q2.state =
          (if rxlong_check env_reject (rxlong_statistic env_reject
              (wlanframesync_execute_push env_reject
                (wait_samples env_reject q1 (stream_ones 15)) (1, 0))) then
            wlanframesync_state.WLANFRAMESYNC_STATE_RXLONG1
          else wlanframesync_state.WLANFRAMESYNC_STATE_RXLONG0) :=
  ⟨sync_retest_run.1, sync_retest_run.2.1,
    rxlong0_retest_after_16 env_reject (sync_retest 111) (1, 0) (1, 0) (stream_ones 15)
      sync_retest_run.1 sync_retest_run.2.1 sync_retest_run.2.2.1 (stream_ones_length 15)⟩

/-- C26. When SEEK detects a frame on the sample that takes its timer to 64, with a rounded
timing offset `dt` in `[-8, 8]`: the state becomes RXSHORT0, the timer is the C remainder
`(16 + dt) % 16`, which is the residue of `16 + dt` modulo 16 and lies in `[0, 15]`; after
fewer than `16 - timer` further samples the state is still RXSHORT0, and after
`16 - timer` further samples, a number in `[1, 16]`, RXSHORT0 has acted: the state is
RXSHORT1 and the timer 0. -/
theorem seek_detection_timer (env : dsp_env) (q : wlanframesync_s) (x : sample) (dt : Int)
    (hs : q.state = wlanframesync_state.WLANFRAMESYNC_STATE_SEEKPLCP) (ht : q.timer = 63)
    (hdet : env.cabsf (seekplcp_s_hat env (wlanframesync_execute_push env q x)) > 0.4)
    (hdt : dt = roundf (env.cargf (seekplcp_s_hat env (wlanframesync_execute_push env q x)) *
      16 / (2 * M_PI)))
    (h1 : -8 ≤ dt) (h2 : dt ≤ 8) :
    ∃ q1, wlanframesync_execute_sample env q x = some (q1, []) ∧
      q1.state = wlanframesync_state.WLANFRAMESYNC_STATE_RXSHORT0 ∧
      q1.timer = Int.tmod (16 + dt) 16 ∧ Int.tmod (16 + dt) 16 = (16 + dt) % 16 ∧
      0 ≤ q1.timer ∧ q1.timer ≤ 15 ∧
      ∀ xs : List sample,
        ((xs.length : Int) < 16 - q1.timer →
          ∃ q2, wlanframesync_execute env q1 xs = some (q2, []) ∧
            q2.state = wlanframesync_state.WLANFRAMESYNC_STATE_RXSHORT0) ∧
        ((xs.length : Int) = 16 - q1.timer →
          1 ≤ xs.length ∧ xs.length ≤ 16 ∧
          ∃ q2, wlanframesync_execute env q1 xs = some (q2, []) ∧
            q2.state = wlanframesync_state.WLANFRAMESYNC_STATE_RXSHORT1 ∧ q2.timer = 0) := by
  obtain ⟨d1, d2⟩ := seekplcp_detect env (wlanframesync_execute_push env q x)
    (by rw [push_timer, ht]) hdet
  rw [← hdt] at d2
  obtain ⟨e, t0, t1⟩ := tmod_offset dt h1 h2
  rw [← d2] at t0 t1
  refine ⟨_, execute_sample_seek env q x hs, d1, d2, e, t0, by omega, ?_⟩
  intro xs
  constructor
  · intro hl
    have hw := execute_wait env _ xs (by rw [d1]; simp only [state_period]; omega)
    exact ⟨_, hw, (wait_samples_fields env _ xs).1.trans d1⟩
  · intro hl
    exact ⟨by omega, by omega, execute_rxshort0_fires env _ xs d1 hl (by omega)⟩

/-- Witness for C26: with `env_offset` the detection of sample 64 has `dt = -3`: the timer
becomes 13 and RXSHORT0 acts 3 samples later. -/
theorem seek_detection_timer_witness :
    (sync_offset 63).state = wlanframesync_state.WLANFRAMESYNC_STATE_SEEKPLCP ∧
    (sync_offset 63).timer = 63 ∧
    (sync_offset 64).timer = 13 ∧
    (sync_offset 66).state = wlanframesync_state.WLANFRAMESYNC_STATE_RXSHORT0 ∧
    (sync_offset 67).state = wlanframesync_state.WLANFRAMESYNC_STATE_RXSHORT1 ∧
    ∃ q1, wlanframesync_execute_sample env_offset (sync_offset 63) (1, 0) = some (q1, []) ∧
      q1.state = wlanframesync_state.WLANFRAMESYNC_STATE_RXSHORT0 ∧
      q1.timer = Int.tmod (16 + -3) 16 ∧ Int.tmod (16 + -3) 16 = (16 + -3) % 16 ∧
      0 ≤ q1.timer ∧ q1.timer ≤ 15 ∧
      ∀ xs : List sample,
        ((xs.length : Int) < 16 - q1.timer →
          ∃ q2, wlanframesync_execute env_offset q1 xs = some (q2, []) ∧
            q2.state = wlanframesync_state.WLANFRAMESYNC_STATE_RXSHORT0) ∧
        ((xs.length : Int) = 16 - q1.timer →
          1 ≤ xs.length ∧ xs.length ≤ 16 ∧
          ∃ q2, wlanframesync_execute env_offset q1 xs = some (q2, []) ∧
            q2.state = wlanframesync_state.WLANFRAMESYNC_STATE_RXSHORT1 ∧ q2.timer = 0) :=
  ⟨sync_offset_run.1, sync_offset_run.2.1, sync_offset_run.2.2.2.2.2.1,
    sync_offset_run.2.2.2.2.2.2.1, sync_offset_run.2.2.2.2.2.2.2,
    seek_detection_timer env_offset (sync_offset 63) (1, 0) (-3) sync_offset_run.1
      sync_offset_run.2.1 sync_offset_run.2.2.1 sync_offset_run.2.2.2.1 (by decide) (by decide)⟩

/-- C27. For every `G1b`, `wlanframesync_estimate_eqgain_poly` writes 0 into `G` and `R` on
the 12 NULL subcarriers; but the synchronizer reaches RXSIGNAL with other values there: the
object created in the memory `mem_ones`, fed `stream_s1_fail` with the services
`env_reject`, fails the check of RXLONG1 on sample 192, goes to RXSIGNAL without a call of
`wlanframesync_estimate_eqgain_poly`, and its `G` and `R` hold `1 + 0i` on the NULL
subcarriers 0 and 27. -/
theorem eqgain_null_zero_not_kept (env : dsp_env) (G1b : List sample) :
    null_subcarriers.map (fun i =>
      ((wlanframesync_estimate_eqgain_poly env G1b).G.getD i 0,
        (wlanframesync_estimate_eqgain_poly env G1b).R.getD i 0)) =
      List.replicate 12 (0, 0) ∧
    null_subcarriers = [0, 27, 28, 29, 30, 31, 32, 33, 34, 35, 36, 37] ∧
    (sync_dirty 191).state = wlanframesync_state.WLANFRAMESYNC_STATE_RXLONG1 ∧
    rxlong_check env_reject (rxlong_statistic env_reject
      (wlanframesync_execute_push env_reject (sync_dirty 191) (0, 0))) = false ∧
    (wlanframesync_execute env_reject (wlanframesync_create true mem_ones) stream_s1_fail).map
      (fun r => (r.1.state, r.1.G.getD 0 0, r.1.R.getD 0 0, r.1.R.getD 27 0)) =
      some (wlanframesync_state.WLANFRAMESYNC_STATE_RXSIGNAL, (1, 0), (1, 0), (1, 0)) := by
  refine ⟨?_, null_subcarriers_eq, sync_dirty_run.1, sync_dirty_run.2.2.1,
    sync_dirty_run.2.2.2.1⟩
  rw [null_subcarriers_eq]
  simp only [List.map_cons, List.map_nil,
    (eqgain_null_entry env G1b 0 (by decide) (by decide)).1,
    (eqgain_null_entry env G1b 0 (by decide) (by decide)).2,
    (eqgain_null_entry env G1b 27 (by decide) (by decide)).1,
    (eqgain_null_entry env G1b 27 (by decide) (by decide)).2,
    (eqgain_null_entry env G1b 28 (by decide) (by decide)).1,
    (eqgain_null_entry env G1b 28 (by decide) (by decide)).2,
    (eqgain_null_entry env G1b 29 (by decide) (by decide)).1,
    (eqgain_null_entry env G1b 29 (by decide) (by decide)).2,
    (eqgain_null_entry env G1b 30 (by decide) (by decide)).1,
    (eqgain_null_entry env G1b 30 (by decide) (by decide)).2,
    (eqgain_null_entry env G1b 31 (by decide) (by decide)).1,
    (eqgain_null_entry env G1b 31 (by decide) (by decide)).2,
    (eqgain_null_entry env G1b 32 (by decide) (by decide)).1,
    (eqgain_null_entry env G1b 32 (by decide) (by decide)).2,
    (eqgain_null_entry env G1b 33 (by decide) (by decide)).1,
    (eqgain_null_entry env G1b 33 (by decide) (by decide)).2,
    (eqgain_null_entry env G1b 34 (by decide) (by decide)).1,
    (eqgain_null_entry env G1b 34 (by decide) (by decide)).2,
    (eqgain_null_entry env G1b 35 (by decide) (by decide)).1,
    (eqgain_null_entry env G1b 35 (by decide) (by decide)).2,
    (eqgain_null_entry env G1b 36 (by decide) (by decide)).1,
    (eqgain_null_entry env G1b 36 (by decide) (by decide)).2,
    (eqgain_null_entry env G1b 37 (by decide) (by decide)).1,
    (eqgain_null_entry env G1b 37 (by decide) (by decide)).2]
  rfl

/-! ## Lemmas on the assertion of RXDATA and on the retest of RXLONG0 -/

/-- The sample on which the timer of RXDATA reaches 80, when the repacker does not write
`bytes_per_symbol` bytes: `assert(num_written == _q->bytes_per_symbol)` fails and the turn
has no result. -/
theorem execute_sample_rxdata_abort (env : dsp_env) (q : wlanframesync_s) (x : sample)
    (hs : q.state = wlanframesync_state.WLANFRAMESYNC_STATE_RXDATA) (ht : q.timer = 79)
    (hrep : ∀ syms, (env.liquid_wlan_repack_bytes syms q.nbpsc 48 8
      q.bytes_per_symbol).num_written ≠ q.bytes_per_symbol) :
    wlanframesync_execute_sample env q x = none := by
  have hs1 := push_state env q x
  have ht1 := push_timer env q x
  obtain ⟨-, -, -, -, f5, f6⟩ := push_same_frame env q x
  unfold wlanframesync_execute_sample wlanframesync_execute_state
  generalize wlanframesync_execute_push env q x = p at *
  rw [hs] at hs1
  rw [ht] at ht1
  rw [← f5, ← f6] at hrep
  have hn : ¬ (p.timer + 1 < 80) := by omega
  simp only [hs1, wlanframesync_execute_rxdata, if_neg hn, if_pos (hrep _)]

/-- From RXDATA with timer 0, when the repacker does not write `bytes_per_symbol` bytes: the
first 79 samples are counted and the run on 80 samples or more has no result. -/
theorem execute_rxdata_abort (env : dsp_env) (q : wlanframesync_s) (xs : List sample)
    (hs : q.state = wlanframesync_state.WLANFRAMESYNC_STATE_RXDATA) (ht : q.timer = 0)
    (hrep : ∀ syms, (env.liquid_wlan_repack_bytes syms q.nbpsc 48 8
      q.bytes_per_symbol).num_written ≠ q.bytes_per_symbol) :
    (∀ n, n < 80 → ∃ qn, wlanframesync_execute env q (xs.take n) = some (qn, [])) ∧
    (80 ≤ xs.length → wlanframesync_execute env q xs = none) := by
  constructor
  · intro n hn
    refine ⟨_, execute_wait env q (xs.take n) ?_⟩
    have hl : (xs.take n).length ≤ n := by rw [List.length_take]; omega
    rw [ht, hs]
    simp only [state_period]
    omega
  · intro hlen
    have hl : (xs.take 80).length = 79 + 1 := by rw [List.length_take]; omega
    obtain ⟨x, hx⟩ := list_split_last (xs.take 80) 79 hl
    rw [List.take_take] at hx
    have hl79 : (xs.take 79).length = 79 := by rw [List.length_take]; omega
    have hw := execute_wait env q (xs.take 79) (by rw [hl79, ht, hs]; decide)
    obtain ⟨w1, w2, -, -, -, -, -, f5, f6⟩ := wait_samples_fields env q (xs.take 79)
    rw [hl79, ht] at w2
    have ha := execute_sample_rxdata_abort env _ x (w1.trans hs) (by rw [w2]; rfl)
      (by rw [f5, f6]; exact hrep)
    have hsplit : xs = xs.take (min 79 80) ++ ([x] ++ xs.drop 80) := by
      rw [← List.append_assoc, ← hx, List.take_append_drop]
    rw [hsplit, execute_append_eq, show min 79 80 = 79 from rfl, hw]
    simp only
    rw [List.singleton_append, execute_cons, ha]

/-- From RXLONG0 with timer 0: the next 15 samples are only counted, with the statistic of
the last test kept, and the S1 test is made on the 16th sample. -/
theorem execute_rxlong0_period (env : dsp_env) (q1 : wlanframesync_s) (xs : List sample)
    (y : sample) (hs : q1.state = wlanframesync_state.WLANFRAMESYNC_STATE_RXLONG0)
    (ht : q1.timer = 0) (hlen : xs.length = 15) :
    (∀ n, n ≤ 15 → ∃ qn, wlanframesync_execute env q1 (xs.take n) = some (qn, []) ∧
      qn.state = wlanframesync_state.WLANFRAMESYNC_STATE_RXLONG0 ∧ qn.timer = n ∧
      qn.s1a_hat = q1.s1a_hat) ∧
    ∃ q2, wlanframesync_execute env q1 (xs ++ [y]) = some (q2, []) ∧ q2.timer = 0 ∧
      q2.s1a_hat = rxlong_statistic env
        (wlanframesync_execute_push env (wait_samples env q1 xs) y) ∧
      q2.state =
        (if rxlong_check env (rxlong_statistic env
            (wlanframesync_execute_push env (wait_samples env q1 xs) y)) then
          wlanframesync_state.WLANFRAMESYNC_STATE_RXLONG1
        else wlanframesync_state.WLANFRAMESYNC_STATE_RXLONG0) := by
  constructor
  · intro n hn
    have hl : (xs.take n).length = n := by rw [List.length_take, hlen]; omega
    have hw := execute_wait env q1 (xs.take n)
      (by rw [hl, ht, hs]; simp only [state_period]; omega)
    obtain ⟨w1, w2, -, -⟩ := wait_samples_fields env q1 (xs.take n)
    rw [hl, ht] at w2
    exact ⟨_, hw, w1.trans hs, by rw [w2]; omega, (wait_samples_gains env q1 (xs.take n)).1⟩
  · have hw := execute_wait env q1 xs (by rw [hlen, ht, hs]; decide)
    obtain ⟨w1, w2, -, -⟩ := wait_samples_fields env q1 xs
    rw [hlen, ht] at w2
    obtain ⟨q2, t1, t2, t3, t4⟩ := execute_sample_rxlong0_test env _ y (w1.trans hs)
      (by rw [w2]; rfl)
    exact ⟨q2, execute_append_some env q1 _ q2 _ _ [] [] hw (execute_single env _ q2 y [] t1),
      t2, t4, t3⟩

theorem env_rate9_repack (syms : List Nat) (nbpsc n : Nat) :
    (env_rate9.liquid_wlan_repack_bytes syms nbpsc 48 8 n).num_written = 6 * nbpsc := rfl

/-- The run of `env_rate9` on samples `1 + 0i`: the SIGNAL field of rate 9 Mbit/s and length
1 is accepted on sample 256, with 1 symbol of 5 bytes, and the run on 336 samples has no
result. -/
theorem sync_rate9_run :
    (sync_rate9 256).state = wlanframesync_state.WLANFRAMESYNC_STATE_RXDATA ∧
    (sync_rate9 256).timer = 0 ∧ (sync_rate9 256).num_symbols = 0 ∧
    (sync_rate9 256).callback = true ∧ (sync_rate9 256).nsym = 1 ∧
    (sync_rate9 256).length = 1 ∧ (sync_rate9 256).rate = WLANFRAME_RATE_9 ∧
    (sync_rate9 256).nbpsc = 1 ∧ (sync_rate9 256).bytes_per_symbol = 5 ∧
    (sync_rate9 256).signal_valid = 1 ∧
    (wlanframesync_execute env_rate9 sync_created (stream_ones 336)).isNone = true := by
  decide!

theorem sync_rate9_stream_length : (stream_ones 80).length = 80 * (sync_rate9 256).nsym :=
  (stream_ones_length 80).trans (congrArg (fun k => 80 * k) sync_rate9_run.2.2.2.2.1.symm)

/-! ## The claims on the callback of RXDATA and on the failed S1 checks -/

/-- C14. From the state right after a valid SIGNAL field (RXDATA, timer 0, no symbol counted,
`nsym ≥ 1`) with a callback set, on `80 · nsym` samples, where `w` is the number of bytes
the repacker reports for a symbol.  If `w` is `bytes_per_symbol`, no callback is invoked on
any of the first `80 · nsym - 1` samples, exactly one is invoked on the last, its RX vector
carries the length and the rate of the object, and the synchronizer is then reset.  If `w`
is not `bytes_per_symbol`, the first 79 samples are counted without a callback and
`assert(num_written == _q->bytes_per_symbol)` fails on sample 80: the run on the samples,
and on every number `n ≥ 80` of them, has no result, so no callback is ever invoked. -/
theorem rxdata_callback_or_abort (env : dsp_env) (q : wlanframesync_s) (xs : List sample)
    (w : Nat) (hs : q.state = wlanframesync_state.WLANFRAMESYNC_STATE_RXDATA) (ht : q.timer = 0)
    (hn : q.num_symbols = 0) (h1 : 1 ≤ q.nsym) (h32 : q.nsym < 2 ^ 32)
    (hcb : q.callback = true)
    (hw : ∀ syms, (env.liquid_wlan_repack_bytes syms q.nbpsc 48 8
      q.bytes_per_symbol).num_written = w)
    (hlen : xs.length = 80 * q.nsym) :
    (w = q.bytes_per_symbol →
      (∀ n, n < 80 * q.nsym →
        ∃ qn, wlanframesync_execute env q (xs.take n) = some (qn, [])) ∧
      ∃ q1 c, wlanframesync_execute env q xs = some (q1, [c]) ∧
        c.rxvector.LENGTH = q.length ∧ c.rxvector.DATARATE = q.rate ∧
        q1.state = wlanframesync_state.WLANFRAMESYNC_STATE_SEEKPLCP ∧ q1.timer = 0 ∧
        q1.num_symbols = 0) ∧
    (w ≠ q.bytes_per_symbol →
      (∀ n, n < 80 →
        ∃ qn, wlanframesync_execute env q (xs.take n) = some (qn, [])) ∧
      (∀ n, 80 ≤ n → wlanframesync_execute env q (xs.take n) = none) ∧
      wlanframesync_execute env q xs = none) := by
  constructor
  · intro hb
    exact rxdata_callback_once env q xs hs ht hn h1 h32 hcb (fun syms => by rw [hw, hb]) hlen
  · intro hb
    have hrep : ∀ syms, (env.liquid_wlan_repack_bytes syms q.nbpsc 48 8
        q.bytes_per_symbol).num_written ≠ q.bytes_per_symbol := fun syms => by rw [hw]; exact hb
    refine ⟨(execute_rxdata_abort env q xs hs ht hrep).1, fun n hn80 => ?_,
      (execute_rxdata_abort env q xs hs ht hrep).2 (by rw [hlen]; omega)⟩
    exact (execute_rxdata_abort env q (xs.take n) hs ht hrep).2
      (by rw [List.length_take, hlen]; omega)

/-- Witness for C14: with `env_rate9` the SIGNAL field of rate 9 Mbit/s and length 1 is
accepted on sample 256 with `nsym = 1` and `bytes_per_symbol = 5`; the repacker writes the 6
bytes of 48 symbols of 1 bit, so the assertion fails on the 80th sample of the DATA symbol:
no callback is invoked and the run from the created object on 336 samples has no result.
With `env_accept` (rate 6 Mbit/s, length 1, 2 symbols, a repacker that writes
`bytes_per_symbol` bytes) the callback is invoked once, on sample 160. -/
theorem rxdata_callback_or_abort_witness :
    (sync_rate9 256).state = wlanframesync_state.WLANFRAMESYNC_STATE_RXDATA ∧
    (sync_rate9 256).timer = 0 ∧ (sync_rate9 256).num_symbols = 0 ∧
    (sync_rate9 256).callback = true ∧ (sync_rate9 256).nsym = 1 ∧
    (sync_rate9 256).signal_valid = 1 ∧
    (sync_rate9 256).rate = WLANFRAME_RATE_9 ∧ (sync_rate9 256).length = 1 ∧
    (sync_rate9 256).bytes_per_symbol = 5 ∧ 6 * (sync_rate9 256).nbpsc = 6 ∧
    (wlanframesync_execute env_rate9 sync_created (stream_ones 336)).isNone = true ∧
    ((∀ n, n < 80 → ∃ qn,
        wlanframesync_execute env_rate9 (sync_rate9 256) ((stream_ones 80).take n) =
          some (qn, [])) ∧
      (∀ n, 80 ≤ n →
        wlanframesync_execute env_rate9 (sync_rate9 256) ((stream_ones 80).take n) = none) ∧
      wlanframesync_execute env_rate9 (sync_rate9 256) (stream_ones 80) = none) ∧
    ((∀ n, n < 80 * (sync_accept 256).nsym → ∃ qn,
        wlanframesync_execute env_accept (sync_accept 256) ((stream_ones 160).take n) =
          some (qn, [])) ∧
      ∃ q1 c, wlanframesync_execute env_accept (sync_accept 256) (stream_ones 160) =
          some (q1, [c]) ∧
        c.rxvector.LENGTH = (sync_accept 256).length ∧
        c.rxvector.DATARATE = (sync_accept 256).rate ∧
        q1.state = wlanframesync_state.WLANFRAMESYNC_STATE_SEEKPLCP ∧ q1.timer = 0 ∧
        q1.num_symbols = 0) :=
  ⟨sync_rate9_run.1, sync_rate9_run.2.1, sync_rate9_run.2.2.1, sync_rate9_run.2.2.2.1,
    sync_rate9_run.2.2.2.2.1, sync_rate9_run.2.2.2.2.2.2.2.2.2.1,
    sync_rate9_run.2.2.2.2.2.2.1, sync_rate9_run.2.2.2.2.2.1,
    sync_rate9_run.2.2.2.2.2.2.2.2.1, by rw [sync_rate9_run.2.2.2.2.2.2.2.1],
    sync_rate9_run.2.2.2.2.2.2.2.2.2.2,
    (rxdata_callback_or_abort env_rate9 (sync_rate9 256) (stream_ones 80)
      (6 * (sync_rate9 256).nbpsc) sync_rate9_run.1 sync_rate9_run.2.1 sync_rate9_run.2.2.1
      (by rw [sync_rate9_run.2.2.2.2.1]) (by rw [sync_rate9_run.2.2.2.2.1]; decide)
      sync_rate9_run.2.2.2.1 (fun syms => env_rate9_repack syms _ _)
      sync_rate9_stream_length).2
      (by rw [sync_rate9_run.2.2.2.2.2.2.2.1, sync_rate9_run.2.2.2.2.2.2.2.2.1]; decide),
    (rxdata_callback_or_abort env_accept (sync_accept 256) (stream_ones 160)
      (sync_accept 256).bytes_per_symbol sync_accept_256.1 sync_accept_256.2.1
      sync_accept_256.2.2.1 (by rw [sync_accept_256.2.2.2.2.1]; decide)
      (by rw [sync_accept_256.2.2.2.2.1]; decide) sync_accept_256.2.2.2.1
      (fun syms => env_accept_repack syms _ _) sync_accept_stream_length).1 rfl⟩

/-- C15, amended. On the sample on which the S1 check is made and fails (timer 15 in
RXLONG0, timer 63 in RXLONG1) no callback is invoked, the timer becomes 0 and the state is
not SEEK.  From RXLONG0 the state stays RXLONG0: each of the next 15 samples `xs` is only
counted (state RXLONG0, timer `n` after `n` of them, the statistic of the failed check
kept, no callback), and the check is made again on the 16th sample `y` after the failed
one, on the window of that sample, with RXLONG1 if it passes and RXLONG0 if it fails.  From
RXLONG1 the state becomes RXSIGNAL, as after a passed check. -/
theorem s1_check_failure (env : dsp_env) (q : wlanframesync_s) (x y : sample)
    (xs : List sample)
    (hs : (q.state = wlanframesync_state.WLANFRAMESYNC_STATE_RXLONG0 ∧ q.timer = 15) ∨
      (q.state = wlanframesync_state.WLANFRAMESYNC_STATE_RXLONG1 ∧ q.timer = 63))
    (hc : rxlong_check env (rxlong_statistic env (wlanframesync_execute_push env q x)) = false)
    (hlen : xs.length = 15) :
    ∃ q1, wlanframesync_execute_sample env q x = some (q1, []) ∧ q1.timer = 0 ∧
      q1.state ≠ wlanframesync_state.WLANFRAMESYNC_STATE_SEEKPLCP ∧
      (q.state = wlanframesync_state.WLANFRAMESYNC_STATE_RXLONG0 →
        q1.state = wlanframesync_state.WLANFRAMESYNC_STATE_RXLONG0 ∧
        (∀ n, n ≤ 15 → ∃ qn, wlanframesync_execute env q1 (xs.take n) = some (qn, []) ∧
          qn.state = wlanframesync_state.WLANFRAMESYNC_STATE_RXLONG0 ∧ qn.timer = n ∧
          qn.s1a_hat = q1.s1a_hat) ∧
        ∃ q2, wlanframesync_execute env q1 (xs ++ [y]) = some (q2, []) ∧ q2.timer = 0 ∧
          q2.s1a_hat = rxlong_statistic env
            (wlanframesync_execute_push env (wait_samples env q1 xs) y) ∧
          q2.state =
            (if rxlong_check env (rxlong_statistic env
                (wlanframesync_execute_push env (wait_samples env q1 xs) y)) then
              wlanframesync_state.WLANFRAMESYNC_STATE_RXLONG1
            else wlanframesync_state.WLANFRAMESYNC_STATE_RXLONG0)) ∧
      (q.state = wlanframesync_state.WLANFRAMESYNC_STATE_RXLONG1 →
        q1.state = wlanframesync_state.WLANFRAMESYNC_STATE_RXSIGNAL) := by
  rcases hs with ⟨hs, ht⟩ | ⟨hs, ht⟩
  · obtain ⟨q1, r1, r2, r3, -⟩ := execute_sample_rxlong0_test env q x hs ht
    rw [hc] at r3
    simp only [Bool.false_eq_true, if_false] at r3
    refine ⟨q1, r1, r2, by rw [r3]; decide, fun _ => ?_, fun h => ?_⟩
    · exact ⟨r3, execute_rxlong0_period env q1 xs y r3 r2 hlen⟩
    · rw [hs] at h; cases h
  · obtain ⟨q1, r1, r2, r3, -⟩ := execute_sample_rxlong1_fail env q x hs ht hc
    refine ⟨q1, r1, r2, by rw [r3]; decide, fun h => ?_, fun _ => r3⟩
    rw [hs] at h; cases h

/-- Witness for C15: the two failed checks of the stream `stream_s1_fail`, on sample 112 in
RXLONG0, followed by 15 samples `0 + 0i` and one more, and on sample 192 in RXLONG1. -/
theorem s1_check_failure_witness :
    (sync_s1_fail 111).state = wlanframesync_state.WLANFRAMESYNC_STATE_RXLONG0 ∧
    (sync_s1_fail 191).state = wlanframesync_state.WLANFRAMESYNC_STATE_RXLONG1 ∧
    (∃ q1, wlanframesync_execute_sample env_reject (sync_s1_fail 111) (0, 0) = some (q1, []) ∧
      q1.state = wlanframesync_state.WLANFRAMESYNC_STATE_RXLONG0 ∧ q1.timer = 0 ∧
      (∀ n, n ≤ 15 → ∃ qn,
        wlanframesync_execute env_reject q1 ((stream_zeros 15).take n) = some (qn, []) ∧
        qn.state = wlanframesync_state.WLANFRAMESYNC_STATE_RXLONG0 ∧ qn.timer = n ∧
        qn.s1a_hat = q1.s1a_hat) ∧
      ∃ q2, wlanframesync_execute env_reject q1 (stream_zeros 15 ++ [(1, 0)]) =
          some (q2, []) ∧ q2.timer = 0) ∧
    (∃ q1, wlanframesync_execute_sample env_reject (sync_s1_fail 191) (0, 0) = some (q1, []) ∧
      q1.state = wlanframesync_state.WLANFRAMESYNC_STATE_RXSIGNAL ∧ q1.timer = 0) := by
  obtain ⟨q1, a1, a2, -, a4, -⟩ := s1_check_failure env_reject (sync_s1_fail 111) (0, 0) (1, 0)
    (stream_zeros 15) (Or.inl ⟨sync_s1_fail_112.1, sync_s1_fail_112.2.1⟩)
    sync_s1_fail_112.2.2.1 (stream_zeros_length 15)
  obtain ⟨b1, b2, q2, b3, b4, -⟩ := a4 sync_s1_fail_112.1
  obtain ⟨p1, c1, c2, -, -, c5⟩ := s1_check_failure env_reject (sync_s1_fail 191) (0, 0) (1, 0)
    (stream_zeros 15) (Or.inr ⟨sync_s1_fail_192.1, sync_s1_fail_192.2.1⟩)
    sync_s1_fail_192.2.2.1 (stream_zeros_length 15)
  exact ⟨sync_s1_fail_112.1, sync_s1_fail_192.1, ⟨q1, a1, b1, a2, b2, q2, b3, b4⟩,
    ⟨p1, c1, c5 sync_s1_fail_192.1, c2⟩⟩

end WLAN
